import Mathlib

/-! Tax computation engine of `CryptoExplor/computation`.

Shallow embedding of `src/utils/computeTax.js` (and of the copy of `computeTax`
inlined in `app.jsx`), of `src/utils/parseITR.js` (and of the copy `parseITR` inlined
in `app.jsx`), of `src/utils/exportCSV.js`, and of the rule table `taxRules` of
`app.jsx`.

Modelling conventions:

* A JavaScript number is a `JSNum`: `NaN`, `-Infinity`, `+Infinity` or a finite value,
  the finite values being exact rationals (binary rounding and the sign of zero are
  not modelled).  Every arithmetic operator and `Math.min` / `Math.max` /
  `<=` / `<` / `>=` / truthiness of the source is one operation on `JSNum`.
* A property that may be absent (`rule.seniorSlabs`, `rule.rebate87A`, an entry of
  the table) is an `Option`; `undefined` is `none`.
* A `TypeError` raised by the source is `Except.error JSError.typeError`.
* `taxRules[key]` finds an own entry of the table or, the table being an object
  literal, a property inherited from `Object.prototype` (`readRule`).
* `console.warn` / `console.error` diagnostics are not part of the result.
* The result of `exportAllClientsToCsv` is the text `csvContent` that it hands to the
  browser; the download itself is not modelled.
-/

namespace TaxEngine

/-! ## JavaScript numbers -/

/-- A JavaScript number: `NaN`, the two infinities, or a finite (rational) value. -/
inductive JSNum where
  | nan
  | negInf
  | fin (q : ℚ)
  | posInf
deriving DecidableEq

namespace JSNum

/-- The binary `+` of the source on numbers. -/
def add : JSNum → JSNum → JSNum
  | nan, _ => nan
  | _, nan => nan
  | fin a, fin b => fin (a + b)
  | fin _, posInf => posInf
  | fin _, negInf => negInf
  | posInf, negInf => nan
  | posInf, _ => posInf
  | negInf, posInf => nan
  | negInf, _ => negInf

/-- The binary `-` of the source on numbers. -/
def sub : JSNum → JSNum → JSNum
  | nan, _ => nan
  | _, nan => nan
  | fin a, fin b => fin (a - b)
  | fin _, posInf => negInf
  | fin _, negInf => posInf
  | posInf, posInf => nan
  | posInf, _ => posInf
  | negInf, negInf => nan
  | negInf, _ => negInf

/-- Product of an infinity (`pos = true` for `+Infinity`) with the finite value `q`. -/
def infMul (pos : Bool) (q : ℚ) : JSNum :=
  if q = 0 then nan
  else if pos = decide (0 < q) then posInf
  else negInf

/-- The binary `*` of the source on numbers. -/
def mul : JSNum → JSNum → JSNum
  | nan, _ => nan
  | _, nan => nan
  | fin a, fin b => fin (a * b)
  | fin a, posInf => infMul true a
  | fin a, negInf => infMul false a
  | posInf, fin b => infMul true b
  | negInf, fin b => infMul false b
  | posInf, posInf => posInf
  | posInf, negInf => negInf
  | negInf, posInf => negInf
  | negInf, negInf => posInf

/-- The comparison `a <= b` of the source: false as soon as one side is `NaN`. -/
def le : JSNum → JSNum → Bool
  | nan, _ => false
  | _, nan => false
  | negInf, _ => true
  | _, posInf => true
  | fin a, fin b => decide (a ≤ b)
  | fin _, negInf => false
  | posInf, _ => false

/-- The comparison `a < b` of the source: false as soon as one side is `NaN`. -/
def lt : JSNum → JSNum → Bool
  | nan, _ => false
  | _, nan => false
  | posInf, _ => false
  | _, negInf => false
  | fin a, fin b => decide (a < b)
  | negInf, _ => true
  | fin _, posInf => true

/-- The comparison `a >= b` of the source. -/
def ge (a b : JSNum) : Bool := le b a

/-- The two-argument `Math.min`: `NaN` as soon as one argument is `NaN`. -/
def min : JSNum → JSNum → JSNum
  | nan, _ => nan
  | _, nan => nan
  | negInf, _ => negInf
  | _, negInf => negInf
  | posInf, b => b
  | a, posInf => a
  | fin a, fin b => fin (Min.min a b)

/-- The two-argument `Math.max`: `NaN` as soon as one argument is `NaN`. -/
def max : JSNum → JSNum → JSNum
  | nan, _ => nan
  | _, nan => nan
  | posInf, _ => posInf
  | _, posInf => posInf
  | negInf, b => b
  | a, negInf => a
  | fin a, fin b => fin (Max.max a b)

/-- Truthiness of a number: every number except `0` and `NaN` is truthy. -/
def truthy : JSNum → Bool
  | nan => false
  | fin q => decide (q ≠ 0)
  | _ => true

end JSNum

open JSNum

/-! ## Data model (`taxRules` of `app.jsx`, lines 39-98) -/

/-- One slab `{ limit, rate }`: income up to `limit` is taxed at `rate`. -/
structure Slab where
  limit : JSNum
  rate : JSNum
deriving DecidableEq

/-- The `rebate87A` object `{ limit, maxRebate }` of a rule. -/
structure Rebate87A where
  limit : JSNum
  maxRebate : JSNum
deriving DecidableEq

/-- One entry of the rule table.  A property that the object literal may omit is an
`Option`; a missing numeric property reads as `undefined`, which every use in
`computeTax` treats like `NaN`, so `cessRate` is a plain `JSNum`. -/
structure Rule where
  regime : String
  slabs : Option (List Slab)
  seniorSlabs : Option (List Slab)
  superSeniorSlabs : Option (List Slab)
  cessRate : JSNum
  rebate87A : Option Rebate87A
deriving DecidableEq

/-- The general slabs shared by the two Old-regime entries. -/
def oldSlabs : List Slab :=
  [ ⟨fin 250000, fin 0⟩,
    ⟨fin 500000, fin (5 / 100)⟩,
    ⟨fin 1000000, fin (20 / 100)⟩,
    ⟨posInf, fin (30 / 100)⟩ ]

/-- The `seniorSlabs` (age 60 to 80) shared by the two Old-regime entries. -/
def oldSeniorSlabs : List Slab :=
  [ ⟨fin 300000, fin 0⟩,
    ⟨fin 500000, fin (5 / 100)⟩,
    ⟨fin 1000000, fin (20 / 100)⟩,
    ⟨posInf, fin (30 / 100)⟩ ]

/-- The `superSeniorSlabs` (age 80+) shared by the two Old-regime entries. -/
def oldSuperSeniorSlabs : List Slab :=
  [ ⟨fin 500000, fin 0⟩,
    ⟨fin 1000000, fin (20 / 100)⟩,
    ⟨posInf, fin (30 / 100)⟩ ]

/-- The slabs of the entry `"2024-25-new"`. -/
def newSlabs : List Slab :=
  [ ⟨fin 300000, fin 0⟩,
    ⟨fin 600000, fin (5 / 100)⟩,
    ⟨fin 900000, fin (10 / 100)⟩,
    ⟨fin 1200000, fin (15 / 100)⟩,
    ⟨fin 1500000, fin (20 / 100)⟩,
    ⟨posInf, fin (30 / 100)⟩ ]

/-- Entry `"2023-24"` of `taxRules`. -/
def rule_2023_24 : Rule :=
  { regime := "Old"
    slabs := some oldSlabs
    seniorSlabs := some oldSeniorSlabs
    superSeniorSlabs := some oldSuperSeniorSlabs
    cessRate := fin (4 / 100)
    rebate87A := some ⟨fin 500000, fin 12500⟩ }

/-- Entry `"2024-25"` of `taxRules`. -/
def rule_2024_25 : Rule :=
  { regime := "Old"
    slabs := some oldSlabs
    seniorSlabs := some oldSeniorSlabs
    superSeniorSlabs := some oldSuperSeniorSlabs
    cessRate := fin (4 / 100)
    rebate87A := some ⟨fin 500000, fin 12500⟩ }

/-- Entry `"2024-25-new"` of `taxRules`. -/
def rule_2024_25_new : Rule :=
  { regime := "New"
    slabs := some newSlabs
    seniorSlabs := none
    superSeniorSlabs := none
    cessRate := fin (4 / 100)
    rebate87A := some ⟨fin 700000, fin 25000⟩ }

/-- The rule table `taxRules`, read as `taxRules[key]`. -/
def taxRules (key : String) : Option Rule :=
  if key = "2023-24" then some rule_2023_24
  else if key = "2024-25" then some rule_2024_25
  else if key = "2024-25-new" then some rule_2024_25_new
  else none

/-- The names of the properties that the object literal `taxRules` inherits from
`Object.prototype`. -/
def inheritedKeys : List String :=
  ["constructor", "hasOwnProperty", "isPrototypeOf", "propertyIsEnumerable",
   "toLocaleString", "toString", "valueOf", "__proto__", "__defineGetter__",
   "__defineSetter__", "__lookupGetter__", "__lookupSetter__"]

/-- An inherited property read as a rule: the value is truthy and has none of the
properties that `computeTax` reads. -/
def inheritedValue : Rule :=
  { regime := ""
    slabs := none
    seniorSlabs := none
    superSeniorSlabs := none
    cessRate := nan
    rebate87A := none }

/-- The read `taxRules[key]` of line 25: an own entry of the table, else a property
inherited from `Object.prototype`, else `undefined`. -/
def readRule (key : String) : Option Rule :=
  match taxRules key with
  | some rule => some rule
  | none => if key ∈ inheritedKeys then some inheritedValue else none

/-! ## `computeTax` (`src/utils/computeTax.js`, lines 14-77) -/

/-- An exception raised by the source. -/
inductive JSError where
  | typeError
deriving DecidableEq

/-- The object `{ tax, cess, totalTax, rebate }` returned by `computeTax`. -/
structure TaxResult where
  tax : JSNum
  cess : JSNum
  totalTax : JSNum
  rebate : JSNum
deriving DecidableEq

/-- The rule key: `ay + "-new"` for regime `"New"`, `ay` for every other regime
(lines 19-23). -/
def ruleKey (ay regime : String) : String :=
  if regime = "New" then ay ++ "-new" else ay

/-- The slab selection of lines 37-47 for a rule that was found. -/
def selectSlabs (rule : Rule) (age : JSNum) (regime : String) : Option (List Slab) :=
  if regime = "Old" then
    if age.ge (fin 80) && rule.superSeniorSlabs.isSome then rule.superSeniorSlabs
    else if age.ge (fin 60) && rule.seniorSlabs.isSome then rule.seniorSlabs
    else rule.slabs
  else rule.slabs

/-- The `for (const slab of slabsToUse)` loop of lines 59-64, started in the state
`(tax, prevLimit)`; the result is the final value of `tax`. -/
def slabLoop (income : JSNum) : List Slab → JSNum → JSNum → JSNum
  | [], tax, _ => tax
  | slab :: rest, tax, prevLimit =>
    let taxableAmountInSlab := JSNum.min (slab.limit.sub prevLimit) (income.sub prevLimit)
    if taxableAmountInSlab.le (fin 0) then tax
    else slabLoop income rest (tax.add (taxableAmountInSlab.mul slab.rate)) slab.limit

/-- The rebate of lines 66-70 of `utils/computeTax.js`: `rule.rebate87A && income <=
rule.rebate87A.limit` guards `rebate = Math.min(tax, rule.rebate87A.maxRebate)`. -/
def rebateOf (rule : Rule) (income tax : JSNum) : JSNum :=
  match rule.rebate87A with
  | some r => if income.le r.limit then JSNum.min tax r.maxRebate else fin 0
  | none => fin 0

/-- The cess rate `rule.cessRate || 0.04` of line 73 of `utils/computeTax.js`. -/
def cessRateOf (rule : Rule) : JSNum :=
  if rule.cessRate.truthy then rule.cessRate else fin (4 / 100)

/-- Lines 55-76 of `utils/computeTax.js`: slab loop, 87A rebate, cess and the returned
object, for the rule and the slabs that were selected. -/
def finishTax (rule : Rule) (income : JSNum) (slabsToUse : List Slab) : TaxResult :=
  let tax := slabLoop income slabsToUse (fin 0) (fin 0)
  let rebate := rebateOf rule income tax
  let taxAfterRebate := JSNum.max (fin 0) (tax.sub rebate)
  let cess := taxAfterRebate.mul (cessRateOf rule)
  let totalTax := taxAfterRebate.add cess
  ⟨taxAfterRebate, cess, totalTax, rebate⟩

/-- The function `computeTax` of `utils/computeTax.js` over a given rule table.
In the branch `!rule` the source reads `fallbackRule.slabs` (a `TypeError` when the
table has no `"2024-25"` entry) and then assigns `rule.cessRate = ...` with `rule`
being `undefined`, which raises a `TypeError`. -/
def computeTaxWith (table : String → Option Rule) (income age : JSNum)
    (ay regime : String) : Except JSError TaxResult :=
  match table (ruleKey ay regime) with
  | none =>
    match table "2024-25" with
    | none => Except.error JSError.typeError
    | some _fallbackRule => Except.error JSError.typeError
  | some rule =>
    match selectSlabs rule age regime with
    | none => Except.ok ⟨fin 0, fin 0, fin 0, fin 0⟩
    | some slabsToUse => Except.ok (finishTax rule income slabsToUse)

/-- The function `computeTax` of `utils/computeTax.js` on the rule table `taxRules`. -/
def computeTax (income age : JSNum) (ay regime : String) : Except JSError TaxResult :=
  computeTaxWith readRule income age ay regime

/-! ## The copy of `computeTax` inlined in `app.jsx` (lines 114-173) -/

namespace App

/-- Lines 153-172 of `app.jsx`.  Unlike `utils/computeTax.js` the rebate test reads
`rule.rebate87A.limit` without a guard (a `TypeError` when the rule has no
`rebate87A`) and the cess uses `rule.cessRate` as it is. -/
def finishTax (rule : Rule) (income : JSNum) (slabsToUse : List Slab) :
    Except JSError TaxResult :=
  let tax := slabLoop income slabsToUse (fin 0) (fin 0)
  match rule.rebate87A with
  | none => Except.error JSError.typeError
  | some r =>
    let rebate := if income.le r.limit then JSNum.min tax r.maxRebate else fin 0
    let taxAfterRebate := JSNum.max (fin 0) (tax.sub rebate)
    let cess := taxAfterRebate.mul rule.cessRate
    let totalTax := taxAfterRebate.add cess
    Except.ok ⟨taxAfterRebate, cess, totalTax, rebate⟩

/-- The function `computeTax` of `app.jsx` over a given rule table. -/
def computeTaxWith (table : String → Option Rule) (income age : JSNum)
    (ay regime : String) : Except JSError TaxResult :=
  match table (ruleKey ay regime) with
  | none =>
    match table "2024-25" with
    | none => Except.error JSError.typeError
    | some _fallbackRule => Except.error JSError.typeError
  | some rule =>
    match selectSlabs rule age regime with
    | none => Except.ok ⟨fin 0, fin 0, fin 0, fin 0⟩
    | some slabsToUse => finishTax rule income slabsToUse

/-- The function `computeTax` of `app.jsx` on the rule table `taxRules`. -/
def computeTax (income age : JSNum) (ay regime : String) : Except JSError TaxResult :=
  computeTaxWith readRule income age ay regime

end App

/-! ## JavaScript values and the documents read by `parseITRJson`

Modelling conventions for `src/utils/parseITR.js`:

* A raw input is a `JSVal`: `undefined`, `null`, a boolean, a number, a string, an
  array or an object whose fields are the own properties produced by `JSON.parse`
  (each key once).
* `a?.key` is `JSVal.get`: `undefined` on `undefined` and `null`, the own field on an
  object, and `undefined` on every other value, none of the keys read by the source
  being a built-in property of a string, number, boolean or array.
* The conversions of the language that are not arithmetic (string to number, number
  to string, array or object to primitive), the parsing of dates and the clock are
  fields of a `Host`; every property is proved for every host.
* `try { ... } catch { return null }` turns every raised error into `none`.
-/

/-- A JavaScript value as it comes out of `JSON.parse`, or `undefined`. -/
inductive JSVal where
  | undefined
  | null
  | bool (b : Bool)
  | num (n : JSNum)
  | str (s : String)
  | arr (items : List JSVal)
  | obj (fields : List (String × JSVal))

/-- The local calendar components of a valid `Date`: `getFullYear()`, `getMonth()`
(0 for January) and `getDate()`. -/
structure YMD where
  year : Int
  month : Int
  date : Int
deriving DecidableEq

/-- The parts of the JavaScript host that the model does not compute. -/
structure Host where
  /-- `StringToNumber`, the numeric value of a string. -/
  strToNum : String → JSNum
  /-- `Number::toString`, the string of a number. -/
  numToStr : JSNum → String
  /-- `ToPrimitive` of an array or an object: a string, or a `TypeError`. -/
  objToPrim : JSVal → Except JSError String
  /-- Local components of `new Date(s)` for a string `s`; `none` is `Invalid Date`. -/
  parseDate : String → Option YMD
  /-- Local components of `new Date(n)` for a number `n`; `none` is `Invalid Date`. -/
  dateOfNumber : JSNum → Option YMD
  /-- Local components of `new Date()` at the call of `calculateAge`. -/
  today : YMD
  /-- The string `new Date().toISOString()` at the end of `parseITRJson`. -/
  nowISO : String

namespace JSVal

/-- The property read `v?.key` (and `v.key` on a value that is not nullish). -/
def get : JSVal → String → JSVal
  | obj fields, key => (fields.lookup key).getD undefined
  | _, _ => undefined

/-- Truthiness: `undefined`, `null`, `false`, `0`, `NaN` and `""` are falsy. -/
def truthy : JSVal → Bool
  | undefined => false
  | null => false
  | bool b => b
  | num n => n.truthy
  | str s => decide (s ≠ "")
  | arr _ => true
  | obj _ => true

/-- The operator `a || b`. -/
def or (a b : JSVal) : JSVal :=
  if a.truthy then a else b

/-- The test `v === s` for a string literal `s`. -/
def strictEqStr : JSVal → String → Bool
  | str t, s => decide (t = s)
  | _, _ => false

/-- `ToPrimitive`: arrays and objects are converted by the host. -/
def toPrimitive (host : Host) : JSVal → Except JSError JSVal
  | arr items => (host.objToPrim (arr items)).map str
  | obj fields => (host.objToPrim (obj fields)).map str
  | v => Except.ok v

/-- `ToNumber`. -/
def toNumber (host : Host) : JSVal → Except JSError JSNum
  | undefined => Except.ok nan
  | null => Except.ok (fin 0)
  | bool b => Except.ok (fin (if b then 1 else 0))
  | num n => Except.ok n
  | str s => Except.ok (host.strToNum s)
  | arr items => (host.objToPrim (arr items)).map host.strToNum
  | obj fields => (host.objToPrim (obj fields)).map host.strToNum

/-- `ToString`. -/
def toStringJS (host : Host) : JSVal → Except JSError String
  | undefined => Except.ok "undefined"
  | null => Except.ok "null"
  | bool b => Except.ok (if b then "true" else "false")
  | num n => Except.ok (host.numToStr n)
  | str s => Except.ok s
  | arr items => host.objToPrim (arr items)
  | obj fields => host.objToPrim (obj fields)

/-- The operator `a - b`. -/
def sub (host : Host) (a b : JSVal) : Except JSError JSNum :=
  match toNumber host a with
  | Except.error e => Except.error e
  | Except.ok x =>
    match toNumber host b with
    | Except.error e => Except.error e
    | Except.ok y => Except.ok (x.sub y)

/-- The operator `+` on two primitives: concatenation as soon as one is a string. -/
def addPrim (host : Host) (pa pb : JSVal) : Except JSError JSVal :=
  match pa, pb with
  | str s, _ =>
    match toStringJS host pb with
    | Except.error e => Except.error e
    | Except.ok t => Except.ok (str (s ++ t))
  | _, str t =>
    match toStringJS host pa with
    | Except.error e => Except.error e
    | Except.ok s => Except.ok (str (s ++ t))
  | _, _ =>
    match toNumber host pa with
    | Except.error e => Except.error e
    | Except.ok x =>
      match toNumber host pb with
      | Except.error e => Except.error e
      | Except.ok y => Except.ok (num (x.add y))

/-- The operator `a + b`. -/
def add (host : Host) (a b : JSVal) : Except JSError JSVal :=
  match toPrimitive host a with
  | Except.error e => Except.error e
  | Except.ok pa =>
    match toPrimitive host b with
    | Except.error e => Except.error e
    | Except.ok pb => addPrim host pa pb

end JSVal

open JSVal

/-! ## `calculateAge` (`src/utils/computeTax.js`, lines 84-94) -/

/-- The date `new Date(v)`: a string is parsed, an array or object is first converted
to a string, every other value is converted to a number of milliseconds. -/
def newDate (host : Host) : JSVal → Except JSError (Option YMD)
  | str s => Except.ok (host.parseDate s)
  | arr items => (host.objToPrim (arr items)).map host.parseDate
  | obj fields => (host.objToPrim (obj fields)).map host.parseDate
  | undefined => Except.ok (host.dateOfNumber nan)
  | null => Except.ok (host.dateOfNumber (fin 0))
  | JSVal.bool b => Except.ok (host.dateOfNumber (fin (if b then 1 else 0)))
  | num n => Except.ok (host.dateOfNumber n)

/-- Lines 88-93 on the components of two valid dates: the difference of the years,
less one when `m < 0 || (m === 0 && today.getDate() < dob.getDate())`. -/
def ageFromParts (today dob : YMD) : Int :=
  let age := today.year - dob.year
  let m := today.month - dob.month
  if m < 0 ∨ (m = 0 ∧ today.date < dob.date) then age - 1 else age

/-- Lines 88-93 for a date of birth that may be `Invalid Date`: its components are
then `NaN`, both tests are false and the result is `NaN`. -/
def ageOf (today : YMD) : Option YMD → JSNum
  | none => nan
  | some dob => fin (ageFromParts today dob)

/-- The function `calculateAge`. -/
def calculateAge (host : Host) (dobStr : JSVal) : Except JSError JSNum :=
  if dobStr.truthy then
    match newDate host dobStr with
    | Except.error e => Except.error e
    | Except.ok dob => Except.ok (ageOf host.today dob)
  else Except.ok (fin 30)

/-! ## `parseITRJson` (`src/utils/parseITR.js`, lines 12-99) -/

/-- The object `capitalGains` of `incomeDetails`. -/
structure CapitalGains where
  shortTerm : JSVal
  longTerm : JSVal

/-- The object `incomeDetails`. -/
structure IncomeDetails where
  salary : JSVal
  houseProperty : JSVal
  businessIncome : JSVal
  capitalGains : CapitalGains
  otherSources : JSVal
  grossTotalIncome : JSVal

/-- The object `deductions`. -/
structure Deductions where
  section80C : JSVal
  section80D : JSVal
  section80G : JSVal
  totalDeductions : JSVal

/-- The object `taxComputation`. -/
structure TaxComputation where
  taxOnIncome : JSNum
  cess : JSNum
  totalTaxLiability : JSNum
  rebate87A : JSNum

/-- The object `taxPaid`. -/
structure TaxPaid where
  tdsSalary : JSVal
  tdsOthers : JSVal
  advanceTax : JSVal
  selfAssessmentTax : JSVal
  totalTaxPaid : JSVal

/-- The object `finalSettlement`. -/
structure FinalSettlement where
  taxLiability : JSNum
  taxPaid : JSVal
  refundDue : JSNum
  taxPayable : JSNum

/-- The object `clientData` returned by `parseITRJson`. -/
structure ClientData where
  name : JSVal
  pan : JSVal
  assessmentYear : JSVal
  filingStatus : JSVal
  age : JSNum
  taxRegime : String
  incomeDetails : IncomeDetails
  deductions : Deductions
  netTaxableIncome : JSNum
  taxComputation : TaxComputation
  taxPaid : TaxPaid
  finalSettlement : FinalSettlement
  notes : String
  uploadedAt : String

/-- The call `items.reduce((sum, item) => sum + (item?.key || 0), sum0)`. -/
def reduceSum (host : Host) (key : String) : List JSVal → JSVal → Except JSError JSVal
  | [], sum => Except.ok sum
  | item :: rest, sum =>
    match JSVal.add host sum ((item.get key).or (num (fin 0))) with
    | Except.error e => Except.error e
    | Except.ok next => reduceSum host key rest next

/-- The expression `field?.reduce((sum, item) => sum + (item?.key || 0), 0) || 0` of
lines 73-76: `0` for a nullish field, the reduction for an array, and a `TypeError`
for every other value, which has no function `reduce`. -/
def sumField (host : Host) (field : JSVal) (key : String) : Except JSError JSVal :=
  match field with
  | undefined => Except.ok (num (fin 0))
  | null => Except.ok (num (fin 0))
  | arr items =>
    match reduceSum host key items (num (fin 0)) with
    | Except.error e => Except.error e
    | Except.ok total => Except.ok (total.or (num (fin 0)))
  | _ => Except.error JSError.typeError

/-- The call of `computeTax` of lines 57-62: the assessment year is converted to a
string when `computeTax` builds the rule key. -/
def callComputeTax (host : Host) (income age : JSNum) (assessmentYear : JSVal)
    (regime : String) : Except JSError TaxResult :=
  match toStringJS host assessmentYear with
  | Except.error e => Except.error e
  | Except.ok ay => computeTax income age ay regime

/-- Lines 71-79: the four tax-paid components and their total. -/
def taxPaidOf (host : Host) (jsonData : JSVal) : Except JSError TaxPaid :=
  let paid := jsonData.get "TaxPaid"
  match sumField host (paid.get "TDSonSalaries") "TotalTDSSalary" with
  | Except.error e => Except.error e
  | Except.ok tdsSalary =>
  match sumField host (paid.get "TDSonOthThanSals") "TotalTDSonOthThanSals" with
  | Except.error e => Except.error e
  | Except.ok tdsOthers =>
  match sumField host (paid.get "AdvanceTax") "Amt" with
  | Except.error e => Except.error e
  | Except.ok advanceTax =>
  match sumField host (paid.get "SelfAssessmentTax") "Amt" with
  | Except.error e => Except.error e
  | Except.ok selfAssessmentTax =>
  match JSVal.add host tdsSalary tdsOthers with
  | Except.error e => Except.error e
  | Except.ok s1 =>
  match JSVal.add host s1 advanceTax with
  | Except.error e => Except.error e
  | Except.ok s2 =>
  match JSVal.add host s2 selfAssessmentTax with
  | Except.error e => Except.error e
  | Except.ok totalTaxPaid =>
    Except.ok ⟨tdsSalary, tdsOthers, advanceTax, selfAssessmentTax, totalTaxPaid⟩

/-- Lines 81-88: the final settlement. -/
def finalSettlementOf (host : Host) (totalTax : JSNum) (taxPaid : TaxPaid) :
    Except JSError FinalSettlement :=
  match JSVal.sub host taxPaid.totalTaxPaid (num totalTax) with
  | Except.error e => Except.error e
  | Except.ok refund =>
  match JSVal.sub host (num totalTax) taxPaid.totalTaxPaid with
  | Except.error e => Except.error e
  | Except.ok payable =>
    Except.ok ⟨totalTax, taxPaid.totalTaxPaid, JSNum.max (fin 0) refund,
      JSNum.max (fin 0) payable⟩

/-- Line 19: `jsonData?.ITRForm?.AssessmentYear || "2024-25"`. -/
def assessmentYearOf (jsonData : JSVal) : JSVal :=
  ((jsonData.get "ITRForm").get "AssessmentYear").or (str "2024-25")

/-- Line 23: the argument `jsonData?.PartA_Gen1?.DOB || ""` of `calculateAge`. -/
def dobOf (jsonData : JSVal) : JSVal :=
  ((jsonData.get "PartA_Gen1").get "DOB").or (str "")

/-- Line 26: `jsonData?.PartB_TTI?.isOptingForNewTaxRegime === "Y" ? "New" : "Old"`. -/
def regimeOf (jsonData : JSVal) : String :=
  if ((jsonData.get "PartB_TTI").get "isOptingForNewTaxRegime").strictEqStr "Y" then "New"
  else "Old"

/-- Lines 30-40: the object `incomeDetails`. -/
def incomeDetailsOf (jsonData : JSVal) : IncomeDetails :=
  { salary := ((jsonData.get "PartA_TotalIncome").get "Salaries").or (num (fin 0))
    houseProperty := ((jsonData.get "PartA_TotalIncome").get "IncomeFromHP").or (num (fin 0))
    businessIncome := ((jsonData.get "PartA_TotalIncome").get "IncomeFromBP").or (num (fin 0))
    capitalGains :=
      { shortTerm := ((jsonData.get "ScheduleCG").get "TotalSTCG").or (num (fin 0))
        longTerm := ((jsonData.get "ScheduleCG").get "TotalLTCG").or (num (fin 0)) }
    otherSources := ((jsonData.get "PartA_TotalIncome").get "IncomeFromOS").or (num (fin 0))
    grossTotalIncome :=
      ((jsonData.get "PartA_TotalIncome").get "GrossTotalIncome").or (num (fin 0)) }

/-- Lines 44-49: the object `deductions`. -/
def deductionsOf (jsonData : JSVal) : Deductions :=
  { section80C :=
      (((jsonData.get "PartA_TotalIncome").get "Deductions").get "Section80C").or (num (fin 0))
    section80D :=
      (((jsonData.get "PartA_TotalIncome").get "Deductions").get "Section80D").or (num (fin 0))
    section80G :=
      (((jsonData.get "PartA_TotalIncome").get "Deductions").get "Section80G").or (num (fin 0))
    totalDeductions :=
      ((jsonData.get "PartA_TotalIncome").get "TotalDeductions").or (num (fin 0)) }

/-- The object `clientData` once every computed part is known (the assignments of
lines 17-91 in one record). -/
def clientDataOf (host : Host) (jsonData : JSVal) (age netTaxableIncome : JSNum)
    (result : TaxResult) (taxPaid : TaxPaid) (finalSettlement : FinalSettlement) :
    ClientData :=
  { name := ((jsonData.get "PartA_Gen1").get "Name").or (str "N/A")
    pan := ((jsonData.get "PartA_Gen1").get "PAN").or (str "N/A")
    assessmentYear := assessmentYearOf jsonData
    filingStatus := ((jsonData.get "FilingStatus").get "Status").or (str "Filed")
    age := age
    taxRegime := regimeOf jsonData
    incomeDetails := incomeDetailsOf jsonData
    deductions := deductionsOf jsonData
    netTaxableIncome := netTaxableIncome
    taxComputation := ⟨result.tax, result.cess, result.totalTax, result.rebate⟩
    taxPaid := taxPaid
    finalSettlement := finalSettlement
    notes := ""
    uploadedAt := host.nowISO }

/-- The body of the `try` block of `parseITRJson`, lines 16-91, in the order of the
source: age, net taxable income, `computeTax`, tax paid, final settlement. -/
def parseBody (host : Host) (jsonData : JSVal) : Except JSError ClientData :=
  match calculateAge host (dobOf jsonData) with
  | Except.error e => Except.error e
  | Except.ok age =>
  match JSVal.sub host (incomeDetailsOf jsonData).grossTotalIncome
      (deductionsOf jsonData).totalDeductions with
  | Except.error e => Except.error e
  | Except.ok netTaxableIncome =>
  match callComputeTax host netTaxableIncome age (assessmentYearOf jsonData)
      (regimeOf jsonData) with
  | Except.error e => Except.error e
  | Except.ok result =>
  match taxPaidOf host jsonData with
  | Except.error e => Except.error e
  | Except.ok taxPaid =>
  match finalSettlementOf host result.totalTax taxPaid with
  | Except.error e => Except.error e
  | Except.ok finalSettlement =>
    Except.ok (clientDataOf host jsonData age netTaxableIncome result taxPaid finalSettlement)

/-- The function `parseITRJson`: the summary, or `none` for the `null` returned by
the `catch` block. -/
def parseITRJson (host : Host) (jsonData : JSVal) : Option ClientData :=
  match parseBody host jsonData with
  | Except.error _ => none
  | Except.ok clientData => some clientData

/-! ## The copy of `parseITRJson` inlined in `app.jsx` (`parseITR`, lines 178-259)

The copy calls the `calculateAge` and the `computeTax` of `app.jsx`; `calculateAge`
is word for word the one of `utils/computeTax.js`, so the same definition serves. -/

namespace App

/-- Lines 232-238 of `app.jsx`: the tax-paid fields are read as they are, with the
default 0, and the total is the `TotalTaxPaid` of the document. -/
def taxPaidOf (jsonData : JSVal) : TaxPaid :=
  { tdsSalary := ((jsonData.get "TaxPaid").get "TDSonSalaries").or (num (fin 0))
    tdsOthers := ((jsonData.get "TaxPaid").get "TDSonOtherThanSals").or (num (fin 0))
    advanceTax := ((jsonData.get "TaxPaid").get "AdvanceTax").or (num (fin 0))
    selfAssessmentTax := ((jsonData.get "TaxPaid").get "SelfAssessmentTax").or (num (fin 0))
    totalTaxPaid := ((jsonData.get "TaxPaid").get "TotalTaxPaid").or (num (fin 0)) }

/-- Line 185 of `app.jsx`: `jsonData?.ITRForm?.AssessmentYear || "N/A"`. -/
def assessmentYearOf (jsonData : JSVal) : JSVal :=
  ((jsonData.get "ITRForm").get "AssessmentYear").or (str "N/A")

/-- The call of `computeTax` of line 223 of `app.jsx`. -/
def callComputeTax (host : Host) (income age : JSNum) (assessmentYear : JSVal)
    (regime : String) : Except JSError TaxResult :=
  match toStringJS host assessmentYear with
  | Except.error e => Except.error e
  | Except.ok ay => App.computeTax income age ay regime

/-- The object `clientData` of `parseITR` once every computed part is known. -/
def clientDataOf (host : Host) (jsonData : JSVal) (age netTaxableIncome : JSNum)
    (result : TaxResult) (finalSettlement : FinalSettlement) : ClientData :=
  { name := ((jsonData.get "PartA_Gen1").get "Name").or (str "N/A")
    pan := ((jsonData.get "PartA_Gen1").get "PAN").or (str "N/A")
    assessmentYear := App.assessmentYearOf jsonData
    filingStatus := ((jsonData.get "FilingStatus").get "Status").or (str "N/A")
    age := age
    taxRegime := regimeOf jsonData
    incomeDetails := incomeDetailsOf jsonData
    deductions := deductionsOf jsonData
    netTaxableIncome := netTaxableIncome
    taxComputation := ⟨result.tax, result.cess, result.totalTax, result.rebate⟩
    taxPaid := App.taxPaidOf jsonData
    finalSettlement := finalSettlement
    notes := ""
    uploadedAt := host.nowISO }

/-- The body of the `try` block of `parseITR`, lines 182-251 of `app.jsx`. -/
def parseBody (host : Host) (jsonData : JSVal) : Except JSError ClientData :=
  match calculateAge host (dobOf jsonData) with
  | Except.error e => Except.error e
  | Except.ok age =>
  match JSVal.sub host (incomeDetailsOf jsonData).grossTotalIncome
      (deductionsOf jsonData).totalDeductions with
  | Except.error e => Except.error e
  | Except.ok netTaxableIncome =>
  match App.callComputeTax host netTaxableIncome age (App.assessmentYearOf jsonData)
      (regimeOf jsonData) with
  | Except.error e => Except.error e
  | Except.ok result =>
  match finalSettlementOf host result.totalTax (App.taxPaidOf jsonData) with
  | Except.error e => Except.error e
  | Except.ok finalSettlement =>
    Except.ok (App.clientDataOf host jsonData age netTaxableIncome result finalSettlement)

/-- The function `parseITR` of `app.jsx`: the summary, or `none` for the `null` of
the `catch` block. -/
def parseITR (host : Host) (jsonData : JSVal) : Option ClientData :=
  match App.parseBody host jsonData with
  | Except.error _ => none
  | Except.ok clientData => some clientData

end App

/-! ## `exportAllClientsToCsv` (`src/utils/exportCSV.js`, lines 7-45)

The function builds the text `csvContent` and hands it to the browser as a download;
the model returns the text, `none` when the list is empty and nothing is built. -/

/-- The formatting functions of the host behind `toLocaleString('en-IN')`. -/
structure Locale where
  /-- `Number.prototype.toLocaleString` for the locale `en-IN`. -/
  number : JSNum → String
  /-- The string of `v.toLocaleString('en-IN')` for an array or an object `v`, or a
  `TypeError`. -/
  object : JSVal → Except JSError String

/-- The double quote character as a string. -/
def dquote : String := String.singleton (Char.ofNat 34)

/-- The line feed character as a string. -/
def newline : String := String.singleton (Char.ofNat 10)

/-- The array `headers` of lines 14-19. -/
def csvHeaders : List String :=
  ["Name", "PAN", "Assessment Year", "Filing Status", "Tax Regime", "Age",
   "Gross Total Income", "Total Deductions", "Net Taxable Income",
   "Tax on Income", "87A Rebate", "Cess", "Total Tax Liability",
   "Total Tax Paid", "Refund Due", "Tax Payable"]

/-- The text of a cell `v?.toLocaleString('en-IN')` once it is interpolated in the
template of line 44: "undefined" for a nullish `v`, the locale format of a number, a
string as it is. -/
def localeCell (loc : Locale) : JSVal → Except JSError String
  | undefined => Except.ok "undefined"
  | null => Except.ok "undefined"
  | JSVal.bool b => Except.ok (if b then "true" else "false")
  | num n => Except.ok (loc.number n)
  | str s => Except.ok s
  | arr items => loc.object (arr items)
  | obj fields => loc.object (obj fields)

/-- The sixteen cells of one client (lines 22-39), each as the text that the template
of line 44 makes of it. -/
def rowCells (host : Host) (loc : Locale) (client : ClientData) :
    List (Except JSError String) :=
  [toStringJS host client.name,
   toStringJS host client.pan,
   toStringJS host client.assessmentYear,
   toStringJS host client.filingStatus,
   Except.ok client.taxRegime,
   Except.ok (host.numToStr client.age),
   localeCell loc client.incomeDetails.grossTotalIncome,
   localeCell loc client.deductions.totalDeductions,
   Except.ok (loc.number client.netTaxableIncome),
   Except.ok (loc.number client.taxComputation.taxOnIncome),
   Except.ok (loc.number client.taxComputation.rebate87A),
   Except.ok (loc.number client.taxComputation.cess),
   Except.ok (loc.number client.taxComputation.totalTaxLiability),
   localeCell loc client.taxPaid.totalTaxPaid,
   Except.ok (loc.number client.finalSettlement.refundDue),
   Except.ok (loc.number client.finalSettlement.taxPayable)]

/-- The cells of a row when no conversion raises, else the first error. -/
def collectCells : List (Except JSError String) → Except JSError (List String)
  | [] => Except.ok []
  | Except.error e :: _ => Except.error e
  | Except.ok cell :: rest =>
    match collectCells rest with
    | Except.error e => Except.error e
    | Except.ok cells => Except.ok (cell :: cells)

/-- The rows of all clients. -/
def rowsOf (host : Host) (loc : Locale) : List ClientData → Except JSError (List (List String))
  | [] => Except.ok []
  | client :: rest =>
    match collectCells (rowCells host loc client) with
    | Except.error e => Except.error e
    | Except.ok row =>
      match rowsOf host loc rest with
      | Except.error e => Except.error e
      | Except.ok rows => Except.ok (row :: rows)

/-- The call `cells.join(",")`. -/
def joinComma : List String → String
  | [] => ""
  | [cell] => cell
  | cell :: rest => cell ++ "," ++ joinComma rest

/-- One line of the file: every cell between two double quotes, the cells joined by
commas, and a line feed (lines 42 and 44). -/
def csvLine (cells : List String) : String :=
  joinComma (cells.map (fun cell => dquote ++ cell ++ dquote)) ++ newline

/-- The function `exportAllClientsToCsv`: the text `csvContent` of lines 42-45. -/
def exportAllClientsToCsv (host : Host) (loc : Locale) (clients : List ClientData) :
    Except JSError (Option String) :=
  if clients.length = 0 then Except.ok none
  else
    match rowsOf host loc clients with
    | Except.error e => Except.error e
    | Except.ok rows =>
      Except.ok (some (rows.foldl (fun csvContent row => csvContent ++ csvLine row)
        (csvLine csvHeaders)))

/-! ## Definitions used to state and prove the properties -/

/-- The slab lists that a rule carries: general, senior, super-senior. -/
def slabLists (rule : Rule) : List (List Slab) :=
  rule.slabs.toList ++ rule.seniorSlabs.toList ++ rule.superSeniorSlabs.toList

/-- The sum over all slabs of `rate * max(0, min(upperBound, income) - previousBound)`,
`previousBound` being the preceding slab's bound.  This definition follows the words
of the specification, not the loop of the source: it never stops early. -/
def slabSum (income : JSNum) : List Slab → JSNum → JSNum
  | [], _ => fin 0
  | slab :: rest, previousBound =>
    (slab.rate.mul (JSNum.max (fin 0) ((JSNum.min slab.limit income).sub previousBound))).add
      (slabSum income rest slab.limit)

/-- A slab list is well formed above the finite bound `p`: finite bounds strictly
increasing from `p`, finite non-negative rates, and an unbounded slab only in the
last position. -/
def SlabsOK : ℚ → List Slab → Prop
  | _, [] => True
  | p, slab :: rest =>
    match slab.limit, slab.rate with
    | fin u, fin r => p < u ∧ 0 ≤ r ∧ SlabsOK u rest
    | posInf, fin r => 0 ≤ r ∧ rest = []
    | _, _ => False

/-- The rational value of the slab tax of a well-formed list at the finite income `I`,
the previous bound being `p`. -/
def slabTaxQ (I : ℚ) : ℚ → List Slab → ℚ
  | _, [] => 0
  | p, slab :: rest =>
    match slab.limit, slab.rate with
    | fin u, fin r => r * Max.max 0 (Min.min u I - p) + slabTaxQ I u rest
    | posInf, fin r => r * Max.max 0 (I - p)
    | _, _ => 0

/-- A rule is well formed: it has general slabs, all its slab lists are well formed,
its rebate has a finite limit and a finite cap that covers the slab tax at the limit,
and its cess rate is finite and positive. -/
structure RuleOK (rule : Rule) (lim cap c : ℚ) : Prop where
  general : rule.slabs.isSome = true
  lists : ∀ l ∈ slabLists rule, SlabsOK 0 l
  rebate : rule.rebate87A = some ⟨fin lim, fin cap⟩
  covers : ∀ l ∈ slabLists rule, slabTaxQ lim 0 l ≤ cap
  cess : rule.cessRate = fin c
  cess_pos : 0 < c

/-! ## Definitions used to state the properties of `parseITRJson` and `calculateAge` -/

/-- Lexicographic order `a <= b` on (year, month, date). -/
def YMD.le (a b : YMD) : Prop :=
  a.year < b.year ∨ (a.year = b.year ∧ (a.month < b.month ∨ (a.month = b.month ∧ a.date ≤ b.date)))

/-- Lexicographic order `a < b` on (year, month, date). -/
def YMD.lt (a b : YMD) : Prop :=
  a.year < b.year ∨ (a.year = b.year ∧ (a.month < b.month ∨ (a.month = b.month ∧ a.date < b.date)))

/-- The pair (month, date) of `a` precedes the pair (month, date) of `b`. -/
def YMD.monthDayBefore (a b : YMD) : Prop :=
  a.month < b.month ∨ (a.month = b.month ∧ a.date < b.date)

/-- A field that is absent: `undefined`, or the `null` of JSON. -/
def isAbsent (v : JSVal) : Prop :=
  v = undefined ∨ v = null

/-- An amount field that is absent or holds a finite number. -/
def isAmountOrAbsent (v : JSVal) : Prop :=
  isAbsent v ∨ ∃ q : ℚ, v = num (fin q)

/-- A text field that is absent or holds a string. -/
def isTextOrAbsent (v : JSVal) : Prop :=
  isAbsent v ∨ ∃ s : String, v = str s

/-- A tax-paid field that is absent or is a list of entries whose amount under `key`
is absent or a finite number. -/
def isAmountList (key : String) (v : JSVal) : Prop :=
  isAbsent v ∨ ∃ items, v = arr items ∧ ∀ item ∈ items, isAmountOrAbsent (item.get key)

/-- The value of an amount field: the number it holds when it is a finite number,
else 0. -/
def amountValue : JSVal → ℚ
  | num (fin q) => q
  | _ => 0

/-- The amount of one entry: the value of its field `key`. -/
def amountOf (key : String) (item : JSVal) : ℚ :=
  amountValue (item.get key)

/-- The sum over the entries of a list of the entry's amount; 0 when the field is not
a list. -/
def listTotal (key : String) : JSVal → ℚ
  | arr items => (items.map (amountOf key)).sum
  | _ => 0

/-- A document whose present fields are well formed: the assessment year is a string
that, with the regime, names an entry of the rule table; the date of birth is a
string; gross income and total deductions are finite numbers; each tax-paid field is a
list of entries with finite amounts.  Every one of them may be absent. -/
structure WellFormed (doc : JSVal) : Prop where
  year : ∃ ay rule, assessmentYearOf doc = str ay ∧
    taxRules (ruleKey ay (regimeOf doc)) = some rule
  dob : isTextOrAbsent ((doc.get "PartA_Gen1").get "DOB")
  gross : isAmountOrAbsent ((doc.get "PartA_TotalIncome").get "GrossTotalIncome")
  deductions : isAmountOrAbsent ((doc.get "PartA_TotalIncome").get "TotalDeductions")
  tdsSalary : isAmountList "TotalTDSSalary" ((doc.get "TaxPaid").get "TDSonSalaries")
  tdsOthers : isAmountList "TotalTDSonOthThanSals" ((doc.get "TaxPaid").get "TDSonOthThanSals")
  advanceTax : isAmountList "Amt" ((doc.get "TaxPaid").get "AdvanceTax")
  selfAssessmentTax : isAmountList "Amt" ((doc.get "TaxPaid").get "SelfAssessmentTax")

/-- A host for the examples: the clock shows 6 November 2026 and the date strings
"1990-06-15" and "2030-01-01" are read as those calendar days.  The conversions
between strings and numbers and of arrays and objects are constant functions: the one
string that an example converts to a number, "abc", is not numeric and reads as `NaN`;
no example uses the others. -/
def exampleHost : Host :=
  { strToNum := fun _ => nan
    numToStr := fun _ => "0"
    objToPrim := fun _ => Except.ok "[object Object]"
    parseDate := fun s =>
      if s = "1990-06-15" then some ⟨1990, 5, 15⟩
      else if s = "2030-01-01" then some ⟨2030, 0, 1⟩
      else none
    dateOfNumber := fun _ => none
    today := ⟨2026, 10, 6⟩
    nowISO := "2026-11-06T09:00:00.000Z" }

/-- An example document: an Old-regime return for AY 2024-25 with gross income
900000, deductions 150000 and three tax-paid entries. -/
def exampleDoc : JSVal :=
  obj [
    ("PartA_Gen1", obj [("Name", str "A. Kumar"), ("PAN", str "ABCDE1234F"),
      ("DOB", str "1990-06-15")]),
    ("ITRForm", obj [("AssessmentYear", str "2024-25")]),
    ("PartA_TotalIncome", obj [("Salaries", num (fin 900000)),
      ("GrossTotalIncome", num (fin 900000)), ("TotalDeductions", num (fin 150000))]),
    ("TaxPaid", obj [
      ("TDSonSalaries", arr [obj [("TotalTDSSalary", num (fin 40000))],
        obj [("TotalTDSSalary", num (fin 10000))]]),
      ("AdvanceTax", arr [obj [("Amt", num (fin 5000))], obj []]),
      ("TotalTaxPaid", num (fin 1))])]

/-- A tax-paid field that is present and is not a list: a boolean, a number, a string
or an object. -/
def isReshapedList (v : JSVal) : Prop :=
  ¬ isAbsent v ∧ ∀ items, v ≠ arr items

/-- The path-with-default rule for one field: when the value read from the document
is absent, the field of the summary is the default. -/
def MissingDefault (read field default : JSVal) : Prop :=
  isAbsent read → field = default

/-- A document whose `TaxPaid.TDSonSalaries` holds a number instead of a list. -/
def reshapedDoc : JSVal :=
  obj [("TaxPaid", obj [("TDSonSalaries", num (fin 5))])]

/-- A document with a gross total income of 600000 and no deductions section. -/
def noDeductionsDoc : JSVal :=
  obj [("PartA_TotalIncome", obj [("GrossTotalIncome", num (fin 600000))])]

/-- The summary made of the default values only. -/
def defaultSummary (host : Host) : ClientData :=
  { name := str "N/A"
    pan := str "N/A"
    assessmentYear := str "2024-25"
    filingStatus := str "Filed"
    age := fin 30
    taxRegime := "Old"
    incomeDetails :=
      { salary := num (fin 0)
        houseProperty := num (fin 0)
        businessIncome := num (fin 0)
        capitalGains := { shortTerm := num (fin 0), longTerm := num (fin 0) }
        otherSources := num (fin 0)
        grossTotalIncome := num (fin 0) }
    deductions :=
      { section80C := num (fin 0)
        section80D := num (fin 0)
        section80G := num (fin 0)
        totalDeductions := num (fin 0) }
    netTaxableIncome := fin 0
    taxComputation := ⟨fin 0, fin 0, fin 0, fin 0⟩
    taxPaid := ⟨num (fin 0), num (fin 0), num (fin 0), num (fin 0), num (fin 0)⟩
    finalSettlement := ⟨fin 0, num (fin 0), fin 0, fin 0⟩
    notes := ""
    uploadedAt := host.nowISO }

/-- The summary of `exampleDoc` on `exampleHost`. -/
def exampleSummary : ClientData :=
  { name := str "A. Kumar"
    pan := str "ABCDE1234F"
    assessmentYear := str "2024-25"
    filingStatus := str "Filed"
    age := fin 36
    taxRegime := "Old"
    incomeDetails :=
      { salary := num (fin 900000)
        houseProperty := num (fin 0)
        businessIncome := num (fin 0)
        capitalGains := { shortTerm := num (fin 0), longTerm := num (fin 0) }
        otherSources := num (fin 0)
        grossTotalIncome := num (fin 900000) }
    deductions :=
      { section80C := num (fin 0)
        section80D := num (fin 0)
        section80G := num (fin 0)
        totalDeductions := num (fin 150000) }
    netTaxableIncome := fin 750000
    taxComputation := ⟨fin 62500, fin 2500, fin 65000, fin 0⟩
    taxPaid := ⟨num (fin 50000), num (fin 0), num (fin 5000), num (fin 0), num (fin 55000)⟩
    finalSettlement := ⟨fin 65000, num (fin 55000), fin 0, fin 10000⟩
    notes := ""
    uploadedAt := "2026-11-06T09:00:00.000Z" }

/-! ## Definitions used to state the properties of two runs and of null results -/

/-- The host of a later run: the clock shows 15 June 2050, everything else is as in
`exampleHost`. -/
def laterHost : Host :=
  { exampleHost with
    today := ⟨2050, 5, 15⟩
    nowISO := "2050-06-15T09:00:00.000Z" }

/-- The summary of `exampleDoc` on `laterHost`: the taxpayer is 60 and is taxed with
the senior slabs. -/
def laterSummary : ClientData :=
  { exampleSummary with
    age := fin 60
    taxComputation := ⟨fin 60000, fin 2400, fin 62400, fin 0⟩
    finalSettlement := ⟨fin 62400, num (fin 55000), fin 0, fin 7400⟩
    uploadedAt := "2050-06-15T09:00:00.000Z" }

/-- A value that is not an array and not an object. -/
def isPrimitive : JSVal → Prop
  | arr _ => False
  | obj _ => False
  | _ => True

/-- A document in which no array or object stands where the source converts a value
to a primitive: the date of birth, the assessment year, the gross total income, the
total deductions and the amount of every entry of a tax-paid list. -/
structure PrimitiveLeaves (doc : JSVal) : Prop where
  dob : isPrimitive ((doc.get "PartA_Gen1").get "DOB")
  year : isPrimitive ((doc.get "ITRForm").get "AssessmentYear")
  gross : isPrimitive ((doc.get "PartA_TotalIncome").get "GrossTotalIncome")
  deductions : isPrimitive ((doc.get "PartA_TotalIncome").get "TotalDeductions")
  tdsSalary : ∀ items, (doc.get "TaxPaid").get "TDSonSalaries" = arr items →
    ∀ item ∈ items, isPrimitive (item.get "TotalTDSSalary")
  tdsOthers : ∀ items, (doc.get "TaxPaid").get "TDSonOthThanSals" = arr items →
    ∀ item ∈ items, isPrimitive (item.get "TotalTDSonOthThanSals")
  advanceTax : ∀ items, (doc.get "TaxPaid").get "AdvanceTax" = arr items →
    ∀ item ∈ items, isPrimitive (item.get "Amt")
  selfAssessmentTax : ∀ items, (doc.get "TaxPaid").get "SelfAssessmentTax" = arr items →
    ∀ item ∈ items, isPrimitive (item.get "Amt")

/-- `ToPrimitive` of an object produced by `JSON.parse`: a `TypeError` when the object
has an own property `toString` (its value, coming from JSON, is not callable), else
the string "[object Object]".  On arrays the function returns the empty string, which
is exact for the empty array only. -/
def objectToPrimitive : JSVal → Except JSError String
  | obj fields =>
    if (fields.lookup "toString").isSome then Except.error JSError.typeError
    else Except.ok "[object Object]"
  | _ => Except.ok ""

/-- The example host with `objectToPrimitive` as conversion of objects. -/
def strictHost : Host :=
  { exampleHost with objToPrim := objectToPrimitive }

/-- A document whose assessment year is the name of an inherited property. -/
def inheritedYearDoc : JSVal :=
  obj [("ITRForm", obj [("AssessmentYear", str "toString")])]

/-- A document whose gross total income is an object with an own property
`toString`. -/
def unconvertibleDoc : JSVal :=
  obj [("PartA_TotalIncome", obj [("GrossTotalIncome", obj [("toString", num (fin 1))])])]

/-- Two hosts that differ at most in their clock: the conversions and the reading of
dates are the same. -/
structure SameConversions (h1 h2 : Host) : Prop where
  strToNum : h1.strToNum = h2.strToNum
  numToStr : h1.numToStr = h2.numToStr
  objToPrim : h1.objToPrim = h2.objToPrim
  parseDate : h1.parseDate = h2.parseDate
  dateOfNumber : h1.dateOfNumber = h2.dateOfNumber

/-- A summary with its timestamp blanked. -/
def blankStamp (s : ClientData) : ClientData :=
  { s with uploadedAt := "" }

/-! ## Definitions used to state the properties of amounts that are not numbers -/

/-- A document whose gross total income is the string "abc". -/
def textGrossDoc : JSVal :=
  obj [("PartA_TotalIncome", obj [("GrossTotalIncome", str "abc")])]

/-- A host for the example of amounts held as strings: the number 5 is written "5",
the number 0 is written "0", and the string "01005000" reads as the number 1005000. -/
def textHost : Host :=
  { exampleHost with
    numToStr := fun n => if n = fin 5 then "5" else "0"
    strToNum := fun s => if s = "01005000" then fin 1005000 else nan }

/-- A document whose `TaxPaid.TDSonSalaries` is a list of two entries, the first with
the amount "100" held as a string, the second with the amount 5. -/
def textAmountsDoc : JSVal :=
  obj [("TaxPaid", obj [("TDSonSalaries",
    arr [obj [("TotalTDSSalary", str "100")], obj [("TotalTDSSalary", num (fin 5))]])])]

/-- An amount field that is absent or holds a number, finite or infinite. -/
def isNumberOrAbsent (v : JSVal) : Prop :=
  isAbsent v ∨ ∃ n : JSNum, n ≠ nan ∧ v = num n

/-- A tax-paid field that is absent or is a list of entries whose amount under `key`
is absent or a number. -/
def isNumberList (key : String) (v : JSVal) : Prop :=
  isAbsent v ∨ ∃ items, v = arr items ∧ ∀ item ∈ items, isNumberOrAbsent (item.get key)

/-- The number held by an amount field, 0 when it holds none. -/
def numberValue : JSVal → JSNum
  | num n => n
  | _ => fin 0

/-- The sum, with the `+` of numbers, over the entries of a list of the entry's
amount; 0 when the field is not a list. -/
def numberTotal (key : String) : JSVal → JSNum
  | arr items => (items.map (fun item => numberValue (item.get key))).foldl JSNum.add (fin 0)
  | _ => fin 0

/-- A sum with `NaN` read as 0. -/
def sumOrZero (n : JSNum) : JSNum :=
  if n = nan then fin 0 else n

/-! ## Definitions used to state the properties of the exported file -/

/-- The states of a reader of comma-separated values: at the start of a field, inside
an unquoted field, inside a quoted field, and just after a double quote met inside a
quoted field. -/
inductive CsvState where
  | fieldStart
  | unquoted
  | quoted
  | quoteSeen
deriving DecidableEq

/-- A reader of one record with the usual double-quote rules: a field that starts with
a double quote runs to the next lone double quote, two double quotes in a row inside
it stand for one, and after the closing quote only a comma, a line feed or the end of
the text may follow; a double quote inside an unquoted field is an error.  The record
ends at the first line feed outside quotes, after which nothing may follow.  The
result is the list of fields, or `none` for a text that is not a record. -/
def readFrom : CsvState → List Char → List Char → List String → Option (List String)
  | CsvState.quoted, [], _, _ => none
  | _, [], cur, done => some (done ++ [String.mk cur])
  | CsvState.fieldStart, c :: rest, _, done =>
    if c = Char.ofNat 34 then readFrom CsvState.quoted rest [] done
    else if c = Char.ofNat 44 then readFrom CsvState.fieldStart rest [] (done ++ [""])
    else if c = Char.ofNat 10 then (if rest = [] then some (done ++ [""]) else none)
    else readFrom CsvState.unquoted rest [c] done
  | CsvState.unquoted, c :: rest, cur, done =>
    if c = Char.ofNat 34 then none
    else if c = Char.ofNat 44 then
      readFrom CsvState.fieldStart rest [] (done ++ [String.mk cur])
    else if c = Char.ofNat 10 then
      (if rest = [] then some (done ++ [String.mk cur]) else none)
    else readFrom CsvState.unquoted rest (cur ++ [c]) done
  | CsvState.quoted, c :: rest, cur, done =>
    if c = Char.ofNat 34 then readFrom CsvState.quoteSeen rest cur done
    else readFrom CsvState.quoted rest (cur ++ [c]) done
  | CsvState.quoteSeen, c :: rest, cur, done =>
    if c = Char.ofNat 34 then readFrom CsvState.quoted rest (cur ++ [c]) done
    else if c = Char.ofNat 44 then
      readFrom CsvState.fieldStart rest [] (done ++ [String.mk cur])
    else if c = Char.ofNat 10 then
      (if rest = [] then some (done ++ [String.mk cur]) else none)
    else none

/-- The fields of a line of the file, read as one record. -/
def readRecord (line : String) : Option (List String) :=
  readFrom CsvState.fieldStart line.data [] []

/-- A host for the export examples: the number 36 is written "36". -/
def exportHost : Host :=
  { exampleHost with numToStr := fun n => if n = fin 36 then "36" else "0" }

/-- The `en-IN` format of the amounts of the example summary (digits grouped by three
and then by two); every other number is left as "0", no example uses one. -/
def exampleLocale : Locale :=
  { number := fun n =>
      if n = fin 900000 then "9,00,000"
      else if n = fin 750000 then "7,50,000"
      else if n = fin 150000 then "1,50,000"
      else if n = fin 65000 then "65,000"
      else if n = fin 62500 then "62,500"
      else if n = fin 55000 then "55,000"
      else if n = fin 10000 then "10,000"
      else if n = fin 2500 then "2,500"
      else "0"
    object := fun _ => Except.ok "[object Object]" }

/-- The example summary with a name that holds two double quotes. -/
def quotedClient : ClientData :=
  { exampleSummary with name := str ("Ravi " ++ dquote ++ "RK" ++ dquote ++ " Kumar") }

/-- The cells of the row of `exampleSummary`. -/
def exampleCells : List String :=
  ["A. Kumar", "ABCDE1234F", "2024-25", "Filed", "Old", "36", "9,00,000", "1,50,000",
   "7,50,000", "62,500", "0", "2,500", "65,000", "55,000", "0", "10,000"]

/-- The cells of the row of `quotedClient`. -/
def quotedCells : List String :=
  ["Ravi " ++ dquote ++ "RK" ++ dquote ++ " Kumar", "ABCDE1234F", "2024-25", "Filed",
   "Old", "36", "9,00,000", "1,50,000", "7,50,000", "62,500", "0", "2,500", "65,000",
   "55,000", "0", "10,000"]

/-! ## Definitions used to state the properties of the rule table -/

/-- The upper bounds of a slab list are strictly increasing (`<` of the source
language, so that `Infinity` is above every finite bound). -/
def boundsIncreasing (l : List Slab) : Prop :=
  List.Chain' (fun a b => a.limit.lt b.limit = true) l

/-- Every rate of a slab list lies in [0, 1]. -/
def ratesInUnit (l : List Slab) : Prop :=
  ∀ slab ∈ l, (fin 0).le slab.rate = true ∧ slab.rate.le (fin 1) = true

/-- The last slab of a slab list is unbounded. -/
def endsUnbounded (l : List Slab) : Prop :=
  l.getLast?.map Slab.limit = some posInf

/-- The slab list of the Old-regime entries for a taxpayer of age `a`: super-senior
from 80, senior from 60, general below. -/
def oldBand (a : ℚ) : List Slab :=
  if 80 ≤ a then oldSuperSeniorSlabs else if 60 ≤ a then oldSeniorSlabs else oldSlabs

/-- A rule table whose only entry, "2024-25", is the Old-regime entry of `taxRules`
with a cess rate of exactly 0. -/
def zeroCessTable (key : String) : Option Rule :=
  if key = "2024-25" then some { rule_2024_25 with cessRate := fin 0 } else none

/-! ## Arithmetic of `JSNum` on constructors -/

namespace JSNum

@[simp] theorem add_fin_fin (a b : ℚ) : (fin a).add (fin b) = fin (a + b) := rfl
@[simp] theorem sub_fin_fin (a b : ℚ) : (fin a).sub (fin b) = fin (a - b) := rfl
@[simp] theorem mul_fin_fin (a b : ℚ) : (fin a).mul (fin b) = fin (a * b) := rfl
@[simp] theorem min_fin_fin (a b : ℚ) : JSNum.min (fin a) (fin b) = fin (Min.min a b) := rfl
@[simp] theorem max_fin_fin (a b : ℚ) : JSNum.max (fin a) (fin b) = fin (Max.max a b) := rfl
@[simp] theorem le_fin_fin (a b : ℚ) : (fin a).le (fin b) = decide (a ≤ b) := rfl
@[simp] theorem ge_fin_fin (a b : ℚ) : (fin a).ge (fin b) = decide (b ≤ a) := rfl
@[simp] theorem sub_posInf_fin (a : ℚ) : posInf.sub (fin a) = posInf := rfl
@[simp] theorem sub_negInf_fin (a : ℚ) : negInf.sub (fin a) = negInf := rfl
@[simp] theorem min_posInf_fin (a : ℚ) : JSNum.min posInf (fin a) = fin a := rfl
@[simp] theorem min_fin_posInf (a : ℚ) : JSNum.min (fin a) posInf = fin a := rfl
@[simp] theorem min_fin_negInf (a : ℚ) : JSNum.min (fin a) negInf = negInf := rfl
@[simp] theorem min_posInf_negInf : JSNum.min posInf negInf = negInf := rfl
@[simp] theorem min_posInf_posInf : JSNum.min posInf posInf = posInf := rfl
@[simp] theorem le_negInf_fin (a : ℚ) : negInf.le (fin a) = true := rfl
@[simp] theorem le_posInf_fin (a : ℚ) : posInf.le (fin a) = false := rfl
@[simp] theorem le_fin_posInf (a : ℚ) : (fin a).le posInf = true := rfl

end JSNum

/-! ## The slab loop on well-formed lists -/

theorem slabTaxQ_eq_zero (I : ℚ) : ∀ (l : List Slab) (p : ℚ), I ≤ p → SlabsOK p l →
    slabTaxQ I p l = 0 := by
  intro l
  induction l with
  | nil => intros; rfl
  | cons slab rest ih =>
    intro p hI h
    obtain ⟨lim, rate⟩ := slab
    cases lim <;> cases rate <;> simp [SlabsOK] at h
    · rename_i u r
      obtain ⟨hpu, hr, hrest⟩ := h
      simp only [slabTaxQ]
      rw [ih _ (by linarith) hrest]
      have : Min.min u I - p ≤ 0 := by
        have := min_le_right u I
        linarith
      rw [max_eq_left this]; simp
    · simp only [slabTaxQ]
      rw [max_eq_left (by linarith)]; simp

theorem slabLoop_eq (I : ℚ) : ∀ (l : List Slab) (t p : ℚ), SlabsOK p l →
    slabLoop (fin I) l (fin t) (fin p) = fin (t + slabTaxQ I p l) := by
  intro l
  induction l with
  | nil => intros; simp [slabLoop, slabTaxQ]
  | cons slab rest ih =>
    intro t p h
    obtain ⟨lim, rate⟩ := slab
    cases lim <;> cases rate <;> simp [SlabsOK] at h
    · rename_i u r
      obtain ⟨hpu, hr, hrest⟩ := h
      simp only [slabLoop, slabTaxQ, sub_fin_fin, min_fin_fin, le_fin_fin, mul_fin_fin,
        add_fin_fin]
      rw [min_sub_sub_right]
      by_cases hc : Min.min u I - p ≤ 0
      · have hIp : I ≤ p := by
          rcases min_choice u I with h1 | h1 <;> rw [h1] at hc <;> linarith
        simp [hc, slabTaxQ_eq_zero I rest u (by linarith) hrest]
      · simp only [hc, decide_False, Bool.false_eq_true, if_false]
        rw [ih _ _ hrest, max_eq_right (by linarith)]
        congr 1; ring
    · rename_i r
      obtain ⟨hr, hrest⟩ := h
      subst hrest
      simp only [slabLoop, slabTaxQ, sub_fin_fin, sub_posInf_fin, min_posInf_fin, le_fin_fin,
        mul_fin_fin, add_fin_fin]
      by_cases hc : I - p ≤ 0
      · simp [hc]
      · simp only [hc, decide_False, Bool.false_eq_true, if_false]
        rw [max_eq_right (by linarith)]
        congr 1; ring

theorem slabSum_eq (I : ℚ) : ∀ (l : List Slab) (p : ℚ), SlabsOK p l →
    slabSum (fin I) l (fin p) = fin (slabTaxQ I p l) := by
  intro l
  induction l with
  | nil => intros; simp [slabSum, slabTaxQ]
  | cons slab rest ih =>
    intro p h
    obtain ⟨lim, rate⟩ := slab
    cases lim <;> cases rate <;> simp [SlabsOK] at h
    · obtain ⟨hpu, hr, hrest⟩ := h
      simp [slabSum, slabTaxQ, ih _ hrest]
    · obtain ⟨hr, hrest⟩ := h
      subst hrest
      simp [slabSum, slabTaxQ]

theorem slabTaxQ_nonneg (I : ℚ) : ∀ (l : List Slab) (p : ℚ), SlabsOK p l →
    0 ≤ slabTaxQ I p l := by
  intro l
  induction l with
  | nil => intros; simp [slabTaxQ]
  | cons slab rest ih =>
    intro p h
    obtain ⟨lim, rate⟩ := slab
    cases lim <;> cases rate <;> simp [SlabsOK] at h
    · rename_i u r
      obtain ⟨hpu, hr, hrest⟩ := h
      simp only [slabTaxQ]
      have := ih u hrest
      have := mul_nonneg hr (le_max_left 0 (Min.min u I - p))
      linarith
    · rename_i r
      simp only [slabTaxQ]
      exact mul_nonneg h.1 (le_max_left _ _)

theorem slabTaxQ_mono {I J : ℚ} (hIJ : I ≤ J) : ∀ (l : List Slab) (p : ℚ), SlabsOK p l →
    slabTaxQ I p l ≤ slabTaxQ J p l := by
  intro l
  induction l with
  | nil => intros; simp [slabTaxQ]
  | cons slab rest ih =>
    intro p h
    obtain ⟨lim, rate⟩ := slab
    cases lim <;> cases rate <;> simp [SlabsOK] at h
    · rename_i u r
      obtain ⟨hpu, hr, hrest⟩ := h
      simp only [slabTaxQ]
      have h1 := ih u hrest
      have h2 : Max.max 0 (Min.min u I - p) ≤ Max.max 0 (Min.min u J - p) :=
        max_le_max le_rfl (sub_le_sub_right (min_le_min le_rfl hIJ) p)
      have h3 := mul_le_mul_of_nonneg_left h2 hr
      linarith
    · rename_i r
      simp only [slabTaxQ]
      exact mul_le_mul_of_nonneg_left (max_le_max le_rfl (sub_le_sub_right hIJ p)) h.1



/-! ## The rule table is well formed -/

theorem rule_2023_24_eq : rule_2023_24 = rule_2024_25 := rfl

theorem taxRules_cases {key : String} {rule : Rule} (h : taxRules key = some rule) :
    rule = rule_2024_25 ∨ rule = rule_2024_25_new := by
  unfold taxRules at h
  split_ifs at h <;> simp at h <;> subst h
  · exact Or.inl rule_2023_24_eq
  · exact Or.inl rfl
  · exact Or.inr rfl

theorem slabLists_old {l : List Slab} (h : l ∈ slabLists rule_2024_25) :
    l = oldSlabs ∨ l = oldSeniorSlabs ∨ l = oldSuperSeniorSlabs := by
  simpa [slabLists, rule_2024_25] using h

theorem slabLists_new {l : List Slab} (h : l ∈ slabLists rule_2024_25_new) :
    l = newSlabs := by
  simpa [slabLists, rule_2024_25_new] using h

theorem ruleOK_old : RuleOK rule_2024_25 500000 12500 (4 / 100) where
  general := rfl
  lists := by
    intro l hl
    rcases slabLists_old hl with h | h | h <;> subst h <;>
      norm_num [SlabsOK, oldSlabs, oldSeniorSlabs, oldSuperSeniorSlabs]
  rebate := rfl
  covers := by
    intro l hl
    rcases slabLists_old hl with h | h | h <;> subst h <;>
      norm_num [slabTaxQ, oldSlabs, oldSeniorSlabs, oldSuperSeniorSlabs]
  cess := rfl
  cess_pos := by norm_num

theorem ruleOK_new : RuleOK rule_2024_25_new 700000 25000 (4 / 100) where
  general := rfl
  lists := by
    intro l hl
    have h := slabLists_new hl
    subst h
    norm_num [SlabsOK, newSlabs]
  rebate := rfl
  covers := by
    intro l hl
    have h := slabLists_new hl
    subst h
    norm_num [slabTaxQ, newSlabs]
  cess := rfl
  cess_pos := by norm_num

theorem taxRules_ok {key : String} {rule : Rule} (h : taxRules key = some rule) :
    ∃ lim cap, RuleOK rule lim cap (4 / 100) := by
  rcases taxRules_cases h with h | h <;> subst h
  · exact ⟨_, _, ruleOK_old⟩
  · exact ⟨_, _, ruleOK_new⟩

/-! ## Slab selection -/

theorem selectSlabs_mem (rule : Rule) (age : JSNum) (regime : String)
    (hg : rule.slabs.isSome = true) :
    ∃ l, l ∈ slabLists rule ∧ selectSlabs rule age regime = some l := by
  unfold selectSlabs
  split_ifs with h1 h2 h3
  · simp only [Bool.and_eq_true] at h2
    obtain ⟨l, hl⟩ := Option.isSome_iff_exists.mp h2.2
    exact ⟨l, by simp [slabLists, hl], hl⟩
  · simp only [Bool.and_eq_true] at h3
    obtain ⟨l, hl⟩ := Option.isSome_iff_exists.mp h3.2
    exact ⟨l, by simp [slabLists, hl], hl⟩
  · obtain ⟨l, hl⟩ := Option.isSome_iff_exists.mp hg
    exact ⟨l, by simp [slabLists, hl], hl⟩
  · obtain ⟨l, hl⟩ := Option.isSome_iff_exists.mp hg
    exact ⟨l, by simp [slabLists, hl], hl⟩

/-! ## The result of `finishTax` on a well-formed rule -/

theorem finishTax_fin {rule : Rule} {lim cap c : ℚ} (hok : RuleOK rule lim cap c)
    {l : List Slab} (hl : l ∈ slabLists rule) (I : ℚ) :
    finishTax rule (fin I) l =
      if I ≤ lim then ⟨fin 0, fin 0, fin 0, fin (slabTaxQ I 0 l)⟩
      else ⟨fin (slabTaxQ I 0 l), fin (slabTaxQ I 0 l * c),
            fin (slabTaxQ I 0 l + slabTaxQ I 0 l * c), fin 0⟩ := by
  have hloop := slabLoop_eq I l 0 0 (hok.lists l hl)
  have hnn := slabTaxQ_nonneg I l 0 (hok.lists l hl)
  have hc : cessRateOf rule = fin c := by
    have := hok.cess_pos
    simp [cessRateOf, hok.cess, JSNum.truthy, this.ne.symm]
  simp only [finishTax, rebateOf, hok.rebate, hloop, hc, zero_add, le_fin_fin]
  by_cases hI : I ≤ lim
  · have h1 : slabTaxQ I 0 l ≤ cap :=
      le_trans (slabTaxQ_mono hI l 0 (hok.lists l hl)) (hok.covers l hl)
    simp [hI, min_eq_left h1]
  · simp [hI, max_eq_right hnn]



/-! ## Non-finite incomes on the slab lists of the table -/

theorem table_lists {key : String} {rule : Rule} (h : taxRules key = some rule)
    {l : List Slab} (hl : l ∈ slabLists rule) :
    l = oldSlabs ∨ l = oldSeniorSlabs ∨ l = oldSuperSeniorSlabs ∨ l = newSlabs := by
  rcases taxRules_cases h with h | h <;> subst h
  · rcases slabLists_old hl with h | h | h <;> simp [h]
  · simp [slabLists_new hl]

theorem slabLoop_eq_slabSum_of_mem {l : List Slab}
    (hl : l = oldSlabs ∨ l = oldSeniorSlabs ∨ l = oldSuperSeniorSlabs ∨ l = newSlabs)
    (income : JSNum) :
    slabLoop income l (fin 0) (fin 0) = slabSum income l (fin 0) := by
  have hok : SlabsOK 0 l := by
    rcases hl with h | h | h | h <;> subst h <;>
      norm_num [SlabsOK, oldSlabs, oldSeniorSlabs, oldSuperSeniorSlabs, newSlabs]
  cases income with
  | fin I => rw [slabLoop_eq I l 0 0 hok, slabSum_eq I l 0 hok, zero_add]
  | nan =>
    rcases hl with h | h | h | h <;> subst h <;>
      simp [slabLoop, slabSum, oldSlabs, oldSeniorSlabs, oldSuperSeniorSlabs, newSlabs,
        JSNum.sub, JSNum.min, JSNum.le, JSNum.mul, JSNum.add, JSNum.max]
  | negInf =>
    rcases hl with h | h | h | h <;> subst h <;>
      simp [slabLoop, slabSum, oldSlabs, oldSeniorSlabs, oldSuperSeniorSlabs, newSlabs,
        JSNum.sub, JSNum.min, JSNum.le, JSNum.mul, JSNum.add, JSNum.max]
  | posInf =>
    rcases hl with h | h | h | h <;> subst h <;>
      norm_num [slabLoop, slabSum, oldSlabs, oldSeniorSlabs, oldSuperSeniorSlabs, newSlabs,
        JSNum.sub, JSNum.min, JSNum.le, JSNum.mul, JSNum.add, JSNum.max, infMul]

theorem readRule_of_table {key : String} {rule : Rule} (h : taxRules key = some rule) :
    readRule key = some rule := by
  simp only [readRule, h]

theorem computeTaxWith_missing (table : String → Option Rule) (income age : JSNum)
    (ay regime : String) (h : table (ruleKey ay regime) = none) :
    computeTaxWith table income age ay regime = Except.error JSError.typeError := by
  unfold computeTaxWith
  rw [h]
  cases table "2024-25" <;> rfl

theorem appComputeTaxWith_missing (table : String → Option Rule) (income age : JSNum)
    (ay regime : String) (h : table (ruleKey ay regime) = none) :
    App.computeTaxWith table income age ay regime = Except.error JSError.typeError := by
  unfold App.computeTaxWith
  rw [h]
  cases table "2024-25" <;> rfl

/-- C1 (the code departs from the claim): for AY "1999-00" with regime "Old", a pair
with no entry in the rule table, `computeTax` of `utils/computeTax.js` and the copy in
`app.jsx` both raise a `TypeError` (the fallback branch assigns to a property of the
undefined `rule`), whereas the 2024-25 Old-regime rule applied to the same income
600000 and age 45 gives tax 32500, cess 1300, total 33800 and rebate 0. -/
theorem C1_fallback_raises :
    taxRules (ruleKey "1999-00" "Old") = none ∧
    computeTax (fin 600000) (fin 45) "1999-00" "Old" = Except.error JSError.typeError ∧
    App.computeTax (fin 600000) (fin 45) "1999-00" "Old" = Except.error JSError.typeError ∧
    computeTax (fin 600000) (fin 45) "2024-25" "Old" =
      Except.ok ⟨fin 32500, fin 1300, fin 33800, fin 0⟩ := by
  have hk : taxRules (ruleKey "1999-00" "Old") = none := by
    simp [ruleKey, taxRules]
  have hr : readRule (ruleKey "1999-00" "Old") = none := by
    simp [ruleKey, readRule, taxRules, inheritedKeys]
  refine ⟨hk, computeTaxWith_missing _ _ _ _ _ hr, appComputeTaxWith_missing _ _ _ _ _ hr, ?_⟩
  have hsel : selectSlabs rule_2024_25 (fin 45) "Old" = some oldSlabs := by
    simp [selectSlabs, rule_2024_25]
    norm_num
  have hmem : oldSlabs ∈ slabLists rule_2024_25 := by simp [slabLists, rule_2024_25]
  have hk2 : taxRules (ruleKey "2024-25" "Old") = some rule_2024_25 := by
    simp [ruleKey, taxRules]
  simp only [computeTax, computeTaxWith, readRule_of_table hk2, hsel,
    finishTax_fin ruleOK_old hmem]
  norm_num [slabTaxQ, oldSlabs]

/-- C2: for every rule of the rule table, every slab list of that rule (general,
senior, super-senior) and every income, the tax accumulated by the slab loop of
`computeTax`, which stops at the first slab whose taxable amount is `<= 0`, equals the
sum over all slabs of `rate * max(0, min(upperBound, income) - previousBound)`.  (For
the income `NaN` both sides are `NaN`.) -/
theorem C2_slabLoop_eq_slabSum (key : String) (rule : Rule) (h : taxRules key = some rule)
    (l : List Slab) (hl : l ∈ slabLists rule) (income : JSNum) :
    slabLoop income l (fin 0) (fin 0) = slabSum income l (fin 0) :=
  slabLoop_eq_slabSum_of_mem (table_lists h hl) income

/-- Instance of C2 at the entry "2024-25-new", its general slabs and income 1000000. -/
theorem C2_slabLoop_eq_slabSum_witness :
    taxRules "2024-25-new" = some rule_2024_25_new ∧ newSlabs ∈ slabLists rule_2024_25_new ∧
    slabLoop (fin 1000000) newSlabs (fin 0) (fin 0) = slabSum (fin 1000000) newSlabs (fin 0) :=
  ⟨by simp [taxRules], by simp [slabLists, rule_2024_25_new],
   C2_slabLoop_eq_slabSum "2024-25-new" rule_2024_25_new (by simp [taxRules]) newSlabs
     (by simp [slabLists, rule_2024_25_new]) (fin 1000000)⟩

/-! ## `computeTax` on an entry of the table -/

theorem computeTax_of_select {ay regime : String} {rule : Rule}
    (h : taxRules (ruleKey ay regime) = some rule) {age : JSNum} {l : List Slab}
    (hsel : selectSlabs rule age regime = some l) (income : JSNum) :
    computeTax income age ay regime = Except.ok (finishTax rule income l) := by
  simp only [computeTax, computeTaxWith, readRule_of_table h, hsel]

theorem selectSlabs_table {key : String} {rule : Rule} (h : taxRules key = some rule)
    (age : JSNum) (regime : String) :
    ∃ l, l ∈ slabLists rule ∧ selectSlabs rule age regime = some l := by
  obtain ⟨lim, cap, hok⟩ := taxRules_ok h
  exact selectSlabs_mem rule age regime hok.general

theorem slabLoop_negInf {l : List Slab}
    (hl : l = oldSlabs ∨ l = oldSeniorSlabs ∨ l = oldSuperSeniorSlabs ∨ l = newSlabs) :
    slabLoop negInf l (fin 0) (fin 0) = fin 0 := by
  rcases hl with h | h | h | h <;> subst h <;>
    simp [slabLoop, oldSlabs, oldSeniorSlabs, oldSuperSeniorSlabs, newSlabs]

theorem slabLoop_posInf {l : List Slab}
    (hl : l = oldSlabs ∨ l = oldSeniorSlabs ∨ l = oldSuperSeniorSlabs ∨ l = newSlabs) :
    slabLoop posInf l (fin 0) (fin 0) = posInf := by
  rcases hl with h | h | h | h <;> subst h <;>
    norm_num [slabLoop, oldSlabs, oldSeniorSlabs, oldSuperSeniorSlabs, newSlabs,
      JSNum.sub, JSNum.min, JSNum.le, JSNum.mul, JSNum.add, infMul]

theorem finishTax_negInf {key : String} {rule : Rule} (h : taxRules key = some rule)
    {l : List Slab} (hl : l ∈ slabLists rule) :
    finishTax rule negInf l = ⟨fin 0, fin 0, fin 0, fin 0⟩ := by
  have hloop := slabLoop_negInf (table_lists h hl)
  rcases taxRules_cases h with h | h <;> subst h <;>
    norm_num [finishTax, hloop, rebateOf, cessRateOf, rule_2024_25, rule_2024_25_new,
      JSNum.le, JSNum.truthy]

theorem finishTax_posInf {key : String} {rule : Rule} (h : taxRules key = some rule)
    {l : List Slab} (hl : l ∈ slabLists rule) :
    finishTax rule posInf l = ⟨posInf, posInf, posInf, fin 0⟩ := by
  have hloop := slabLoop_posInf (table_lists h hl)
  rcases taxRules_cases h with h | h <;> subst h <;>
    norm_num [finishTax, hloop, rebateOf, cessRateOf, rule_2024_25, rule_2024_25_new,
      JSNum.le, JSNum.truthy, JSNum.sub, JSNum.max, JSNum.mul, JSNum.add, infMul]

theorem finishTax_fin_totalTax_nonneg {rule : Rule} {lim cap c : ℚ}
    (hok : RuleOK rule lim cap c) {l : List Slab} (hl : l ∈ slabLists rule) (I : ℚ) :
    ∃ t, (finishTax rule (fin I) l).totalTax = fin t ∧ 0 ≤ t := by
  have hnn := slabTaxQ_nonneg I l 0 (hok.lists l hl)
  have hc := hok.cess_pos
  rw [finishTax_fin hok hl]
  by_cases hI : I ≤ lim
  · exact ⟨0, by simp [hI], le_rfl⟩
  · exact ⟨slabTaxQ I 0 l + slabTaxQ I 0 l * c, by simp only [hI, if_false], by positivity⟩

theorem finishTax_totalTax_mono {key : String} {rule : Rule} (h : taxRules key = some rule)
    {l : List Slab} (hl : l ∈ slabLists rule) {I1 I2 : JSNum} (hlt : I1.lt I2 = true) :
    (finishTax rule I1 l).totalTax.le (finishTax rule I2 l).totalTax = true := by
  obtain ⟨lim, cap, hok⟩ := taxRules_ok h
  cases I1 <;> cases I2 <;> simp [JSNum.lt] at hlt
  · rename_i b
    obtain ⟨t, ht, htn⟩ := finishTax_fin_totalTax_nonneg hok hl b
    rw [finishTax_negInf h hl, ht]
    simpa using htn
  · rw [finishTax_negInf h hl, finishTax_posInf h hl]
    rfl
  · rename_i a b
    have hnn := slabTaxQ_nonneg b l 0 (hok.lists l hl)
    have hmono := slabTaxQ_mono hlt.le l 0 (hok.lists l hl)
    rw [finishTax_fin hok hl, finishTax_fin hok hl]
    by_cases ha : a ≤ lim <;> by_cases hb : b ≤ lim
    · simp [ha, hb]
    · simp only [ha, hb, if_true, if_false, le_fin_fin, decide_eq_true_eq]
      positivity
    · exact absurd (le_trans hlt.le hb) ha
    · simp only [ha, hb, if_false, le_fin_fin, decide_eq_true_eq]
      nlinarith [hok.cess_pos]
  · rename_i a
    obtain ⟨t, ht, -⟩ := finishTax_fin_totalTax_nonneg hok hl a
    rw [ht, finishTax_posInf h hl]
    rfl

/-- C3: for every age and every (assessment year, regime) pair that resolves to an
entry of the rule table, `computeTax` returns a result at every two incomes
`I1 < I2` (finite or infinite) and the total tax at `I2` is at least the total tax at
`I1`; the rebate threshold is not an exception. -/
theorem C3_totalTax_monotone (age : JSNum) (ay regime : String) (rule : Rule)
    (h : taxRules (ruleKey ay regime) = some rule) (I1 I2 : JSNum)
    (hlt : I1.lt I2 = true) :
    ∃ r1 r2, computeTax I1 age ay regime = Except.ok r1 ∧
      computeTax I2 age ay regime = Except.ok r2 ∧
      r1.totalTax.le r2.totalTax = true := by
  obtain ⟨l, hl, hsel⟩ := selectSlabs_table h age regime
  exact ⟨_, _, computeTax_of_select h hsel I1, computeTax_of_select h hsel I2,
    finishTax_totalTax_mono h hl hlt⟩

/-- Instance of C3 across the 87A threshold of the entry "2024-25": incomes 500000
and 500001, age 45, regime "Old". -/
theorem C3_totalTax_monotone_witness :
    taxRules (ruleKey "2024-25" "Old") = some rule_2024_25 ∧
    (fin 500000).lt (fin 500001) = true ∧
    ∃ r1 r2, computeTax (fin 500000) (fin 45) "2024-25" "Old" = Except.ok r1 ∧
      computeTax (fin 500001) (fin 45) "2024-25" "Old" = Except.ok r2 ∧
      r1.totalTax.le r2.totalTax = true :=
  ⟨by simp [ruleKey, taxRules], by norm_num [JSNum.lt],
   C3_totalTax_monotone (fin 45) "2024-25" "Old" rule_2024_25 (by simp [ruleKey, taxRules])
     (fin 500000) (fin 500001) (by norm_num [JSNum.lt])⟩

theorem le_zero_cases {income : JSNum} (h : income.le (fin 0) = true) :
    income = negInf ∨ ∃ I : ℚ, income = fin I ∧ I ≤ 0 := by
  cases income with
  | nan => simp [JSNum.le] at h
  | negInf => exact Or.inl rfl
  | fin I => exact Or.inr ⟨I, rfl, by simpa using h⟩
  | posInf => simp [JSNum.le] at h

theorem RuleOK.cap_nonneg {rule : Rule} {lim cap c : ℚ} (hok : RuleOK rule lim cap c) :
    0 ≤ cap := by
  obtain ⟨l, hl⟩ := Option.isSome_iff_exists.mp hok.general
  have hmem : l ∈ slabLists rule := by simp [slabLists, hl]
  exact le_trans (slabTaxQ_nonneg lim l 0 (hok.lists l hmem)) (hok.covers l hmem)

theorem taxRules_lim_nonneg {key : String} {rule : Rule} (h : taxRules key = some rule)
    {lim cap c : ℚ} (hok : RuleOK rule lim cap c) : 0 ≤ lim := by
  have hr := hok.rebate
  rcases taxRules_cases h with h | h <;> subst h <;>
    simp only [rule_2024_25, rule_2024_25_new, Option.some.injEq, Rebate87A.mk.injEq,
      fin.injEq] at hr <;> rw [← hr.1] <;> norm_num

/-- C4: for every income `I <= 0` (negative and `-Infinity` included), every age and
every (assessment year, regime) pair that resolves to an entry of the rule table,
`computeTax` returns tax 0, cess 0, total tax 0 and rebate 0, and the slab loop
accumulates nothing on any slab list of the entry. -/
theorem C4_nonpositive_income (income age : JSNum) (ay regime : String) (rule : Rule)
    (h : taxRules (ruleKey ay regime) = some rule) (hle : income.le (fin 0) = true) :
    computeTax income age ay regime = Except.ok ⟨fin 0, fin 0, fin 0, fin 0⟩ ∧
    ∀ l ∈ slabLists rule, slabLoop income l (fin 0) (fin 0) = fin 0 := by
  obtain ⟨lim, cap, hok⟩ := taxRules_ok h
  obtain ⟨l, hl, hsel⟩ := selectSlabs_table h age regime
  rw [computeTax_of_select h hsel]
  rcases le_zero_cases hle with hI | ⟨I, hI, hI0⟩ <;> subst hI
  · exact ⟨by rw [finishTax_negInf h hl], fun l2 hl2 => slabLoop_negInf (table_lists h hl2)⟩
  · have hlim := taxRules_lim_nonneg h hok
    refine ⟨?_, fun l2 hl2 => ?_⟩
    · rw [finishTax_fin hok hl, if_pos (le_trans hI0 hlim),
        slabTaxQ_eq_zero I l 0 hI0 (hok.lists l hl)]
    · rw [slabLoop_eq I l2 0 0 (hok.lists l2 hl2),
        slabTaxQ_eq_zero I l2 0 hI0 (hok.lists l2 hl2), add_zero]

/-- Instance of C4 at income -50000, age 45, AY "2024-25", regime "New". -/
theorem C4_nonpositive_income_witness :
    taxRules (ruleKey "2024-25" "New") = some rule_2024_25_new ∧
    (fin (-50000)).le (fin 0) = true ∧
    computeTax (fin (-50000)) (fin 45) "2024-25" "New" =
      Except.ok ⟨fin 0, fin 0, fin 0, fin 0⟩ :=
  ⟨by simp [ruleKey, taxRules], by norm_num [JSNum.le],
   (C4_nonpositive_income (fin (-50000)) (fin 45) "2024-25" "New" rule_2024_25_new
     (by simp [ruleKey, taxRules]) (by norm_num [JSNum.le])).1⟩

/-- C5: for every income other than `NaN`, every age and every (assessment year,
regime) pair that resolves to an entry of the rule table, `computeTax` returns a
result whose rebate satisfies `0 <= rebate <= min(preRebateTax, maxRebate)`,
`preRebateTax` being the tax accumulated by the slab loop on the selected slabs, and
whose tax (after rebate) satisfies `0 <= tax`. -/
theorem C5_rebate_bounds (income age : JSNum) (ay regime : String) (rule : Rule)
    (h : taxRules (ruleKey ay regime) = some rule) (hnan : income ≠ nan) :
    ∃ l rb r, selectSlabs rule age regime = some l ∧ rule.rebate87A = some rb ∧
      computeTax income age ay regime = Except.ok r ∧
      (fin 0).le r.rebate = true ∧
      r.rebate.le (JSNum.min (slabLoop income l (fin 0) (fin 0)) rb.maxRebate) = true ∧
      (fin 0).le r.tax = true := by
  obtain ⟨lim, cap, hok⟩ := taxRules_ok h
  obtain ⟨l, hl, hsel⟩ := selectSlabs_table h age regime
  refine ⟨l, _, _, hsel, hok.rebate, computeTax_of_select h hsel income, ?_⟩
  have hcap := hok.cap_nonneg
  cases income with
  | nan => exact absurd rfl hnan
  | negInf =>
    rw [finishTax_negInf h hl, slabLoop_negInf (table_lists h hl)]
    simpa using hcap
  | posInf =>
    rw [finishTax_posInf h hl, slabLoop_posInf (table_lists h hl)]
    simpa using hcap
  | fin I =>
    have hnn := slabTaxQ_nonneg I l 0 (hok.lists l hl)
    rw [finishTax_fin hok hl, slabLoop_eq I l 0 0 (hok.lists l hl), zero_add]
    by_cases hI : I ≤ lim
    · have h1 : slabTaxQ I 0 l ≤ cap :=
        le_trans (slabTaxQ_mono hI l 0 (hok.lists l hl)) (hok.covers l hl)
      simp [hI, hnn, h1]
    · simp [hI, hnn, hcap]

/-- Instance of C5 at income 400000, age 45, AY "2024-25", regime "Old". -/
theorem C5_rebate_bounds_witness :
    taxRules (ruleKey "2024-25" "Old") = some rule_2024_25 ∧ fin 400000 ≠ nan ∧
    ∃ l rb r, selectSlabs rule_2024_25 (fin 45) "Old" = some l ∧
      rule_2024_25.rebate87A = some rb ∧
      computeTax (fin 400000) (fin 45) "2024-25" "Old" = Except.ok r ∧
      (fin 0).le r.rebate = true ∧
      r.rebate.le (JSNum.min (slabLoop (fin 400000) l (fin 0) (fin 0)) rb.maxRebate) = true ∧
      (fin 0).le r.tax = true :=
  ⟨by simp [ruleKey, taxRules], by simp,
   C5_rebate_bounds (fin 400000) (fin 45) "2024-25" "Old" rule_2024_25
     (by simp [ruleKey, taxRules]) (by simp)⟩

theorem add_mul_cess (x : JSNum) :
    x.add (x.mul (fin (4 / 100))) = (fin (104 / 100)).mul x := by
  cases x with
  | nan => rfl
  | negInf => norm_num [JSNum.mul, JSNum.add, infMul]
  | posInf => norm_num [JSNum.mul, JSNum.add, infMul]
  | fin q => simp only [mul_fin_fin, add_fin_fin]; congr 1; ring

theorem cessRateOf_table {key : String} {rule : Rule} (h : taxRules key = some rule) :
    rule.cessRate = fin (4 / 100) ∧ cessRateOf rule = rule.cessRate := by
  rcases taxRules_cases h with h | h <;> subst h <;>
    norm_num [cessRateOf, rule_2024_25, rule_2024_25_new, JSNum.truthy]

/-- C6: for every income, every age and every (assessment year, regime) pair that
resolves to an entry of the rule table, the result of `computeTax` satisfies, in exact
arithmetic, `cess = tax * cessRate` and `totalTax = tax + tax * cessRate`, `tax` being
the returned tax after rebate and `cessRate` the cess rate of the entry; that rate is
0.04, so `totalTax = 1.04 * tax`. -/
theorem C6_cess_and_total (income age : JSNum) (ay regime : String) (rule : Rule)
    (h : taxRules (ruleKey ay regime) = some rule) :
    ∃ r, computeTax income age ay regime = Except.ok r ∧
      rule.cessRate = fin (4 / 100) ∧
      r.cess = r.tax.mul rule.cessRate ∧
      r.totalTax = r.tax.add (r.tax.mul rule.cessRate) ∧
      r.totalTax = (fin (104 / 100)).mul r.tax := by
  obtain ⟨l, hl, hsel⟩ := selectSlabs_table h age regime
  obtain ⟨hc, hc2⟩ := cessRateOf_table h
  refine ⟨_, computeTax_of_select h hsel income, hc, ?_, ?_, ?_⟩
  · simp only [finishTax, hc2]
  · simp only [finishTax, hc2]
  · simp only [finishTax, hc2, hc]
    exact add_mul_cess _

/-- Instance of C6 at income 1234567, age 45, AY "2024-25", regime "New". -/
theorem C6_cess_and_total_witness :
    taxRules (ruleKey "2024-25" "New") = some rule_2024_25_new ∧
    ∃ r, computeTax (fin 1234567) (fin 45) "2024-25" "New" = Except.ok r ∧
      rule_2024_25_new.cessRate = fin (4 / 100) ∧
      r.cess = r.tax.mul rule_2024_25_new.cessRate ∧
      r.totalTax = r.tax.add (r.tax.mul rule_2024_25_new.cessRate) ∧
      r.totalTax = (fin (104 / 100)).mul r.tax :=
  ⟨by simp [ruleKey, taxRules],
   C6_cess_and_total (fin 1234567) (fin 45) "2024-25" "New" rule_2024_25_new
     (by simp [ruleKey, taxRules])⟩

theorem old_entries {ay : String} {rule : Rule} (h : taxRules ay = some rule)
    (hreg : rule.regime = "Old") : rule = rule_2024_25 := by
  rcases taxRules_cases h with h | h
  · exact h
  · subst h
    simp [rule_2024_25_new] at hreg

theorem ruleKey_old (ay : String) : ruleKey ay "Old" = ay := by
  simp [ruleKey]

/-- C7: for regime "Old" and every assessment year that has an Old-regime entry in
the rule table, `computeTax` taxes the income with the entry's `superSeniorSlabs` when
`age >= 80`, with its `seniorSlabs` when `60 <= age < 80` and with its general `slabs`
when `age < 60`.  For AY "2024-25", age 65 and income 600000 the result is the one of
`seniorSlabs` (tax 30000, total 31200), which differs from the one that the general
`slabs` would give (tax 32500, total 33800). -/
theorem C7_age_band_slabs (income : JSNum) (a : ℚ) (ay : String) (rule : Rule)
    (h : taxRules ay = some rule) (hreg : rule.regime = "Old") :
    (∃ gen sen sup, rule.slabs = some gen ∧ rule.seniorSlabs = some sen ∧
      rule.superSeniorSlabs = some sup ∧
      (80 ≤ a → computeTax income (fin a) ay "Old" = Except.ok (finishTax rule income sup)) ∧
      (60 ≤ a → a < 80 →
        computeTax income (fin a) ay "Old" = Except.ok (finishTax rule income sen)) ∧
      (a < 60 → computeTax income (fin a) ay "Old" = Except.ok (finishTax rule income gen))) ∧
    computeTax (fin 600000) (fin 65) "2024-25" "Old" =
      Except.ok (finishTax rule_2024_25 (fin 600000) oldSeniorSlabs) ∧
    finishTax rule_2024_25 (fin 600000) oldSeniorSlabs =
      ⟨fin 30000, fin 1200, fin 31200, fin 0⟩ ∧
    finishTax rule_2024_25 (fin 600000) oldSlabs = ⟨fin 32500, fin 1300, fin 33800, fin 0⟩ := by
  have hrule := old_entries h hreg
  subst hrule
  have hk : taxRules (ruleKey ay "Old") = some rule_2024_25 := by rw [ruleKey_old]; exact h
  have hk2 : taxRules (ruleKey "2024-25" "Old") = some rule_2024_25 := by
    simp [ruleKey, taxRules]
  refine ⟨⟨oldSlabs, oldSeniorSlabs, oldSuperSeniorSlabs, rfl, rfl, rfl, ?_, ?_, ?_⟩, ?_, ?_, ?_⟩
  · intro ha
    exact computeTax_of_select hk (by simp [selectSlabs, rule_2024_25, ha]) income
  · intro ha hb
    exact computeTax_of_select hk
      (by simp [selectSlabs, rule_2024_25, ha, not_le.mpr hb]) income
  · intro ha
    have h60 : ¬ (60 : ℚ) ≤ a := not_le.mpr ha
    have h80 : ¬ (80 : ℚ) ≤ a := fun h => h60 (le_trans (by norm_num) h)
    exact computeTax_of_select hk (by simp [selectSlabs, rule_2024_25, h60, h80]) income
  · exact computeTax_of_select hk2 (by norm_num [selectSlabs, rule_2024_25]) _
  · rw [finishTax_fin ruleOK_old (by simp [slabLists, rule_2024_25])]
    norm_num [slabTaxQ, oldSeniorSlabs]
  · rw [finishTax_fin ruleOK_old (by simp [slabLists, rule_2024_25])]
    norm_num [slabTaxQ, oldSlabs]

/-- Instance of C7 at income 600000, age 65 and the entry "2024-25". -/
theorem C7_age_band_slabs_witness :
    taxRules "2024-25" = some rule_2024_25 ∧ rule_2024_25.regime = "Old" ∧
    computeTax (fin 600000) (fin 65) "2024-25" "Old" =
      Except.ok (finishTax rule_2024_25 (fin 600000) oldSeniorSlabs) :=
  ⟨by simp [taxRules], rfl,
   (C7_age_band_slabs (fin 600000) 65 "2024-25" rule_2024_25 (by simp [taxRules]) rfl).2.1⟩

/-- C8: for regime "New", every income, every assessment year and all ages `a1`, `a2`,
the outcomes of `computeTax(income, a1, ay, "New")` and
`computeTax(income, a2, ay, "New")` are identical (for an assessment year without a
New-regime entry both calls raise the same error); for AY "2024-25", the assessment
year that has a New-regime entry, both calls return the same result. -/
theorem C8_new_regime_ignores_age (income a1 a2 : JSNum) (ay : String) :
    computeTax income a1 ay "New" = computeTax income a2 ay "New" ∧
    ∃ r, computeTax income a1 "2024-25" "New" = Except.ok r ∧
      computeTax income a2 "2024-25" "New" = Except.ok r := by
  have hsel : ∀ (rule : Rule) (a : JSNum), selectSlabs rule a "New" = rule.slabs := by
    intro rule a
    simp [selectSlabs]
  have hk : taxRules (ruleKey "2024-25" "New") = some rule_2024_25_new := by
    simp [ruleKey, taxRules]
  refine ⟨?_, finishTax rule_2024_25_new income newSlabs, ?_, ?_⟩
  · simp only [computeTax, computeTaxWith, hsel]
  · exact computeTax_of_select hk (by rw [hsel]; rfl) income
  · exact computeTax_of_select hk (by rw [hsel]; rfl) income

/-- C9: for AY "2024-25", regime "Old", an age under 60 and every income `I` with
`500000 < I <= 1000000`, `computeTax` returns rebate 0,
`tax = 12500 + 0.20 * (I - 500000)`, `cess = 0.04 * tax` and `totalTax = 1.04 * tax`. -/
theorem C9_old_third_slab (I a : ℚ) (ha : a < 60) (h1 : 500000 < I) (h2 : I ≤ 1000000) :
    computeTax (fin I) (fin a) "2024-25" "Old" =
      Except.ok ⟨fin (12500 + 20 / 100 * (I - 500000)),
                 fin (4 / 100 * (12500 + 20 / 100 * (I - 500000))),
                 fin (104 / 100 * (12500 + 20 / 100 * (I - 500000))),
                 fin 0⟩ := by
  have hk : taxRules (ruleKey "2024-25" "Old") = some rule_2024_25 := by
    simp [ruleKey, taxRules]
  have h60 : ¬ (60 : ℚ) ≤ a := not_le.mpr ha
  have h80 : ¬ (80 : ℚ) ≤ a := fun h => h60 (le_trans (by norm_num) h)
  have hsel : selectSlabs rule_2024_25 (fin a) "Old" = some oldSlabs := by
    simp [selectSlabs, rule_2024_25, h60, h80]
  have hT : slabTaxQ I 0 oldSlabs = 12500 + 20 / 100 * (I - 500000) := by
    have e1 : Min.min (250000 : ℚ) I = 250000 := min_eq_left (by linarith)
    have e2 : Min.min (500000 : ℚ) I = 500000 := min_eq_left h1.le
    have e3 : Min.min (1000000 : ℚ) I = I := min_eq_right h2
    have e4 : Max.max (0 : ℚ) (I - 500000) = I - 500000 := max_eq_right (by linarith)
    have e5 : Max.max (0 : ℚ) (I - 1000000) = 0 := max_eq_left (by linarith)
    simp only [slabTaxQ, oldSlabs, e1, e2, e3, e4, e5]
    norm_num
  rw [computeTax_of_select hk hsel, finishTax_fin ruleOK_old (by simp [slabLists, rule_2024_25]),
    if_neg (not_le.mpr h1), hT]
  congr 3 <;> ring

/-- Instance of C9 at income 600000 and age 45: tax 32500, rebate 0, cess 1300 and
total tax 33800. -/
theorem C9_old_third_slab_witness :
    (45 : ℚ) < 60 ∧ (500000 : ℚ) < 600000 ∧ (600000 : ℚ) ≤ 1000000 ∧
    computeTax (fin 600000) (fin 45) "2024-25" "Old" =
      Except.ok ⟨fin 32500, fin 1300, fin 33800, fin 0⟩ := by
  refine ⟨by norm_num, by norm_num, by norm_num, ?_⟩
  have h := C9_old_third_slab 600000 45 (by norm_num) (by norm_num) (by norm_num)
  norm_num at h
  exact h

theorem le_limit_cases {income : JSNum} {lim : ℚ} (h : income.le (fin lim) = true) :
    income = negInf ∨ ∃ I : ℚ, income = fin I ∧ I ≤ lim := by
  cases income with
  | nan => simp [JSNum.le] at h
  | negInf => exact Or.inl rfl
  | fin I => exact Or.inr ⟨I, rfl, by simpa using h⟩
  | posInf => simp [JSNum.le] at h

/-- C10: for every entry of the rule table, every age and every income at or below
the entry's 87A rebate limit, `computeTax` returns a rebate equal to the whole
pre-rebate slab tax and tax 0, cess 0, total tax 0; on every slab list of the entry
the slab tax at the limit is at most the rebate cap.  For income 400000, AY "2024-25",
regime "Old" and age 45 the pre-rebate tax is 7500, the rebate is 7500 and the total
tax is 0. -/
theorem C10_full_rebate (income age : JSNum) (ay regime : String) (rule : Rule)
    (rb : Rebate87A) (h : taxRules (ruleKey ay regime) = some rule)
    (hrb : rule.rebate87A = some rb) (hle : income.le rb.limit = true) :
    (∃ l, selectSlabs rule age regime = some l ∧
      computeTax income age ay regime =
        Except.ok ⟨fin 0, fin 0, fin 0, slabLoop income l (fin 0) (fin 0)⟩) ∧
    (∀ l ∈ slabLists rule,
      (slabLoop rb.limit l (fin 0) (fin 0)).le rb.maxRebate = true) ∧
    slabLoop (fin 400000) oldSlabs (fin 0) (fin 0) = fin 7500 ∧
    computeTax (fin 400000) (fin 45) "2024-25" "Old" =
      Except.ok ⟨fin 0, fin 0, fin 0, fin 7500⟩ := by
  obtain ⟨lim, cap, hok⟩ := taxRules_ok h
  obtain ⟨l, hl, hsel⟩ := selectSlabs_table h age regime
  have hrb2 : rb = ⟨fin lim, fin cap⟩ := by
    have := hok.rebate
    rw [hrb] at this
    exact Option.some.inj this
  subst hrb2
  have hold : oldSlabs ∈ slabLists rule_2024_25 := by simp [slabLists, rule_2024_25]
  have hT : slabTaxQ 400000 0 oldSlabs = 7500 := by norm_num [slabTaxQ, oldSlabs]
  refine ⟨⟨l, hsel, ?_⟩, ?_, ?_, ?_⟩
  · rw [computeTax_of_select h hsel]
    rcases le_limit_cases hle with hI | ⟨I, hI, hI0⟩ <;> subst hI
    · rw [finishTax_negInf h hl, slabLoop_negInf (table_lists h hl)]
    · rw [finishTax_fin hok hl, if_pos hI0, slabLoop_eq I l 0 0 (hok.lists l hl), zero_add]
  · intro l2 hl2
    rw [slabLoop_eq lim l2 0 0 (hok.lists l2 hl2), zero_add]
    simpa using hok.covers l2 hl2
  · rw [slabLoop_eq _ _ 0 0 (ruleOK_old.lists _ hold), zero_add, hT]
  · have hk : taxRules (ruleKey "2024-25" "Old") = some rule_2024_25 := by
      simp [ruleKey, taxRules]
    have hs : selectSlabs rule_2024_25 (fin 45) "Old" = some oldSlabs := by
      norm_num [selectSlabs, rule_2024_25]
    rw [computeTax_of_select hk hs, finishTax_fin ruleOK_old hold, hT]
    norm_num

/-- Instance of C10 at income 400000, age 45, AY "2024-25", regime "Old". -/
theorem C10_full_rebate_witness :
    taxRules (ruleKey "2024-25" "Old") = some rule_2024_25 ∧
    rule_2024_25.rebate87A = some ⟨fin 500000, fin 12500⟩ ∧
    (fin 400000).le (fin 500000) = true ∧
    ∃ l, selectSlabs rule_2024_25 (fin 45) "Old" = some l ∧
      computeTax (fin 400000) (fin 45) "2024-25" "Old" =
        Except.ok ⟨fin 0, fin 0, fin 0, slabLoop (fin 400000) l (fin 0) (fin 0)⟩ :=
  ⟨by simp [ruleKey, taxRules], rfl, by norm_num [JSNum.le],
   (C10_full_rebate (fin 400000) (fin 45) "2024-25" "Old" rule_2024_25
     ⟨fin 500000, fin 12500⟩ (by simp [ruleKey, taxRules]) rfl (by norm_num [JSNum.le])).1⟩

/-! ## Conversions of `JSVal` on constructors -/

theorem toNumber_num (host : Host) (n : JSNum) :
    toNumber host (num n) = Except.ok n := rfl

theorem toPrimitive_num (host : Host) (n : JSNum) :
    toPrimitive host (num n) = Except.ok (num n) := rfl

theorem add_num_num (host : Host) (a b : JSNum) :
    JSVal.add host (num a) (num b) = Except.ok (num (a.add b)) := rfl

theorem sub_num_num (host : Host) (a b : JSNum) :
    JSVal.sub host (num a) (num b) = Except.ok (a.sub b) := rfl

theorem or_undefined (d : JSVal) : JSVal.or undefined d = d := rfl

theorem or_null (d : JSVal) : JSVal.or null d = d := rfl

theorem or_num_fin_zero (q : ℚ) : (num (fin q)).or (num (fin 0)) = num (fin q) := by
  by_cases hq : q = 0
  · subst hq; rfl
  · simp [JSVal.or, JSVal.truthy, JSNum.truthy, hq]

/-! ## Inversion of `parseITRJson` -/

theorem parseITRJson_eq_some {host : Host} {doc : JSVal} {s : ClientData}
    (h : parseITRJson host doc = some s) : parseBody host doc = Except.ok s := by
  unfold parseITRJson at h
  split at h
  · exact absurd h (by simp)
  · rename_i c hc
    rw [hc, Option.some.inj h]

theorem parseBody_ok {host : Host} {doc : JSVal} {s : ClientData}
    (h : parseBody host doc = Except.ok s) :
    ∃ age net result taxPaid settlement,
      calculateAge host (dobOf doc) = Except.ok age ∧
      JSVal.sub host (incomeDetailsOf doc).grossTotalIncome
        (deductionsOf doc).totalDeductions = Except.ok net ∧
      callComputeTax host net age (assessmentYearOf doc) (regimeOf doc) = Except.ok result ∧
      taxPaidOf host doc = Except.ok taxPaid ∧
      finalSettlementOf host result.totalTax taxPaid = Except.ok settlement ∧
      s = clientDataOf host doc age net result taxPaid settlement := by
  unfold parseBody at h
  split at h
  · exact absurd h (by simp)
  rename_i age hage
  split at h
  · exact absurd h (by simp)
  rename_i net hnet
  split at h
  · exact absurd h (by simp)
  rename_i result hres
  split at h
  · exact absurd h (by simp)
  rename_i taxPaid hpaid
  split at h
  · exact absurd h (by simp)
  rename_i settlement hset
  exact ⟨age, net, result, taxPaid, settlement, hage, hnet, hres, hpaid, hset,
    (Except.ok.inj h).symm⟩

theorem finalSettlementOf_ok {host : Host} {totalTax : JSNum} {taxPaid : TaxPaid}
    {settlement : FinalSettlement}
    (h : finalSettlementOf host totalTax taxPaid = Except.ok settlement) :
    ∃ p, toNumber host taxPaid.totalTaxPaid = Except.ok p ∧
      settlement = ⟨totalTax, taxPaid.totalTaxPaid, JSNum.max (fin 0) (p.sub totalTax),
        JSNum.max (fin 0) (totalTax.sub p)⟩ := by
  unfold finalSettlementOf JSVal.sub at h
  cases hp : toNumber host taxPaid.totalTaxPaid with
  | error e => simp [hp] at h
  | ok p =>
    refine ⟨p, rfl, ?_⟩
    simp only [hp, toNumber_num] at h
    exact (Except.ok.inj h).symm

theorem max_sub_max (p l : JSNum) :
    (JSNum.max (fin 0) (p.sub l)).sub (JSNum.max (fin 0) (l.sub p)) = p.sub l := by
  cases p <;> cases l <;> simp [JSNum.sub, JSNum.max]
  rename_i a b
  rcases le_total a b with hab | hab
  · rw [max_eq_left (by linarith), max_eq_right (by linarith)]; ring
  · rw [max_eq_right (by linarith), max_eq_left (by linarith)]; ring

/-- C11: for every document for which `parseITRJson` returns a summary,
`refundDue - taxPayable = totalTaxPaid - totalTaxLiability` (the paid total being read
as a number, as the subtraction of the source does), `finalSettlement.taxPaid` is
`taxPaid.totalTaxPaid` and `finalSettlement.taxLiability` is
`taxComputation.totalTaxLiability`. -/
theorem C11_settlement_difference (host : Host) (doc : JSVal) (s : ClientData)
    (h : parseITRJson host doc = some s) :
    ∃ p, toNumber host s.taxPaid.totalTaxPaid = Except.ok p ∧
      s.finalSettlement.refundDue.sub s.finalSettlement.taxPayable =
        p.sub s.taxComputation.totalTaxLiability ∧
      s.finalSettlement.taxPaid = s.taxPaid.totalTaxPaid ∧
      s.finalSettlement.taxLiability = s.taxComputation.totalTaxLiability := by
  obtain ⟨age, net, result, taxPaid, settlement, -, -, -, -, hset, hs⟩ :=
    parseBody_ok (parseITRJson_eq_some h)
  obtain ⟨p, hp, hsettle⟩ := finalSettlementOf_ok hset
  subst hs hsettle
  exact ⟨p, hp, max_sub_max p result.totalTax, rfl, rfl⟩

/-! ## The example document -/

theorem computeTax_750000 :
    computeTax (fin 750000) (fin 36) "2024-25" "Old" =
      Except.ok ⟨fin 62500, fin 2500, fin 65000, fin 0⟩ := by
  have hk : taxRules (ruleKey "2024-25" "Old") = some rule_2024_25 := by
    simp [ruleKey, taxRules]
  have hs : selectSlabs rule_2024_25 (fin 36) "Old" = some oldSlabs := by
    norm_num [selectSlabs, rule_2024_25]
  rw [computeTax_of_select hk hs, finishTax_fin ruleOK_old (by simp [slabLists, rule_2024_25])]
  norm_num [slabTaxQ, oldSlabs]

theorem parseBody_exampleDoc :
    parseBody exampleHost exampleDoc = Except.ok exampleSummary := by
  have hage : calculateAge exampleHost (dobOf exampleDoc) = Except.ok (fin 36) := by
    simp [calculateAge, dobOf, exampleDoc, JSVal.get, List.lookup, JSVal.or, JSVal.truthy,
      newDate, exampleHost, ageOf, ageFromParts]
  have hnet : JSVal.sub exampleHost (incomeDetailsOf exampleDoc).grossTotalIncome
      (deductionsOf exampleDoc).totalDeductions = Except.ok (fin 750000) := by
    simp [incomeDetailsOf, deductionsOf, exampleDoc, JSVal.get, List.lookup, JSVal.or,
      JSVal.truthy, JSNum.truthy, JSVal.sub, toNumber]
    norm_num
  have hay : assessmentYearOf exampleDoc = str "2024-25" := by
    simp [assessmentYearOf, exampleDoc, JSVal.get, List.lookup, JSVal.or, JSVal.truthy]
  have hreg : regimeOf exampleDoc = "Old" := by
    simp [regimeOf, exampleDoc, JSVal.get, List.lookup, JSVal.strictEqStr]
  have htax : callComputeTax exampleHost (fin 750000) (fin 36) (str "2024-25") "Old" =
      Except.ok ⟨fin 62500, fin 2500, fin 65000, fin 0⟩ := by
    simp only [callComputeTax, toStringJS, computeTax_750000]
  have hpaid : taxPaidOf exampleHost exampleDoc =
      Except.ok ⟨num (fin 50000), num (fin 0), num (fin 5000), num (fin 0), num (fin 55000)⟩ := by
    simp [taxPaidOf, sumField, reduceSum, exampleDoc, JSVal.get, List.lookup, JSVal.or,
      JSVal.truthy, JSNum.truthy, JSVal.add, toPrimitive, addPrim, toNumber]
    norm_num
  have hset : finalSettlementOf exampleHost (fin 65000)
      ⟨num (fin 50000), num (fin 0), num (fin 5000), num (fin 0), num (fin 55000)⟩ =
      Except.ok ⟨fin 65000, num (fin 55000), fin 0, fin 10000⟩ := by
    simp [finalSettlementOf, JSVal.sub, toNumber]
    norm_num
  simp only [parseBody, hage, hnet, hay, hreg, htax, hpaid, hset, clientDataOf]
  simp [exampleSummary, incomeDetailsOf, deductionsOf, exampleDoc,
    JSVal.get, List.lookup, JSVal.or, JSVal.truthy, JSNum.truthy, exampleHost]

theorem parseITRJson_exampleDoc :
    parseITRJson exampleHost exampleDoc = some exampleSummary := by
  simp only [parseITRJson, parseBody_exampleDoc]

/-- Instance of C11 at the example document: refund 0, payable 10000, paid 55000 and
liability 65000. -/
theorem C11_settlement_difference_witness :
    parseITRJson exampleHost exampleDoc = some exampleSummary ∧
    ∃ p, toNumber exampleHost exampleSummary.taxPaid.totalTaxPaid = Except.ok p ∧
      exampleSummary.finalSettlement.refundDue.sub exampleSummary.finalSettlement.taxPayable =
        p.sub exampleSummary.taxComputation.totalTaxLiability ∧
      exampleSummary.finalSettlement.taxPaid = exampleSummary.taxPaid.totalTaxPaid ∧
      exampleSummary.finalSettlement.taxLiability =
        exampleSummary.taxComputation.totalTaxLiability :=
  ⟨parseITRJson_exampleDoc,
   C11_settlement_difference exampleHost exampleDoc exampleSummary parseITRJson_exampleDoc⟩

/-! ## The final settlement -/

theorem settlement_facts (p l : JSNum) (hnum : p.sub l ≠ nan) :
    (fin 0).le (JSNum.max (fin 0) (p.sub l)) = true ∧
    (fin 0).le (JSNum.max (fin 0) (l.sub p)) = true ∧
    (JSNum.max (fin 0) (p.sub l) = fin 0 ∨ JSNum.max (fin 0) (l.sub p) = fin 0) ∧
    ((JSNum.max (fin 0) (p.sub l) = fin 0 ∧ JSNum.max (fin 0) (l.sub p) = fin 0) ↔ p = l) := by
  cases p <;> cases l <;> simp [JSNum.sub, JSNum.max, JSNum.le] at hnum ⊢
  rename_i a b
  rcases lt_trichotomy a b with hab | hab | hab
  · refine ⟨Or.inl hab.le, ?_⟩
    constructor
    · intro h
      linarith [h.2]
    · intro h
      exact absurd h hab.ne
  · subst hab
    simp
  · refine ⟨Or.inr hab.le, ?_⟩
    constructor
    · intro h
      linarith [h.1]
    · intro h
      exact absurd h.symm hab.ne

theorem sub_nan_swap {p l : JSNum} (h : p.sub l = nan) : l.sub p = nan := by
  cases p <;> cases l <;> simp [JSNum.sub] at h ⊢

/-! ## Income, regime and the call of `computeTax` -/

theorem callComputeTax_ok {host : Host} {income age : JSNum} {assessmentYear : JSVal}
    {regime : String} {result : TaxResult}
    (h : callComputeTax host income age assessmentYear regime = Except.ok result) :
    ∃ ay, toStringJS host assessmentYear = Except.ok ay ∧
      computeTax income age ay regime = Except.ok result := by
  unfold callComputeTax at h
  split at h
  · exact absurd h (by simp)
  · rename_i ay hay
    exact ⟨ay, hay, h⟩

theorem sub_ok {host : Host} {a b : JSVal} {n : JSNum}
    (h : JSVal.sub host a b = Except.ok n) :
    ∃ x y, toNumber host a = Except.ok x ∧ toNumber host b = Except.ok y ∧ n = x.sub y := by
  unfold JSVal.sub at h
  split at h
  · exact absurd h (by simp)
  rename_i x hx
  split at h
  · exact absurd h (by simp)
  rename_i y hy
  exact ⟨x, y, hx, hy, (Except.ok.inj h).symm⟩

/-- C14: for every document for which `parseITRJson` returns a summary,
`netTaxableIncome = incomeDetails.grossTotalIncome - deductions.totalDeductions`
without clamping (for numbers `a` and `b` it is `a - b`, negative when `b > a`);
`grossTotalIncome` is the document's `PartA_TotalIncome.GrossTotalIncome` as given
(0 if absent), whatever the other income components are; and `taxComputation` is the
result of `computeTax` on this `netTaxableIncome`. -/
theorem C14_net_taxable_income (host : Host) (doc : JSVal) (s : ClientData)
    (h : parseITRJson host doc = some s) :
    (∃ g d, toNumber host s.incomeDetails.grossTotalIncome = Except.ok g ∧
      toNumber host s.deductions.totalDeductions = Except.ok d ∧
      s.netTaxableIncome = g.sub d) ∧
    (∀ a b : ℚ, s.incomeDetails.grossTotalIncome = num (fin a) →
      s.deductions.totalDeductions = num (fin b) → s.netTaxableIncome = fin (a - b)) ∧
    s.incomeDetails.grossTotalIncome =
      ((doc.get "PartA_TotalIncome").get "GrossTotalIncome").or (num (fin 0)) ∧
    ((doc.get "PartA_TotalIncome").get "GrossTotalIncome" = undefined →
      s.incomeDetails.grossTotalIncome = num (fin 0)) ∧
    (∃ ay r, toStringJS host s.assessmentYear = Except.ok ay ∧
      computeTax s.netTaxableIncome s.age ay s.taxRegime = Except.ok r ∧
      s.taxComputation = ⟨r.tax, r.cess, r.totalTax, r.rebate⟩) := by
  obtain ⟨age, net, result, taxPaid, settlement, -, hnet, hres, -, -, hs⟩ :=
    parseBody_ok (parseITRJson_eq_some h)
  obtain ⟨g, d, hg, hd, hgd⟩ := sub_ok hnet
  obtain ⟨ay, hay, hct⟩ := callComputeTax_ok hres
  subst hs
  refine ⟨⟨g, d, hg, hd, hgd⟩, ?_, rfl, ?_, ⟨ay, result, hay, hct, rfl⟩⟩
  · intro a b ha hb
    simp only [clientDataOf] at ha hb ⊢
    rw [ha, toNumber_num] at hg
    rw [hb, toNumber_num] at hd
    rw [hgd, ← Except.ok.inj hg, ← Except.ok.inj hd]
    rfl
  · intro hu
    simp only [clientDataOf, incomeDetailsOf, hu, or_undefined]

/-- Instance of C14 at the example document: gross 900000, deductions 150000, net
taxable income 750000. -/
theorem C14_net_taxable_income_witness :
    parseITRJson exampleHost exampleDoc = some exampleSummary ∧
    exampleSummary.netTaxableIncome = fin (900000 - 150000) ∧
    (∃ ay r, toStringJS exampleHost exampleSummary.assessmentYear = Except.ok ay ∧
      computeTax exampleSummary.netTaxableIncome exampleSummary.age ay
        exampleSummary.taxRegime = Except.ok r ∧
      exampleSummary.taxComputation = ⟨r.tax, r.cess, r.totalTax, r.rebate⟩) :=
  have hc := C14_net_taxable_income exampleHost exampleDoc exampleSummary
    parseITRJson_exampleDoc
  ⟨parseITRJson_exampleDoc, hc.2.1 900000 150000 rfl rfl, hc.2.2.2.2⟩

/-- C18: for every document for which `parseITRJson` returns a summary, `taxRegime`
is "New" if and only if the document's `PartB_TTI.isOptingForNewTaxRegime` is the
string "Y"; for every other value of the flag, and when the flag or its section is
absent, `taxRegime` is "Old"; and `taxComputation` is the result of `computeTax`
called with that regime. -/
theorem C18_regime_flag (host : Host) (doc : JSVal) (s : ClientData)
    (h : parseITRJson host doc = some s) :
    (s.taxRegime = "New" ↔
      (doc.get "PartB_TTI").get "isOptingForNewTaxRegime" = str "Y") ∧
    ((doc.get "PartB_TTI").get "isOptingForNewTaxRegime" ≠ str "Y" → s.taxRegime = "Old") ∧
    ((doc.get "PartB_TTI").get "isOptingForNewTaxRegime" = undefined → s.taxRegime = "Old") ∧
    (doc.get "PartB_TTI" = undefined → s.taxRegime = "Old") ∧
    (∃ ay r, toStringJS host s.assessmentYear = Except.ok ay ∧
      computeTax s.netTaxableIncome s.age ay s.taxRegime = Except.ok r ∧
      s.taxComputation = ⟨r.tax, r.cess, r.totalTax, r.rebate⟩) := by
  obtain ⟨age, net, result, taxPaid, settlement, -, -, hres, -, -, hs⟩ :=
    parseBody_ok (parseITRJson_eq_some h)
  obtain ⟨ay, hay, hct⟩ := callComputeTax_ok hres
  subst hs
  have hflag : ∀ v : JSVal, v.strictEqStr "Y" = true ↔ v = str "Y" := by
    intro v
    cases v <;> simp [JSVal.strictEqStr]
  have hold : ∀ v : JSVal, v ≠ str "Y" →
      (if v.strictEqStr "Y" = true then "New" else "Old") = "Old" := by
    intro v hv
    rw [if_neg (fun hc => hv ((hflag v).mp hc))]
  refine ⟨?_, ?_, ?_, ?_, ⟨ay, result, hay, hct, rfl⟩⟩
  · simp only [clientDataOf, regimeOf]
    rw [← hflag]
    by_cases hc : ((doc.get "PartB_TTI").get "isOptingForNewTaxRegime").strictEqStr "Y" = true
    · simp [hc]
    · simp [hc]
  · intro hv
    exact hold _ hv
  · intro hv
    exact hold _ (by rw [hv]; simp)
  · intro hv
    exact hold _ (by rw [hv]; simp [JSVal.get])

/-- Instance of C18 at the example document, which has no `PartB_TTI` section. -/
theorem C18_regime_flag_witness :
    parseITRJson exampleHost exampleDoc = some exampleSummary ∧
    exampleSummary.taxRegime = "Old" :=
  ⟨parseITRJson_exampleDoc,
   (C18_regime_flag exampleHost exampleDoc exampleSummary parseITRJson_exampleDoc).2.2.2.1
     (by simp [exampleDoc, JSVal.get, List.lookup])⟩

/-! ## The tax-paid sums -/

theorem get_of_isAbsent {v : JSVal} (h : isAbsent v) (key : String) :
    v.get key = undefined := by
  rcases h with h | h <;> subst h <;> rfl

theorem or_of_isAbsent {v : JSVal} (h : isAbsent v) (d : JSVal) : v.or d = d := by
  rcases h with h | h <;> subst h <;> rfl

theorem or_amount {v : JSVal} (h : isAmountOrAbsent v) :
    v.or (num (fin 0)) = num (fin (amountValue v)) := by
  rcases h with h | ⟨q, h⟩
  · rcases h with h | h <;> subst h <;> rfl
  · subst h
    exact or_num_fin_zero q

theorem reduceSum_amounts (host : Host) (key : String) :
    ∀ (items : List JSVal) (t : ℚ), (∀ item ∈ items, isAmountOrAbsent (item.get key)) →
      reduceSum host key items (num (fin t)) =
        Except.ok (num (fin (t + (items.map (amountOf key)).sum))) := by
  intro items
  induction items with
  | nil => intro t _; simp [reduceSum]
  | cons item rest ih =>
    intro t h
    have hitem := h item (List.mem_cons_self _ _)
    have hrest : ∀ x ∈ rest, isAmountOrAbsent (x.get key) :=
      fun x hx => h x (List.mem_cons_of_mem _ hx)
    simp only [reduceSum, or_amount hitem, add_num_num, add_fin_fin]
    rw [ih _ hrest]
    simp only [List.map_cons, List.sum_cons, amountOf]
    congr 3
    ring

theorem sumField_amounts (host : Host) (key : String) {v : JSVal}
    (h : isAmountList key v) :
    sumField host v key = Except.ok (num (fin (listTotal key v))) := by
  rcases h with h | ⟨items, h, hitems⟩
  · rcases h with h | h <;> subst h <;> rfl
  · subst h
    simp only [sumField, reduceSum_amounts host key items 0 hitems, or_num_fin_zero, listTotal,
      zero_add]

theorem taxPaidOf_amounts (host : Host) (doc : JSVal)
    (h1 : isAmountList "TotalTDSSalary" ((doc.get "TaxPaid").get "TDSonSalaries"))
    (h2 : isAmountList "TotalTDSonOthThanSals" ((doc.get "TaxPaid").get "TDSonOthThanSals"))
    (h3 : isAmountList "Amt" ((doc.get "TaxPaid").get "AdvanceTax"))
    (h4 : isAmountList "Amt" ((doc.get "TaxPaid").get "SelfAssessmentTax")) :
    taxPaidOf host doc = Except.ok
      ⟨num (fin (listTotal "TotalTDSSalary" ((doc.get "TaxPaid").get "TDSonSalaries"))),
       num (fin (listTotal "TotalTDSonOthThanSals" ((doc.get "TaxPaid").get "TDSonOthThanSals"))),
       num (fin (listTotal "Amt" ((doc.get "TaxPaid").get "AdvanceTax"))),
       num (fin (listTotal "Amt" ((doc.get "TaxPaid").get "SelfAssessmentTax"))),
       num (fin (listTotal "TotalTDSSalary" ((doc.get "TaxPaid").get "TDSonSalaries") +
         listTotal "TotalTDSonOthThanSals" ((doc.get "TaxPaid").get "TDSonOthThanSals") +
         listTotal "Amt" ((doc.get "TaxPaid").get "AdvanceTax") +
         listTotal "Amt" ((doc.get "TaxPaid").get "SelfAssessmentTax")))⟩ := by
  simp only [taxPaidOf, sumField_amounts host _ h1, sumField_amounts host _ h2,
    sumField_amounts host _ h3, sumField_amounts host _ h4, add_num_num, add_fin_fin]

theorem taxPaid_sums_of_amounts (host : Host) (doc : JSVal) (s : ClientData)
    (h1 : isAmountList "TotalTDSSalary" ((doc.get "TaxPaid").get "TDSonSalaries"))
    (h2 : isAmountList "TotalTDSonOthThanSals" ((doc.get "TaxPaid").get "TDSonOthThanSals"))
    (h3 : isAmountList "Amt" ((doc.get "TaxPaid").get "AdvanceTax"))
    (h4 : isAmountList "Amt" ((doc.get "TaxPaid").get "SelfAssessmentTax"))
    (h : parseITRJson host doc = some s) :
    s.taxPaid.tdsSalary =
      num (fin (listTotal "TotalTDSSalary" ((doc.get "TaxPaid").get "TDSonSalaries"))) ∧
    s.taxPaid.tdsOthers =
      num (fin (listTotal "TotalTDSonOthThanSals" ((doc.get "TaxPaid").get "TDSonOthThanSals"))) ∧
    s.taxPaid.advanceTax = num (fin (listTotal "Amt" ((doc.get "TaxPaid").get "AdvanceTax"))) ∧
    s.taxPaid.selfAssessmentTax =
      num (fin (listTotal "Amt" ((doc.get "TaxPaid").get "SelfAssessmentTax"))) ∧
    s.taxPaid.totalTaxPaid =
      num (fin (listTotal "TotalTDSSalary" ((doc.get "TaxPaid").get "TDSonSalaries") +
        listTotal "TotalTDSonOthThanSals" ((doc.get "TaxPaid").get "TDSonOthThanSals") +
        listTotal "Amt" ((doc.get "TaxPaid").get "AdvanceTax") +
        listTotal "Amt" ((doc.get "TaxPaid").get "SelfAssessmentTax"))) := by
  obtain ⟨age, net, result, taxPaid, settlement, -, -, -, hpaid, -, hs⟩ :=
    parseBody_ok (parseITRJson_eq_some h)
  rw [taxPaidOf_amounts host doc h1 h2 h3 h4] at hpaid
  have htp := Except.ok.inj hpaid
  subst hs
  simp [clientDataOf, ← htp]

theorem exampleDoc_lists :
    isAmountList "TotalTDSSalary" ((exampleDoc.get "TaxPaid").get "TDSonSalaries") ∧
    isAmountList "TotalTDSonOthThanSals" ((exampleDoc.get "TaxPaid").get "TDSonOthThanSals") ∧
    isAmountList "Amt" ((exampleDoc.get "TaxPaid").get "AdvanceTax") ∧
    isAmountList "Amt" ((exampleDoc.get "TaxPaid").get "SelfAssessmentTax") := by
  simp [exampleDoc, JSVal.get, List.lookup, isAmountList, isAbsent, isAmountOrAbsent]

/-! ## The tax-paid sums of number amounts -/

theorem or_number {v : JSVal} (h : isNumberOrAbsent v) :
    v.or (num (fin 0)) = num (numberValue v) := by
  rcases h with h | ⟨n, hn, h⟩
  · rcases h with h | h <;> subst h <;> rfl
  · subst h
    cases n with
    | nan => exact absurd rfl hn
    | negInf => rfl
    | posInf => rfl
    | fin q => exact or_num_fin_zero q

theorem or_total (n : JSNum) : (num n).or (num (fin 0)) = num (sumOrZero n) := by
  cases n with
  | nan => rfl
  | negInf => rfl
  | posInf => rfl
  | fin q => simp [or_num_fin_zero, sumOrZero]

theorem reduceSum_numbers (host : Host) (key : String) :
    ∀ (items : List JSVal) (t : JSNum), (∀ item ∈ items, isNumberOrAbsent (item.get key)) →
      reduceSum host key items (num t) =
        Except.ok (num ((items.map (fun item => numberValue (item.get key))).foldl
          JSNum.add t)) := by
  intro items
  induction items with
  | nil => intro t _; rfl
  | cons item rest ih =>
    intro t h
    have hitem := h item (List.mem_cons_self _ _)
    have hrest : ∀ x ∈ rest, isNumberOrAbsent (x.get key) :=
      fun x hx => h x (List.mem_cons_of_mem _ hx)
    simp only [reduceSum, or_number hitem, add_num_num]
    rw [ih _ hrest]
    rfl

theorem sumField_numbers (host : Host) (key : String) {v : JSVal}
    (h : isNumberList key v) :
    sumField host v key = Except.ok (num (sumOrZero (numberTotal key v))) := by
  rcases h with h | ⟨items, h, hitems⟩
  · rcases h with h | h <;> subst h <;> rfl
  · subst h
    simp only [sumField, reduceSum_numbers host key items (fin 0) hitems, or_total,
      numberTotal]

theorem isNumberList_of_amounts {key : String} {v : JSVal} (h : isAmountList key v) :
    isNumberList key v := by
  rcases h with h | ⟨items, h, hitems⟩
  · exact Or.inl h
  · refine Or.inr ⟨items, h, fun item hi => ?_⟩
    rcases hitems item hi with ha | ⟨q, hq⟩
    · exact Or.inl ha
    · exact Or.inr ⟨fin q, by simp, hq⟩

/-- C13 (amended): for every document whose tax-paid fields `TDSonSalaries`,
`TDSonOthThanSals`, `AdvanceTax` and `SelfAssessmentTax` are each absent or a list of
entries whose amount is a number or missing, the summary returned by `parseITRJson`
has `tdsSalary`, `tdsOthers`, `advanceTax` and `selfAssessmentTax` equal to the sum
over the list's entries of the entry's amount (a missing amount counting as 0, an
empty or missing list giving 0, and a sum that is `NaN`, which needs both infinities
among the amounts, giving 0) and `totalTaxPaid` equal to the sum of these four,
whatever total the document supplies. -/
theorem C13_number_amounts_sum (host : Host) (doc : JSVal) (s : ClientData)
    (h1 : isNumberList "TotalTDSSalary" ((doc.get "TaxPaid").get "TDSonSalaries"))
    (h2 : isNumberList "TotalTDSonOthThanSals" ((doc.get "TaxPaid").get "TDSonOthThanSals"))
    (h3 : isNumberList "Amt" ((doc.get "TaxPaid").get "AdvanceTax"))
    (h4 : isNumberList "Amt" ((doc.get "TaxPaid").get "SelfAssessmentTax"))
    (h : parseITRJson host doc = some s) :
    s.taxPaid.tdsSalary = num (sumOrZero
      (numberTotal "TotalTDSSalary" ((doc.get "TaxPaid").get "TDSonSalaries"))) ∧
    s.taxPaid.tdsOthers = num (sumOrZero
      (numberTotal "TotalTDSonOthThanSals" ((doc.get "TaxPaid").get "TDSonOthThanSals"))) ∧
    s.taxPaid.advanceTax = num (sumOrZero
      (numberTotal "Amt" ((doc.get "TaxPaid").get "AdvanceTax"))) ∧
    s.taxPaid.selfAssessmentTax = num (sumOrZero
      (numberTotal "Amt" ((doc.get "TaxPaid").get "SelfAssessmentTax"))) ∧
    s.taxPaid.totalTaxPaid = num ((((sumOrZero
        (numberTotal "TotalTDSSalary" ((doc.get "TaxPaid").get "TDSonSalaries"))).add
      (sumOrZero
        (numberTotal "TotalTDSonOthThanSals" ((doc.get "TaxPaid").get "TDSonOthThanSals")))).add
      (sumOrZero (numberTotal "Amt" ((doc.get "TaxPaid").get "AdvanceTax")))).add
      (sumOrZero (numberTotal "Amt" ((doc.get "TaxPaid").get "SelfAssessmentTax")))) := by
  obtain ⟨age, net, result, taxPaid, settlement, -, -, -, hpaid, -, hs⟩ :=
    parseBody_ok (parseITRJson_eq_some h)
  simp only [taxPaidOf, sumField_numbers host _ h1, sumField_numbers host _ h2,
    sumField_numbers host _ h3, sumField_numbers host _ h4, add_num_num] at hpaid
  have htp := Except.ok.inj hpaid
  subst hs
  simp [clientDataOf, ← htp]

/-- Instance of C13 (amended) at the example document: 40000 + 10000 of TDS on salary,
5000 + 0 of advance tax, total 55000, although the document supplies the total 1. -/
theorem C13_number_amounts_sum_witness :
    parseITRJson exampleHost exampleDoc = some exampleSummary ∧
    (exampleDoc.get "TaxPaid").get "TotalTaxPaid" = num (fin 1) ∧
    sumOrZero (numberTotal "TotalTDSSalary" ((exampleDoc.get "TaxPaid").get "TDSonSalaries")) =
      fin 50000 ∧
    exampleSummary.taxPaid.tdsSalary = num (sumOrZero
      (numberTotal "TotalTDSSalary" ((exampleDoc.get "TaxPaid").get "TDSonSalaries"))) ∧
    exampleSummary.taxPaid.totalTaxPaid = num ((((sumOrZero
        (numberTotal "TotalTDSSalary" ((exampleDoc.get "TaxPaid").get "TDSonSalaries"))).add
      (sumOrZero (numberTotal "TotalTDSonOthThanSals"
        ((exampleDoc.get "TaxPaid").get "TDSonOthThanSals")))).add
      (sumOrZero (numberTotal "Amt" ((exampleDoc.get "TaxPaid").get "AdvanceTax")))).add
      (sumOrZero (numberTotal "Amt" ((exampleDoc.get "TaxPaid").get "SelfAssessmentTax")))) := by
  have hc := C13_number_amounts_sum exampleHost exampleDoc exampleSummary
    (isNumberList_of_amounts exampleDoc_lists.1)
    (isNumberList_of_amounts exampleDoc_lists.2.1)
    (isNumberList_of_amounts exampleDoc_lists.2.2.1)
    (isNumberList_of_amounts exampleDoc_lists.2.2.2) parseITRJson_exampleDoc
  refine ⟨parseITRJson_exampleDoc, by simp [exampleDoc, JSVal.get, List.lookup], ?_,
    hc.1, hc.2.2.2.2⟩
  simp [exampleDoc, JSVal.get, List.lookup, numberTotal, numberValue, sumOrZero, JSNum.add]
  norm_num

/-! ## Well-formed documents -/

theorem calculateAge_text (host : Host) {v : JSVal} (h : isTextOrAbsent v) :
    ∃ age, calculateAge host (v.or (str "")) = Except.ok age := by
  rcases h with h | ⟨s, h⟩
  · rw [or_of_isAbsent h]
    exact ⟨fin 30, by simp [calculateAge, JSVal.truthy]⟩
  · subst h
    by_cases hs : s = ""
    · subst hs
      exact ⟨fin 30, by simp [calculateAge, JSVal.or, JSVal.truthy]⟩
    · exact ⟨ageOf host.today (host.parseDate s),
        by simp [calculateAge, JSVal.or, JSVal.truthy, hs, newDate]⟩

/-- The tax computed for a well-formed document: `computeTax` on the finite net
income returns a result with a finite total. -/
theorem computeTax_wellFormed {ay regime : String} {rule : Rule}
    (h : taxRules (ruleKey ay regime) = some rule) (I : ℚ) (age : JSNum) :
    ∃ result, computeTax (fin I) age ay regime = Except.ok result ∧
      ∃ t : ℚ, result.totalTax = fin t ∧ 0 ≤ t := by
  obtain ⟨lim, cap, hok⟩ := taxRules_ok h
  obtain ⟨l, hl, hsel⟩ := selectSlabs_table h age regime
  exact ⟨_, computeTax_of_select h hsel (fin I), finishTax_fin_totalTax_nonneg hok hl I⟩

theorem finalSettlementOf_num (host : Host) (totalTax : JSNum) (a b c d : JSVal)
    (p : JSNum) :
    finalSettlementOf host totalTax ⟨a, b, c, d, num p⟩ =
      Except.ok ⟨totalTax, num p, JSNum.max (fin 0) (p.sub totalTax),
        JSNum.max (fin 0) (totalTax.sub p)⟩ := by
  simp only [finalSettlementOf, sub_num_num]

theorem parseBody_wellFormed (host : Host) {doc : JSVal} (hwf : WellFormed doc) :
    ∃ age result ay,
      calculateAge host (dobOf doc) = Except.ok age ∧
      assessmentYearOf doc = str ay ∧
      computeTax (fin (amountValue ((doc.get "PartA_TotalIncome").get "GrossTotalIncome") -
        amountValue ((doc.get "PartA_TotalIncome").get "TotalDeductions"))) age ay
        (regimeOf doc) = Except.ok result ∧
      (∃ t : ℚ, result.totalTax = fin t ∧ 0 ≤ t) ∧
      ∃ taxPaid settlement,
        taxPaidOf host doc = Except.ok taxPaid ∧
        finalSettlementOf host result.totalTax taxPaid = Except.ok settlement ∧
        parseBody host doc = Except.ok (clientDataOf host doc age
          (fin (amountValue ((doc.get "PartA_TotalIncome").get "GrossTotalIncome") -
            amountValue ((doc.get "PartA_TotalIncome").get "TotalDeductions")))
          result taxPaid settlement) := by
  obtain ⟨age, hage⟩ := calculateAge_text host hwf.dob
  obtain ⟨ay, rule, hay, hrule⟩ := hwf.year
  obtain ⟨result, hres, htot⟩ := computeTax_wellFormed hrule
    (amountValue ((doc.get "PartA_TotalIncome").get "GrossTotalIncome") -
      amountValue ((doc.get "PartA_TotalIncome").get "TotalDeductions")) age
  have hnet : JSVal.sub host (incomeDetailsOf doc).grossTotalIncome
      (deductionsOf doc).totalDeductions =
      Except.ok (fin (amountValue ((doc.get "PartA_TotalIncome").get "GrossTotalIncome") -
        amountValue ((doc.get "PartA_TotalIncome").get "TotalDeductions"))) := by
    simp only [incomeDetailsOf, deductionsOf, or_amount hwf.gross, or_amount hwf.deductions,
      sub_num_num, sub_fin_fin]
  have hpaid := taxPaidOf_amounts host doc hwf.tdsSalary hwf.tdsOthers hwf.advanceTax
    hwf.selfAssessmentTax
  have hcall : callComputeTax host
      (fin (amountValue ((doc.get "PartA_TotalIncome").get "GrossTotalIncome") -
        amountValue ((doc.get "PartA_TotalIncome").get "TotalDeductions"))) age
      (assessmentYearOf doc) (regimeOf doc) = Except.ok result := by
    simp only [callComputeTax, hay, toStringJS, hres]
  have hage2 : calculateAge host (dobOf doc) = Except.ok age := hage
  have hset := finalSettlementOf_num host result.totalTax
    (num (fin (listTotal "TotalTDSSalary" ((doc.get "TaxPaid").get "TDSonSalaries"))))
    (num (fin (listTotal "TotalTDSonOthThanSals" ((doc.get "TaxPaid").get "TDSonOthThanSals"))))
    (num (fin (listTotal "Amt" ((doc.get "TaxPaid").get "AdvanceTax"))))
    (num (fin (listTotal "Amt" ((doc.get "TaxPaid").get "SelfAssessmentTax"))))
    (fin (listTotal "TotalTDSSalary" ((doc.get "TaxPaid").get "TDSonSalaries") +
      listTotal "TotalTDSonOthThanSals" ((doc.get "TaxPaid").get "TDSonOthThanSals") +
      listTotal "Amt" ((doc.get "TaxPaid").get "AdvanceTax") +
      listTotal "Amt" ((doc.get "TaxPaid").get "SelfAssessmentTax")))
  exact ⟨age, result, ay, hage2, hay, hres, htot, _, _, hpaid, hset,
    by simp only [parseBody, hage2, hnet, hcall, hpaid, hset]⟩

theorem parseITRJson_of_parseBody {host : Host} {doc : JSVal} {s : ClientData}
    (h : parseBody host doc = Except.ok s) : parseITRJson host doc = some s := by
  simp only [parseITRJson, h]

/-- In the summary of a well-formed document the paid total and the liability are
finite numbers, so that their difference is not `NaN`. -/
theorem wellFormed_amounts_defined (host : Host) {doc : JSVal} (hwf : WellFormed doc)
    {s : ClientData} (h : parseITRJson host doc = some s) :
    ∃ p l : ℚ, toNumber host s.taxPaid.totalTaxPaid = Except.ok (fin p) ∧
      s.taxComputation.totalTaxLiability = fin l ∧
      (fin p).sub s.taxComputation.totalTaxLiability ≠ nan := by
  obtain ⟨age, result, ay, -, -, -, ⟨t, ht, -⟩, taxPaid, settlement, hpaid, -, hbody⟩ :=
    parseBody_wellFormed host hwf
  rw [taxPaidOf_amounts host doc hwf.tdsSalary hwf.tdsOthers hwf.advanceTax
    hwf.selfAssessmentTax] at hpaid
  have htp := Except.ok.inj hpaid
  subst htp
  have hs : s = _ := Except.ok.inj ((parseITRJson_eq_some h).symm.trans hbody)
  subst hs
  exact ⟨_, t, rfl, ht, by simp [clientDataOf, ht]⟩

/-! ## The final settlement of every summary -/

theorem computeTax_nan :
    computeTax nan (fin 30) "2024-25" "Old" = Except.ok ⟨nan, nan, nan, fin 0⟩ := by
  have hk : taxRules (ruleKey "2024-25" "Old") = some rule_2024_25 := by
    simp [ruleKey, taxRules]
  have hs : selectSlabs rule_2024_25 (fin 30) "Old" = some oldSlabs := by
    norm_num [selectSlabs, rule_2024_25]
  rw [computeTax_of_select hk hs]
  norm_num [finishTax, slabLoop, oldSlabs, rebateOf, cessRateOf, rule_2024_25, JSNum.sub,
    JSNum.min, JSNum.le, JSNum.mul, JSNum.add, JSNum.max, JSNum.truthy]

theorem parseBody_textGrossDoc :
    parseBody exampleHost textGrossDoc =
      Except.ok (clientDataOf exampleHost textGrossDoc (fin 30) nan ⟨nan, nan, nan, fin 0⟩
        ⟨num (fin 0), num (fin 0), num (fin 0), num (fin 0), num (fin 0)⟩
        ⟨nan, num (fin 0), nan, nan⟩) := by
  have hage : calculateAge exampleHost (dobOf textGrossDoc) = Except.ok (fin 30) := by
    simp [calculateAge, dobOf, textGrossDoc, JSVal.get, List.lookup, JSVal.or, JSVal.truthy]
  have hnet : JSVal.sub exampleHost (incomeDetailsOf textGrossDoc).grossTotalIncome
      (deductionsOf textGrossDoc).totalDeductions = Except.ok nan := by
    simp [incomeDetailsOf, deductionsOf, textGrossDoc, JSVal.get, List.lookup, JSVal.or,
      JSVal.truthy, JSVal.sub, toNumber, exampleHost, JSNum.sub]
  have hay : assessmentYearOf textGrossDoc = str "2024-25" := by
    simp [assessmentYearOf, textGrossDoc, JSVal.get, List.lookup, JSVal.or, JSVal.truthy]
  have hreg : regimeOf textGrossDoc = "Old" := by
    simp [regimeOf, textGrossDoc, JSVal.get, List.lookup, JSVal.strictEqStr]
  have htax : callComputeTax exampleHost nan (fin 30) (str "2024-25") "Old" =
      Except.ok ⟨nan, nan, nan, fin 0⟩ := by
    simp only [callComputeTax, toStringJS, computeTax_nan]
  have hpaid : taxPaidOf exampleHost textGrossDoc =
      Except.ok ⟨num (fin 0), num (fin 0), num (fin 0), num (fin 0), num (fin 0)⟩ := by
    simp [taxPaidOf, sumField, textGrossDoc, JSVal.get, List.lookup, JSVal.add, toPrimitive,
      addPrim, toNumber]
  have hset : finalSettlementOf exampleHost nan
      ⟨num (fin 0), num (fin 0), num (fin 0), num (fin 0), num (fin 0)⟩ =
      Except.ok ⟨nan, num (fin 0), nan, nan⟩ := by
    simp [finalSettlementOf, JSVal.sub, toNumber, JSNum.sub, JSNum.max]
  simp only [parseBody, hage, hnet, hay, hreg, htax, hpaid, hset]

/-- C12 (the claim fails): for the document whose gross total income is the string
"abc", which reads as `NaN`, `parseITRJson` returns a summary whose net taxable income
and total tax liability are `NaN`; its total tax paid is 0, and `refundDue` and
`taxPayable` are both `NaN`, so neither is `>= 0`. -/
theorem C12_text_gross_gives_nan :
    exampleHost.strToNum "abc" = nan ∧
    ∃ s, parseITRJson exampleHost textGrossDoc = some s ∧
      s.taxPaid.totalTaxPaid = num (fin 0) ∧
      s.taxComputation.totalTaxLiability = nan ∧
      s.finalSettlement.refundDue = nan ∧
      s.finalSettlement.taxPayable = nan ∧
      (fin 0).le s.finalSettlement.refundDue = false ∧
      (fin 0).le s.finalSettlement.taxPayable = false :=
  ⟨rfl, clientDataOf exampleHost textGrossDoc (fin 30) nan ⟨nan, nan, nan, fin 0⟩
      ⟨num (fin 0), num (fin 0), num (fin 0), num (fin 0), num (fin 0)⟩
      ⟨nan, num (fin 0), nan, nan⟩,
    by simp only [parseITRJson, parseBody_textGrossDoc], rfl, rfl, rfl, rfl, rfl, rfl⟩

/-- C12 (amended): for every document for which `parseITRJson` returns a summary,
`refundDue = max(0, taxPaid - taxLiability)` and `taxPayable = max(0, taxLiability -
taxPaid)`, the paid total being read as a number; when the difference of the two is a
number (not `NaN`), both are `>= 0`, at most one of them is non-zero, and both are
zero exactly when the paid total equals the liability; when the difference is `NaN`
both are `NaN`; and for a well-formed document, whose amounts are numbers, the
difference is a number. -/
theorem C12_settlement_invariant (host : Host) (doc : JSVal) (s : ClientData)
    (h : parseITRJson host doc = some s) :
    ∃ p, toNumber host s.taxPaid.totalTaxPaid = Except.ok p ∧
      s.finalSettlement.refundDue =
        JSNum.max (fin 0) (p.sub s.taxComputation.totalTaxLiability) ∧
      s.finalSettlement.taxPayable =
        JSNum.max (fin 0) (s.taxComputation.totalTaxLiability.sub p) ∧
      (p.sub s.taxComputation.totalTaxLiability ≠ nan →
        (fin 0).le s.finalSettlement.refundDue = true ∧
        (fin 0).le s.finalSettlement.taxPayable = true ∧
        (s.finalSettlement.refundDue = fin 0 ∨ s.finalSettlement.taxPayable = fin 0) ∧
        ((s.finalSettlement.refundDue = fin 0 ∧ s.finalSettlement.taxPayable = fin 0) ↔
          p = s.taxComputation.totalTaxLiability)) ∧
      (p.sub s.taxComputation.totalTaxLiability = nan →
        s.finalSettlement.refundDue = nan ∧ s.finalSettlement.taxPayable = nan) ∧
      (WellFormed doc → p.sub s.taxComputation.totalTaxLiability ≠ nan) := by
  have hwfd := fun hwf : WellFormed doc => wellFormed_amounts_defined host hwf h
  obtain ⟨age, net, result, taxPaid, settlement, -, -, -, -, hset, hs⟩ :=
    parseBody_ok (parseITRJson_eq_some h)
  obtain ⟨p, hp, hsettle⟩ := finalSettlementOf_ok hset
  subst hs hsettle
  refine ⟨p, hp, rfl, rfl, fun hnum => settlement_facts p result.totalTax hnum, ?_, ?_⟩
  · intro hnan
    have hnan2 : p.sub result.totalTax = nan := hnan
    have hswap : result.totalTax.sub p = nan := sub_nan_swap hnan2
    simp only [clientDataOf, hnan2, hswap]
    exact ⟨rfl, rfl⟩
  · intro hwf
    obtain ⟨p2, l, hp2, -, hne⟩ := hwfd hwf
    have hpp : fin p2 = p := Except.ok.inj (hp2.symm.trans hp)
    rw [hpp] at hne
    exact hne

/-- Instance of C12 (amended) at the example document: paid 55000, liability 65000,
refund 0 and payable 10000. -/
theorem C12_settlement_invariant_witness :
    parseITRJson exampleHost exampleDoc = some exampleSummary ∧
    ∃ p, toNumber exampleHost exampleSummary.taxPaid.totalTaxPaid = Except.ok p ∧
      exampleSummary.finalSettlement.refundDue =
        JSNum.max (fin 0) (p.sub exampleSummary.taxComputation.totalTaxLiability) ∧
      exampleSummary.finalSettlement.taxPayable =
        JSNum.max (fin 0) (exampleSummary.taxComputation.totalTaxLiability.sub p) ∧
      (p.sub exampleSummary.taxComputation.totalTaxLiability ≠ nan →
        (fin 0).le exampleSummary.finalSettlement.refundDue = true ∧
        (fin 0).le exampleSummary.finalSettlement.taxPayable = true ∧
        (exampleSummary.finalSettlement.refundDue = fin 0 ∨
          exampleSummary.finalSettlement.taxPayable = fin 0) ∧
        ((exampleSummary.finalSettlement.refundDue = fin 0 ∧
            exampleSummary.finalSettlement.taxPayable = fin 0) ↔
          p = exampleSummary.taxComputation.totalTaxLiability)) ∧
      (p.sub exampleSummary.taxComputation.totalTaxLiability = nan →
        exampleSummary.finalSettlement.refundDue = nan ∧
          exampleSummary.finalSettlement.taxPayable = nan) ∧
      (WellFormed exampleDoc →
        p.sub exampleSummary.taxComputation.totalTaxLiability ≠ nan) :=
  ⟨parseITRJson_exampleDoc,
    C12_settlement_invariant exampleHost exampleDoc exampleSummary parseITRJson_exampleDoc⟩

/-- C15: for every well-formed document (assessment year and regime in the rule
table, tax-paid fields lists or absent, amounts numbers) that has no deductions
section, neither `PartA_TotalIncome.TotalDeductions` nor
`PartA_TotalIncome.Deductions`, `parseITRJson` returns a summary, not null, with
`deductions.totalDeductions = 0`, `section80C = section80D = section80G = 0` and
`netTaxableIncome = incomeDetails.grossTotalIncome`. -/
theorem C15_no_deductions (host : Host) (doc : JSVal) (hwf : WellFormed doc)
    (htotal : isAbsent ((doc.get "PartA_TotalIncome").get "TotalDeductions"))
    (hsection : isAbsent ((doc.get "PartA_TotalIncome").get "Deductions")) :
    ∃ s, parseITRJson host doc = some s ∧
      s.deductions.totalDeductions = num (fin 0) ∧
      s.deductions.section80C = num (fin 0) ∧
      s.deductions.section80D = num (fin 0) ∧
      s.deductions.section80G = num (fin 0) ∧
      s.incomeDetails.grossTotalIncome = num s.netTaxableIncome := by
  obtain ⟨age, result, ay, -, -, -, -, taxPaid, settlement, -, -, hbody⟩ :=
    parseBody_wellFormed host hwf
  refine ⟨_, parseITRJson_of_parseBody hbody, ?_, ?_, ?_, ?_, ?_⟩
  · simp only [clientDataOf, deductionsOf, or_of_isAbsent htotal]
  · simp only [clientDataOf, deductionsOf, get_of_isAbsent hsection, or_undefined]
  · simp only [clientDataOf, deductionsOf, get_of_isAbsent hsection, or_undefined]
  · simp only [clientDataOf, deductionsOf, get_of_isAbsent hsection, or_undefined]
  · have hd : amountValue ((doc.get "PartA_TotalIncome").get "TotalDeductions") = 0 := by
      rcases htotal with h | h <;> rw [h] <;> rfl
    simp only [clientDataOf, incomeDetailsOf, or_amount hwf.gross, hd, sub_zero]

theorem wellFormed_noDeductionsDoc : WellFormed noDeductionsDoc where
  year := ⟨"2024-25", rule_2024_25,
    by simp [assessmentYearOf, noDeductionsDoc, JSVal.get, List.lookup, JSVal.or, JSVal.truthy],
    by simp [regimeOf, noDeductionsDoc, JSVal.get, List.lookup, JSVal.strictEqStr, ruleKey,
      taxRules]⟩
  dob := by simp [noDeductionsDoc, JSVal.get, List.lookup, isTextOrAbsent, isAbsent]
  gross := by simp [noDeductionsDoc, JSVal.get, List.lookup, isAmountOrAbsent, isAbsent]
  deductions := by simp [noDeductionsDoc, JSVal.get, List.lookup, isAmountOrAbsent, isAbsent]
  tdsSalary := by simp [noDeductionsDoc, JSVal.get, List.lookup, isAmountList, isAbsent]
  tdsOthers := by simp [noDeductionsDoc, JSVal.get, List.lookup, isAmountList, isAbsent]
  advanceTax := by simp [noDeductionsDoc, JSVal.get, List.lookup, isAmountList, isAbsent]
  selfAssessmentTax := by simp [noDeductionsDoc, JSVal.get, List.lookup, isAmountList, isAbsent]

/-- Instance of C15 at a document that holds a gross total income of 600000 and
nothing else. -/
theorem C15_no_deductions_witness :
    WellFormed noDeductionsDoc ∧
    isAbsent ((noDeductionsDoc.get "PartA_TotalIncome").get "TotalDeductions") ∧
    isAbsent ((noDeductionsDoc.get "PartA_TotalIncome").get "Deductions") ∧
    ∃ s, parseITRJson exampleHost noDeductionsDoc = some s ∧
      s.deductions.totalDeductions = num (fin 0) ∧
      s.deductions.section80C = num (fin 0) ∧
      s.deductions.section80D = num (fin 0) ∧
      s.deductions.section80G = num (fin 0) ∧
      s.incomeDetails.grossTotalIncome = num s.netTaxableIncome :=
  ⟨wellFormed_noDeductionsDoc,
   by simp [noDeductionsDoc, JSVal.get, List.lookup, isAbsent],
   by simp [noDeductionsDoc, JSVal.get, List.lookup, isAbsent],
   C15_no_deductions exampleHost noDeductionsDoc wellFormed_noDeductionsDoc
     (by simp [noDeductionsDoc, JSVal.get, List.lookup, isAbsent])
     (by simp [noDeductionsDoc, JSVal.get, List.lookup, isAbsent])⟩

/-! ## Missing and reshaped fields -/

theorem sumField_reshaped (host : Host) (key : String) {v : JSVal} (h : isReshapedList v) :
    sumField host v key = Except.error JSError.typeError := by
  obtain ⟨habs, harr⟩ := h
  cases v with
  | undefined => exact absurd (Or.inl rfl) habs
  | null => exact absurd (Or.inr rfl) habs
  | arr items => exact absurd rfl (harr items)
  | bool b => rfl
  | num n => rfl
  | str s => rfl
  | obj fields => rfl

theorem taxPaidOf_ok {host : Host} {doc : JSVal} {taxPaid : TaxPaid}
    (h : taxPaidOf host doc = Except.ok taxPaid) :
    (∃ a, sumField host ((doc.get "TaxPaid").get "TDSonSalaries") "TotalTDSSalary" =
      Except.ok a) ∧
    (∃ b, sumField host ((doc.get "TaxPaid").get "TDSonOthThanSals") "TotalTDSonOthThanSals" =
      Except.ok b) ∧
    (∃ c, sumField host ((doc.get "TaxPaid").get "AdvanceTax") "Amt" = Except.ok c) ∧
    (∃ d, sumField host ((doc.get "TaxPaid").get "SelfAssessmentTax") "Amt" = Except.ok d) := by
  simp only [taxPaidOf] at h
  split at h
  · exact absurd h (by simp)
  rename_i a ha
  split at h
  · exact absurd h (by simp)
  rename_i b hb
  split at h
  · exact absurd h (by simp)
  rename_i c hc
  split at h
  · exact absurd h (by simp)
  rename_i d hd
  exact ⟨⟨a, ha⟩, ⟨b, hb⟩, ⟨c, hc⟩, ⟨d, hd⟩⟩

theorem parseITRJson_reshaped (host : Host) (doc : JSVal)
    (h : isReshapedList ((doc.get "TaxPaid").get "TDSonSalaries") ∨
      isReshapedList ((doc.get "TaxPaid").get "TDSonOthThanSals") ∨
      isReshapedList ((doc.get "TaxPaid").get "AdvanceTax") ∨
      isReshapedList ((doc.get "TaxPaid").get "SelfAssessmentTax")) :
    parseITRJson host doc = none := by
  cases hp : parseITRJson host doc with
  | none => rfl
  | some s =>
    obtain ⟨age, net, result, taxPaid, settlement, -, -, -, hpaid, -, -⟩ :=
      parseBody_ok (parseITRJson_eq_some hp)
    obtain ⟨⟨a, ha⟩, ⟨b, hb⟩, ⟨c, hc⟩, ⟨d, hd⟩⟩ := taxPaidOf_ok hpaid
    rcases h with h | h | h | h
    · rw [sumField_reshaped host _ h] at ha; exact absurd ha (by simp)
    · rw [sumField_reshaped host _ h] at hb; exact absurd hb (by simp)
    · rw [sumField_reshaped host _ h] at hc; exact absurd hc (by simp)
    · rw [sumField_reshaped host _ h] at hd; exact absurd hd (by simp)

theorem listTotal_of_isAbsent {v : JSVal} (h : isAbsent v) (key : String) :
    listTotal key v = 0 := by
  rcases h with h | h <;> subst h <;> rfl

/-- C16 (the claim fails for a reshaped tax-paid list): a document whose
`TaxPaid.TDSonSalaries` holds the number 5 instead of a list makes `parseITRJson`
return null. -/
theorem C16_reshaped_list_returns_null :
    parseITRJson exampleHost reshapedDoc = none :=
  parseITRJson_reshaped exampleHost reshapedDoc
    (Or.inl (by simp [isReshapedList, isAbsent, reshapedDoc, JSVal.get, List.lookup]))

/-- C16 (amended): for every JSON document in which sections or fields are missing
(the empty object included) and whose present fields are well formed, `parseITRJson`
returns a summary, not null, in which each missing amount is 0, a missing name or PAN
is "N/A" and a missing filing status is "Filed"; and for every document in which one
of the four tax-paid fields holds a boolean, number, string or object instead of a
list, `parseITRJson` returns null. -/
theorem C16_missing_fields_default (host : Host) (doc : JSVal) :
    (WellFormed doc → ∃ s, parseITRJson host doc = some s ∧
      MissingDefault ((doc.get "PartA_Gen1").get "Name") s.name (str "N/A") ∧
      MissingDefault ((doc.get "PartA_Gen1").get "PAN") s.pan (str "N/A") ∧
      MissingDefault ((doc.get "FilingStatus").get "Status") s.filingStatus (str "Filed") ∧
      MissingDefault ((doc.get "PartA_TotalIncome").get "Salaries")
        s.incomeDetails.salary (num (fin 0)) ∧
      MissingDefault ((doc.get "PartA_TotalIncome").get "IncomeFromHP")
        s.incomeDetails.houseProperty (num (fin 0)) ∧
      MissingDefault ((doc.get "PartA_TotalIncome").get "IncomeFromBP")
        s.incomeDetails.businessIncome (num (fin 0)) ∧
      MissingDefault ((doc.get "ScheduleCG").get "TotalSTCG")
        s.incomeDetails.capitalGains.shortTerm (num (fin 0)) ∧
      MissingDefault ((doc.get "ScheduleCG").get "TotalLTCG")
        s.incomeDetails.capitalGains.longTerm (num (fin 0)) ∧
      MissingDefault ((doc.get "PartA_TotalIncome").get "IncomeFromOS")
        s.incomeDetails.otherSources (num (fin 0)) ∧
      MissingDefault ((doc.get "PartA_TotalIncome").get "GrossTotalIncome")
        s.incomeDetails.grossTotalIncome (num (fin 0)) ∧
      MissingDefault (((doc.get "PartA_TotalIncome").get "Deductions").get "Section80C")
        s.deductions.section80C (num (fin 0)) ∧
      MissingDefault (((doc.get "PartA_TotalIncome").get "Deductions").get "Section80D")
        s.deductions.section80D (num (fin 0)) ∧
      MissingDefault (((doc.get "PartA_TotalIncome").get "Deductions").get "Section80G")
        s.deductions.section80G (num (fin 0)) ∧
      MissingDefault ((doc.get "PartA_TotalIncome").get "TotalDeductions")
        s.deductions.totalDeductions (num (fin 0)) ∧
      MissingDefault ((doc.get "TaxPaid").get "TDSonSalaries") s.taxPaid.tdsSalary (num (fin 0)) ∧
      MissingDefault ((doc.get "TaxPaid").get "TDSonOthThanSals")
        s.taxPaid.tdsOthers (num (fin 0)) ∧
      MissingDefault ((doc.get "TaxPaid").get "AdvanceTax") s.taxPaid.advanceTax (num (fin 0)) ∧
      MissingDefault ((doc.get "TaxPaid").get "SelfAssessmentTax")
        s.taxPaid.selfAssessmentTax (num (fin 0))) ∧
    ((isReshapedList ((doc.get "TaxPaid").get "TDSonSalaries") ∨
      isReshapedList ((doc.get "TaxPaid").get "TDSonOthThanSals") ∨
      isReshapedList ((doc.get "TaxPaid").get "AdvanceTax") ∨
      isReshapedList ((doc.get "TaxPaid").get "SelfAssessmentTax")) →
      parseITRJson host doc = none) := by
  refine ⟨fun hwf => ?_, parseITRJson_reshaped host doc⟩
  obtain ⟨age, result, ay, -, -, -, -, taxPaid, settlement, hpaid, -, hbody⟩ :=
    parseBody_wellFormed host hwf
  rw [taxPaidOf_amounts host doc hwf.tdsSalary hwf.tdsOthers hwf.advanceTax
    hwf.selfAssessmentTax] at hpaid
  have htp := Except.ok.inj hpaid
  subst htp
  refine ⟨_, parseITRJson_of_parseBody hbody, ?_⟩
  simp only [MissingDefault, clientDataOf, incomeDetailsOf, deductionsOf]
  refine ⟨?_, ?_, ?_, ?_, ?_, ?_, ?_, ?_, ?_, ?_, ?_, ?_, ?_, ?_, ?_, ?_, ?_, ?_⟩ <;> intro h <;>
    first
      | exact or_of_isAbsent h _
      | rw [listTotal_of_isAbsent h]

theorem get_empty (key : String) : (obj []).get key = undefined := rfl

theorem wellFormed_empty : WellFormed (obj []) where
  year := ⟨"2024-25", rule_2024_25,
    by simp [assessmentYearOf, JSVal.get, List.lookup, JSVal.or, JSVal.truthy],
    by simp [regimeOf, JSVal.get, List.lookup, JSVal.strictEqStr, ruleKey, taxRules]⟩
  dob := by simp [JSVal.get, List.lookup, isTextOrAbsent, isAbsent]
  gross := by simp [JSVal.get, List.lookup, isAmountOrAbsent, isAbsent]
  deductions := by simp [JSVal.get, List.lookup, isAmountOrAbsent, isAbsent]
  tdsSalary := by simp [JSVal.get, List.lookup, isAmountList, isAbsent]
  tdsOthers := by simp [JSVal.get, List.lookup, isAmountList, isAbsent]
  advanceTax := by simp [JSVal.get, List.lookup, isAmountList, isAbsent]
  selfAssessmentTax := by simp [JSVal.get, List.lookup, isAmountList, isAbsent]

/-- Instance of C16 (amended) at the empty object. -/
theorem C16_missing_fields_default_witness :
    WellFormed (obj []) ∧
    ∃ s, parseITRJson exampleHost (obj []) = some s ∧
      s.name = str "N/A" ∧ s.pan = str "N/A" ∧ s.filingStatus = str "Filed" ∧
      s.incomeDetails.grossTotalIncome = num (fin 0) ∧
      s.deductions.totalDeductions = num (fin 0) ∧
      s.taxPaid.tdsSalary = num (fin 0) := by
  obtain ⟨s, hs, h1, h2, h3, -, -, -, -, -, -, h10, -, -, -, h14, h15, -⟩ :=
    (C16_missing_fields_default exampleHost (obj [])).1 wellFormed_empty
  exact ⟨wellFormed_empty, s, hs, h1 (Or.inl rfl), h2 (Or.inl rfl), h3 (Or.inl rfl),
    h10 (Or.inl rfl), h14 (Or.inl rfl), h15 (Or.inl rfl)⟩

/-! ## Inputs that are not documents -/

theorem computeTax_default :
    computeTax (fin 0) (fin 30) "2024-25" "Old" =
      Except.ok ⟨fin 0, fin 0, fin 0, fin 0⟩ := by
  have hk : taxRules (ruleKey "2024-25" "Old") = some rule_2024_25 := by
    simp [ruleKey, taxRules]
  have hs : selectSlabs rule_2024_25 (fin 30) "Old" = some oldSlabs := by
    norm_num [selectSlabs, rule_2024_25]
  rw [computeTax_of_select hk hs, finishTax_fin ruleOK_old (by simp [slabLists, rule_2024_25])]
  norm_num [slabTaxQ, oldSlabs]

theorem parseBody_undefined (host : Host) :
    parseBody host undefined = Except.ok (defaultSummary host) := by
  have hage : calculateAge host (dobOf undefined) = Except.ok (fin 30) := by
    simp [calculateAge, dobOf, JSVal.get, JSVal.or, JSVal.truthy]
  have hnet : JSVal.sub host (incomeDetailsOf undefined).grossTotalIncome
      (deductionsOf undefined).totalDeductions = Except.ok (fin 0) := by
    simp [incomeDetailsOf, deductionsOf, JSVal.get, JSVal.or, JSVal.truthy, JSVal.sub, toNumber]
  have hay : assessmentYearOf undefined = str "2024-25" := by
    simp [assessmentYearOf, JSVal.get, JSVal.or, JSVal.truthy]
  have hreg : regimeOf undefined = "Old" := by
    simp [regimeOf, JSVal.get, JSVal.strictEqStr]
  have htax : callComputeTax host (fin 0) (fin 30) (str "2024-25") "Old" =
      Except.ok ⟨fin 0, fin 0, fin 0, fin 0⟩ := by
    simp only [callComputeTax, toStringJS, computeTax_default]
  have hpaid : taxPaidOf host undefined =
      Except.ok ⟨num (fin 0), num (fin 0), num (fin 0), num (fin 0), num (fin 0)⟩ := by
    simp [taxPaidOf, sumField, JSVal.get, JSVal.add, toPrimitive, addPrim, toNumber]
  have hset : finalSettlementOf host (fin 0)
      ⟨num (fin 0), num (fin 0), num (fin 0), num (fin 0), num (fin 0)⟩ =
      Except.ok ⟨fin 0, num (fin 0), fin 0, fin 0⟩ := by
    simp [finalSettlementOf, JSVal.sub, toNumber]
  simp only [parseBody, hage, hnet, hay, hreg, htax, hpaid, hset, clientDataOf]
  simp [defaultSummary, incomeDetailsOf, deductionsOf, JSVal.get, JSVal.or, JSVal.truthy]

theorem parseBody_of_no_fields (host : Host) (v : JSVal)
    (hv : ∀ key, v.get key = undefined) : parseBody host v = parseBody host undefined := by
  have hu : ∀ key, (undefined : JSVal).get key = undefined := fun _ => rfl
  simp only [parseBody, dobOf, incomeDetailsOf, deductionsOf, assessmentYearOf, regimeOf,
    taxPaidOf, clientDataOf, hv, hu]

theorem parseITRJson_of_no_fields (host : Host) (v : JSVal)
    (hv : ∀ key, v.get key = undefined) : parseITRJson host v = some (defaultSummary host) := by
  simp only [parseITRJson, parseBody_of_no_fields host v hv, parseBody_undefined]

/-- C17 (the claim fails): for the raw input `null`, `parseITRJson` does not return
null but the summary made of the default values only. -/
theorem C17_null_returns_summary :
    parseITRJson exampleHost JSVal.null = some (defaultSummary exampleHost) ∧
    parseITRJson exampleHost JSVal.null ≠ none := by
  have h := parseITRJson_of_no_fields exampleHost JSVal.null (fun _ => rfl)
  exact ⟨h, by rw [h]; simp⟩

/-- C17 (amended): for every raw input that is not a traversable document (`null`,
`undefined`, a boolean, a number, a string), `parseITRJson` returns a summary and not
null: the summary made of the default values only, which is also the summary of the
empty object. -/
theorem C17_non_document_gives_defaults (host : Host) (b : Bool) (n : JSNum) (t : String) :
    parseITRJson host JSVal.null = some (defaultSummary host) ∧
    parseITRJson host JSVal.undefined = some (defaultSummary host) ∧
    parseITRJson host (JSVal.bool b) = some (defaultSummary host) ∧
    parseITRJson host (num n) = some (defaultSummary host) ∧
    parseITRJson host (str t) = some (defaultSummary host) ∧
    parseITRJson host (obj []) = some (defaultSummary host) :=
  ⟨parseITRJson_of_no_fields host _ (fun _ => rfl),
   parseITRJson_of_no_fields host _ (fun _ => rfl),
   parseITRJson_of_no_fields host _ (fun _ => rfl),
   parseITRJson_of_no_fields host _ (fun _ => rfl),
   parseITRJson_of_no_fields host _ (fun _ => rfl),
   parseITRJson_of_no_fields host _ (fun _ => rfl)⟩

/-! ## `calculateAge` -/

theorem calculateAge_valid (host : Host) {dobStr : JSVal} {dob : YMD}
    (htruthy : dobStr.truthy = true) (hdate : newDate host dobStr = Except.ok (some dob)) :
    calculateAge host dobStr = Except.ok (fin (ageFromParts host.today dob)) := by
  simp only [calculateAge, htruthy, if_true, hdate, ageOf]

/-- C19: for every date-of-birth input that is present and denotes the valid date
(dy, dm, dd), the reference date being (ty, tm, td), `calculateAge` returns the
integer `k = ty - dy`, less 1 when (tm, td) precedes (dm, dd); equivalently
`(dy + k, dm, dd) <= (ty, tm, td) < (dy + k + 1, dm, dd)` in lexicographic order;
and `k >= 0` when the date of birth is not later than the reference date. -/
theorem C19_completed_years (host : Host) (dobStr : JSVal) (dob : YMD)
    (htruthy : dobStr.truthy = true) (hdate : newDate host dobStr = Except.ok (some dob)) :
    ∃ k : Int, calculateAge host dobStr = Except.ok (fin k) ∧
      (YMD.monthDayBefore host.today dob → k = host.today.year - dob.year - 1) ∧
      (¬ YMD.monthDayBefore host.today dob → k = host.today.year - dob.year) ∧
      YMD.le ⟨dob.year + k, dob.month, dob.date⟩ host.today ∧
      YMD.lt host.today ⟨dob.year + k + 1, dob.month, dob.date⟩ ∧
      (YMD.le dob host.today → 0 ≤ k) := by
  refine ⟨ageFromParts host.today dob, calculateAge_valid host htruthy hdate, ?_, ?_, ?_, ?_, ?_⟩
  all_goals
    simp only [ageFromParts, YMD.monthDayBefore, YMD.le, YMD.lt]
    split_ifs <;> omega

/-- Instance of C19 at the date of birth "1990-06-15" on 6 November 2026: the age
is 36. -/
theorem C19_completed_years_witness :
    (str "1990-06-15").truthy = true ∧
    newDate exampleHost (str "1990-06-15") = Except.ok (some ⟨1990, 5, 15⟩) ∧
    ∃ k : Int, calculateAge exampleHost (str "1990-06-15") = Except.ok (fin k) ∧
      (YMD.monthDayBefore exampleHost.today ⟨1990, 5, 15⟩ →
        k = exampleHost.today.year - 1990 - 1) ∧
      (¬ YMD.monthDayBefore exampleHost.today ⟨1990, 5, 15⟩ →
        k = exampleHost.today.year - 1990) ∧
      YMD.le ⟨1990 + k, 5, 15⟩ exampleHost.today ∧
      YMD.lt exampleHost.today ⟨1990 + k + 1, 5, 15⟩ ∧
      (YMD.le ⟨1990, 5, 15⟩ exampleHost.today → 0 ≤ k) :=
  ⟨by simp [JSVal.truthy], by simp [newDate, exampleHost],
   C19_completed_years exampleHost (str "1990-06-15") ⟨1990, 5, 15⟩ (by simp [JSVal.truthy])
     (by simp [newDate, exampleHost])⟩

/-- C20 (the claim fails): for the date of birth "2030-01-01", which lies after the
reference date 6 November 2026, `calculateAge` returns -4, and `0 <= -4` is false. -/
theorem C20_future_birth_negative :
    calculateAge exampleHost (str "2030-01-01") = Except.ok (fin (-4)) ∧
    (fin 0).le (fin (-4)) = false := by
  constructor
  · simp [calculateAge, JSVal.truthy, newDate, exampleHost, ageOf, ageFromParts]
  · norm_num [JSNum.le]

/-- C20 (amended): for every date-of-birth input that is absent (falsy)
`calculateAge` returns 30, and for every input that denotes a valid date it returns
an integer, which is `>= 0` when the date of birth is not later than the reference
date and negative when it is later. -/
theorem C20_age_nonneg (host : Host) (dobStr : JSVal) :
    (dobStr.truthy = false → calculateAge host dobStr = Except.ok (fin 30)) ∧
    (∀ dob, dobStr.truthy = true → newDate host dobStr = Except.ok (some dob) →
      ∃ k : Int, calculateAge host dobStr = Except.ok (fin k) ∧
        (YMD.le dob host.today → 0 ≤ k) ∧ (YMD.lt host.today dob → k < 0)) := by
  constructor
  · intro h
    simp [calculateAge, h]
  · intro dob htruthy hdate
    refine ⟨ageFromParts host.today dob, calculateAge_valid host htruthy hdate, ?_, ?_⟩
    all_goals
      simp only [ageFromParts, YMD.le, YMD.lt]
      split_ifs <;> omega

/-- Instance of C20 (amended) at the date of birth "1990-06-15" on 6 November 2026. -/
theorem C20_age_nonneg_witness :
    (str "1990-06-15").truthy = true ∧
    newDate exampleHost (str "1990-06-15") = Except.ok (some ⟨1990, 5, 15⟩) ∧
    YMD.le ⟨1990, 5, 15⟩ exampleHost.today ∧
    ∃ k : Int, calculateAge exampleHost (str "1990-06-15") = Except.ok (fin k) ∧ 0 ≤ k := by
  have hle : YMD.le ⟨1990, 5, 15⟩ exampleHost.today := by
    simp [YMD.le, exampleHost]
  obtain ⟨k, hk, hnn, -⟩ := (C20_age_nonneg exampleHost (str "1990-06-15")).2 ⟨1990, 5, 15⟩
    (by simp [JSVal.truthy]) (by simp [newDate, exampleHost])
  exact ⟨by simp [JSVal.truthy], by simp [newDate, exampleHost], hle, k, hk, hnn hle⟩

/-! ## An unparseable date of birth -/

theorem calculateAge_invalid (host : Host) {s : String} (hs : s ≠ "")
    (hdate : host.parseDate s = none) : calculateAge host (str s) = Except.ok nan := by
  simp [calculateAge, JSVal.truthy, hs, newDate, hdate, ageOf]

theorem calculateAge_falsy (host : Host) {v : JSVal} (h : v.truthy = false) :
    calculateAge host v = Except.ok (fin 30) := by
  simp [calculateAge, h]

/-- C21 (the code departs from the claim): for the date-of-birth string "not-a-date",
which does not parse to a valid date, `calculateAge` returns `NaN` and not 30; for an
absent date of birth (`undefined`, `null`, the empty string) it returns 30. -/
theorem C21_unparseable_gives_nan :
    exampleHost.parseDate "not-a-date" = none ∧
    calculateAge exampleHost (str "not-a-date") = Except.ok nan ∧
    calculateAge exampleHost undefined = Except.ok (fin 30) ∧
    calculateAge exampleHost null = Except.ok (fin 30) ∧
    calculateAge exampleHost (str "") = Except.ok (fin 30) := by
  have hp : exampleHost.parseDate "not-a-date" = none := by simp [exampleHost]
  exact ⟨hp, calculateAge_invalid exampleHost (by simp) hp, calculateAge_falsy _ rfl,
    calculateAge_falsy _ rfl, calculateAge_falsy _ (by simp [JSVal.truthy])⟩

/-! ## Invariants of the rule table -/

theorem table_lists_invariant {l : List Slab}
    (hl : l = oldSlabs ∨ l = oldSeniorSlabs ∨ l = oldSuperSeniorSlabs ∨ l = newSlabs) :
    l ≠ [] ∧ boundsIncreasing l ∧ ratesInUnit l ∧ endsUnbounded l := by
  rcases hl with h | h | h | h <;> subst h <;>
    refine ⟨by simp [oldSlabs, oldSeniorSlabs, oldSuperSeniorSlabs, newSlabs], ?_, ?_, ?_⟩ <;>
    norm_num [boundsIncreasing, ratesInUnit, endsUnbounded, oldSlabs, oldSeniorSlabs,
      oldSuperSeniorSlabs, newSlabs, JSNum.lt, JSNum.le]

/-- C23: every slab list of every entry of the rule table is non-empty, has strictly
increasing upper bounds, has every rate in [0, 1] and ends with an unbounded slab;
the rebate limit and the rebate cap of every entry are non-negative numbers and its
cess rate is in [0, 1]; an entry that has senior or super-senior slabs is an
Old-regime entry. -/
theorem C23_table_invariants (key : String) (rule : Rule) (h : taxRules key = some rule) :
    (∀ l ∈ slabLists rule, l ≠ [] ∧ boundsIncreasing l ∧ ratesInUnit l ∧ endsUnbounded l) ∧
    (∃ rb, rule.rebate87A = some rb ∧ (fin 0).le rb.limit = true ∧
      (fin 0).le rb.maxRebate = true) ∧
    (fin 0).le rule.cessRate = true ∧ rule.cessRate.le (fin 1) = true ∧
    ((rule.seniorSlabs.isSome = true ∨ rule.superSeniorSlabs.isSome = true) →
      rule.regime = "Old") := by
  refine ⟨fun l hl => table_lists_invariant (table_lists h hl), ?_⟩
  rcases taxRules_cases h with h | h <;> subst h <;>
    norm_num [rule_2024_25, rule_2024_25_new, JSNum.le]

/-- Instance of C23 at the entry "2024-25-new". -/
theorem C23_table_invariants_witness :
    taxRules "2024-25-new" = some rule_2024_25_new ∧
    (∀ l ∈ slabLists rule_2024_25_new,
      l ≠ [] ∧ boundsIncreasing l ∧ ratesInUnit l ∧ endsUnbounded l) ∧
    (fin 0).le rule_2024_25_new.cessRate = true :=
  have hc := C23_table_invariants "2024-25-new" rule_2024_25_new (by simp [taxRules])
  ⟨by simp [taxRules], hc.1, hc.2.2.1⟩

/-! ## The rule-key scheme -/

theorem append_right_cancel {a b c : String} (h : a ++ c = b ++ c) : a = b := by
  have hd := congrArg String.data h
  simp only [String.data_append] at hd
  exact String.ext (List.append_cancel_right hd)

/-- C24 (the claim fails): the Old-regime request for the assessment-year string
"2024-25-new" and the New-regime request for "2024-25" are different pairs with the
same rule key, and the Old-regime request resolves to the New-regime entry. -/
theorem C24_key_collision :
    (("2024-25-new", "Old") : String × String) ≠ ("2024-25", "New") ∧
    ruleKey "2024-25-new" "Old" = ruleKey "2024-25" "New" ∧
    taxRules (ruleKey "2024-25-new" "Old") = some rule_2024_25_new ∧
    rule_2024_25_new.regime = "New" := by
  refine ⟨by simp, ?_, ?_, rfl⟩
  · simp [ruleKey]
  · simp [ruleKey, taxRules]

/-- C24 (amended): for all assessment-year strings `ay1`, `ay2` that do not end in
"-new" and all regimes `r1`, `r2` in {Old, New}, if `(ay1, r1)` differs from
`(ay2, r2)` then the two rule keys differ. -/
theorem C24_keys_disjoint (ay1 ay2 r1 r2 : String)
    (h1 : ¬ ∃ p, ay1 = p ++ "-new") (h2 : ¬ ∃ p, ay2 = p ++ "-new")
    (hr1 : r1 = "Old" ∨ r1 = "New") (hr2 : r2 = "Old" ∨ r2 = "New")
    (hne : (ay1, r1) ≠ (ay2, r2)) :
    ruleKey ay1 r1 ≠ ruleKey ay2 r2 := by
  intro hk
  rcases hr1 with hr1 | hr1 <;> rcases hr2 with hr2 | hr2 <;> subst hr1 hr2 <;>
    simp [ruleKey] at hk
  · exact hne (by rw [hk])
  · exact h1 ⟨ay2, hk⟩
  · exact h2 ⟨ay1, hk.symm⟩
  · exact hne (by rw [append_right_cancel hk])

/-- Instance of C24 (amended) at ("2024-25", Old) and ("2024-25", New). -/
theorem C24_keys_disjoint_witness :
    (¬ ∃ p, "2024-25" = p ++ "-new") ∧
    (("2024-25", "Old") : String × String) ≠ ("2024-25", "New") ∧
    ruleKey "2024-25" "Old" ≠ ruleKey "2024-25" "New" := by
  have hno : ¬ ∃ p, "2024-25" = p ++ "-new" := by
    rintro ⟨p, hp⟩
    have hd := congrArg String.data hp
    simp only [String.data_append] at hd
    have h5 := congrArg (fun l => l.reverse.take 4) hd
    simp at h5
  exact ⟨hno, by simp, C24_keys_disjoint "2024-25" "2024-25" "Old" "New" hno hno
    (Or.inl rfl) (Or.inr rfl) (by simp)⟩

/-! ## The cess rate and the two copies of `computeTax` -/

theorem finishTax_cess_truthy (rule : Rule) (income : JSNum) (l : List Slab)
    (h : rule.cessRate.truthy = true) :
    (finishTax rule income l).cess = (finishTax rule income l).tax.mul rule.cessRate := by
  simp only [finishTax, cessRateOf, h, if_true]

/-- C26 (the code departs from the claim): with a rule whose cess rate is exactly 0,
`computeTax` of `utils/computeTax.js` charges the fallback rate 0.04 (`rule.cessRate
|| 0.04`): for income 600000 and age 45 it returns tax 32500, cess 1300 and total
33800, whereas the copy in `app.jsx`, which multiplies by `rule.cessRate`, returns
cess 0 and total 32500. -/
theorem C26_zero_cess_rate :
    zeroCessTable (ruleKey "2024-25" "Old") = some { rule_2024_25 with cessRate := fin 0 } ∧
    computeTaxWith zeroCessTable (fin 600000) (fin 45) "2024-25" "Old" =
      Except.ok ⟨fin 32500, fin 1300, fin 33800, fin 0⟩ ∧
    App.computeTaxWith zeroCessTable (fin 600000) (fin 45) "2024-25" "Old" =
      Except.ok ⟨fin 32500, fin 0, fin 32500, fin 0⟩ := by
  have hk : zeroCessTable (ruleKey "2024-25" "Old") =
      some { rule_2024_25 with cessRate := fin 0 } := by
    simp [ruleKey, zeroCessTable]
  have hmem : oldSlabs ∈ slabLists rule_2024_25 := by simp [slabLists, rule_2024_25]
  have hloop : slabLoop (fin 600000) oldSlabs (fin 0) (fin 0) = fin 32500 := by
    rw [slabLoop_eq _ _ 0 0 (ruleOK_old.lists _ hmem)]
    norm_num [slabTaxQ, oldSlabs]
  have hsel : selectSlabs { rule_2024_25 with cessRate := fin 0 } (fin 45) "Old" =
      some oldSlabs := by
    norm_num [selectSlabs, rule_2024_25]
  refine ⟨hk, ?_, ?_⟩
  · simp only [computeTaxWith, hk, hsel, finishTax, hloop]
    norm_num [rebateOf, cessRateOf, rule_2024_25, JSNum.truthy]
  · simp only [App.computeTaxWith, hk, hsel, App.finishTax, hloop]
    norm_num [rule_2024_25]

theorem readRule_cases {key : String} {rule : Rule} (h : readRule key = some rule) :
    taxRules key = some rule ∨ rule = inheritedValue := by
  unfold readRule at h
  split at h
  · rename_i r hr
    exact Or.inl (hr.trans h)
  · split_ifs at h
    exact Or.inr (Option.some.inj h).symm

theorem selectSlabs_inherited (age : JSNum) (regime : String) :
    selectSlabs inheritedValue age regime = none := by
  simp [selectSlabs, inheritedValue]

theorem appFinishTax_table {key : String} {rule : Rule} (h : taxRules key = some rule)
    (income : JSNum) (l : List Slab) :
    App.finishTax rule income l = Except.ok (finishTax rule income l) := by
  obtain ⟨hc, hc2⟩ := cessRateOf_table h
  rcases taxRules_cases h with h | h <;> subst h <;>
    simp [App.finishTax, finishTax, rebateOf, cessRateOf, rule_2024_25, rule_2024_25_new,
      JSNum.truthy]

theorem appComputeTax_eq (income age : JSNum) (ay regime : String) :
    App.computeTax income age ay regime = computeTax income age ay regime := by
  unfold App.computeTax App.computeTaxWith computeTax computeTaxWith
  cases hr : readRule (ruleKey ay regime) with
  | none => cases readRule "2024-25" <;> rfl
  | some rule =>
    rcases readRule_cases hr with ht | ht
    · cases hs : selectSlabs rule age regime with
      | none => simp only [hs]
      | some l => simp only [hs, appFinishTax_table ht]
    · subst ht
      simp only [selectSlabs_inherited]

/-- C27: for every income, age, assessment year and regime, the `computeTax` inlined
in `app.jsx` and the `computeTax` of `utils/computeTax.js` have the same outcome on
the rule table: both raise the same error or both return the same
`{ tax, cess, totalTax, rebate }`. -/
theorem C27_copies_agree (income age : JSNum) (ay regime : String) :
    App.computeTax income age ay regime = computeTax income age ay regime :=
  appComputeTax_eq income age ay regime

/-! ## Age bands -/

theorem senior_le_general (I : ℚ) :
    slabTaxQ I 0 oldSeniorSlabs ≤ slabTaxQ I 0 oldSlabs := by
  simp only [slabTaxQ, oldSeniorSlabs, oldSlabs]
  have h1 : Max.max 0 (Min.min 500000 I - 300000) ≤ Max.max 0 (Min.min 500000 I - 250000) :=
    max_le_max le_rfl (by linarith)
  have h2 : (0 : ℚ) ≤ Max.max 0 (Min.min 250000 I - 0) := le_max_left _ _
  have h3 : (0 : ℚ) ≤ Max.max 0 (Min.min 300000 I - 0) := le_max_left _ _
  nlinarith [h1, h2, h3]

theorem superSenior_le_senior (I : ℚ) :
    slabTaxQ I 0 oldSuperSeniorSlabs ≤ slabTaxQ I 0 oldSeniorSlabs := by
  simp only [slabTaxQ, oldSuperSeniorSlabs, oldSeniorSlabs]
  have h1 : (0 : ℚ) ≤ Max.max 0 (Min.min 500000 I - 300000) := le_max_left _ _
  nlinarith [h1]

theorem selectSlabs_old (a : ℚ) :
    selectSlabs rule_2024_25 (fin a) "Old" = some (oldBand a) := by
  unfold oldBand
  by_cases h80 : 80 ≤ a
  · simp [selectSlabs, rule_2024_25, h80]
  · by_cases h60 : 60 ≤ a
    · simp [selectSlabs, rule_2024_25, h80, h60]
    · simp [selectSlabs, rule_2024_25, h80, h60]

theorem oldBand_mem (a : ℚ) : oldBand a ∈ slabLists rule_2024_25 := by
  unfold oldBand
  split_ifs <;> simp [slabLists, rule_2024_25]

theorem oldBand_tax_le {a b : ℚ} (hab : a ≤ b) (I : ℚ) :
    slabTaxQ I 0 (oldBand b) ≤ slabTaxQ I 0 (oldBand a) := by
  have h1 := senior_le_general I
  have h2 := superSenior_le_senior I
  by_cases ha80 : 80 ≤ a
  · have hb80 : 80 ≤ b := le_trans ha80 hab
    simp only [oldBand, if_pos ha80, if_pos hb80, le_refl]
  · by_cases ha60 : 60 ≤ a
    · have hb60 : 60 ≤ b := le_trans ha60 hab
      by_cases hb80 : 80 ≤ b
      · simp only [oldBand, if_neg ha80, if_pos ha60, if_pos hb80]
        exact h2
      · simp only [oldBand, if_neg ha80, if_pos ha60, if_neg hb80, if_pos hb60, le_refl]
    · by_cases hb80 : 80 ≤ b
      · simp only [oldBand, if_neg ha80, if_neg ha60, if_pos hb80]
        exact le_trans h2 h1
      · by_cases hb60 : 60 ≤ b
        · simp only [oldBand, if_neg ha80, if_neg ha60, if_neg hb80, if_pos hb60]
          exact h1
        · simp only [oldBand, if_neg ha80, if_neg ha60, if_neg hb80, if_neg hb60, le_refl]

theorem oldBand_total_le {a b : ℚ} (hab : a ≤ b) {income : JSNum} (hI : income ≠ nan) :
    (finishTax rule_2024_25 income (oldBand b)).totalTax.le
      (finishTax rule_2024_25 income (oldBand a)).totalTax = true := by
  have hk : taxRules "2024-25" = some rule_2024_25 := by simp [taxRules]
  cases income with
  | nan => exact absurd rfl hI
  | negInf =>
    rw [finishTax_negInf hk (oldBand_mem a), finishTax_negInf hk (oldBand_mem b)]
    simp
  | posInf =>
    rw [finishTax_posInf hk (oldBand_mem a), finishTax_posInf hk (oldBand_mem b)]
    rfl
  | fin I =>
    have hle := oldBand_tax_le hab I
    rw [finishTax_fin ruleOK_old (oldBand_mem a), finishTax_fin ruleOK_old (oldBand_mem b)]
    by_cases hI : I ≤ 500000
    · simp [hI]
    · simp only [hI, if_false, le_fin_fin, decide_eq_true_eq]
      linarith

/-- C30: for every assessment year that has an Old-regime entry in the rule table,
every income other than `NaN` and all ages `a1 <= a2 <= a3`, `computeTax` returns a
result at each age and the total tax is non-increasing in the age:
`totalTax(a3) <= totalTax(a2) <= totalTax(a1)`; this covers `a1 < 60 <= a2 < 80 <= a3`. -/
theorem C30_total_nonincreasing_in_age (income : JSNum) (hI : income ≠ nan)
    (a1 a2 a3 : ℚ) (h12 : a1 ≤ a2) (h23 : a2 ≤ a3) (ay : String) (rule : Rule)
    (h : taxRules ay = some rule) (hreg : rule.regime = "Old") :
    ∃ r1 r2 r3, computeTax income (fin a1) ay "Old" = Except.ok r1 ∧
      computeTax income (fin a2) ay "Old" = Except.ok r2 ∧
      computeTax income (fin a3) ay "Old" = Except.ok r3 ∧
      r3.totalTax.le r2.totalTax = true ∧ r2.totalTax.le r1.totalTax = true := by
  have hrule := old_entries h hreg
  subst hrule
  have hk : taxRules (ruleKey ay "Old") = some rule_2024_25 := by rw [ruleKey_old]; exact h
  exact ⟨_, _, _, computeTax_of_select hk (selectSlabs_old a1) income,
    computeTax_of_select hk (selectSlabs_old a2) income,
    computeTax_of_select hk (selectSlabs_old a3) income,
    oldBand_total_le h23 hI, oldBand_total_le h12 hI⟩

/-- Instance of C30 at income 600000, ages 45, 65 and 85 and the entry "2024-25". -/
theorem C30_total_nonincreasing_in_age_witness :
    fin 600000 ≠ nan ∧ (45 : ℚ) ≤ 65 ∧ (65 : ℚ) ≤ 85 ∧
    taxRules "2024-25" = some rule_2024_25 ∧ rule_2024_25.regime = "Old" ∧
    ∃ r1 r2 r3, computeTax (fin 600000) (fin 45) "2024-25" "Old" = Except.ok r1 ∧
      computeTax (fin 600000) (fin 65) "2024-25" "Old" = Except.ok r2 ∧
      computeTax (fin 600000) (fin 85) "2024-25" "Old" = Except.ok r3 ∧
      r3.totalTax.le r2.totalTax = true ∧ r2.totalTax.le r1.totalTax = true :=
  ⟨by simp, by norm_num, by norm_num, by simp [taxRules], rfl,
   C30_total_nonincreasing_in_age (fin 600000) (by simp) 45 65 85 (by norm_num) (by norm_num)
     "2024-25" rule_2024_25 (by simp [taxRules]) rfl⟩

/-! ## Two hosts with the same conversions -/

theorem toNumber_congr {h1 h2 : Host} (hs : SameConversions h1 h2) (v : JSVal) :
    toNumber h1 v = toNumber h2 v := by
  cases v <;> simp [toNumber, hs.strToNum, hs.objToPrim]

theorem toStringJS_congr {h1 h2 : Host} (hs : SameConversions h1 h2) (v : JSVal) :
    toStringJS h1 v = toStringJS h2 v := by
  cases v <;> simp [toStringJS, hs.numToStr, hs.objToPrim]

theorem toPrimitive_congr {h1 h2 : Host} (hs : SameConversions h1 h2) (v : JSVal) :
    toPrimitive h1 v = toPrimitive h2 v := by
  cases v <;> simp [toPrimitive, hs.objToPrim]

theorem addPrim_congr {h1 h2 : Host} (hs : SameConversions h1 h2) (a b : JSVal) :
    addPrim h1 a b = addPrim h2 a b := by
  cases a <;> cases b <;>
    simp only [addPrim, toStringJS_congr hs, toNumber_congr hs]

theorem add_congr {h1 h2 : Host} (hs : SameConversions h1 h2) (a b : JSVal) :
    JSVal.add h1 a b = JSVal.add h2 a b := by
  simp only [JSVal.add, toPrimitive_congr hs, addPrim_congr hs]

theorem sub_congr {h1 h2 : Host} (hs : SameConversions h1 h2) (a b : JSVal) :
    JSVal.sub h1 a b = JSVal.sub h2 a b := by
  simp only [JSVal.sub, toNumber_congr hs]

theorem reduceSum_congr {h1 h2 : Host} (hs : SameConversions h1 h2) (key : String) :
    ∀ (items : List JSVal) (sum : JSVal),
      reduceSum h1 key items sum = reduceSum h2 key items sum := by
  intro items
  induction items with
  | nil => intro sum; rfl
  | cons item rest ih =>
    intro sum
    simp only [reduceSum, add_congr hs, ih]

theorem sumField_congr {h1 h2 : Host} (hs : SameConversions h1 h2) (field : JSVal)
    (key : String) : sumField h1 field key = sumField h2 field key := by
  cases field <;> simp only [sumField, reduceSum_congr hs]

theorem taxPaidOf_congr {h1 h2 : Host} (hs : SameConversions h1 h2) (doc : JSVal) :
    taxPaidOf h1 doc = taxPaidOf h2 doc := by
  simp only [taxPaidOf, sumField_congr hs, add_congr hs]

theorem finalSettlementOf_congr {h1 h2 : Host} (hs : SameConversions h1 h2)
    (totalTax : JSNum) (taxPaid : TaxPaid) :
    finalSettlementOf h1 totalTax taxPaid = finalSettlementOf h2 totalTax taxPaid := by
  simp only [finalSettlementOf, sub_congr hs]

theorem callComputeTax_congr {h1 h2 : Host} (hs : SameConversions h1 h2)
    (income age : JSNum) (ay : JSVal) (regime : String) :
    callComputeTax h1 income age ay regime = callComputeTax h2 income age ay regime := by
  simp only [callComputeTax, toStringJS_congr hs]

theorem newDate_congr {h1 h2 : Host} (hs : SameConversions h1 h2) (v : JSVal) :
    newDate h1 v = newDate h2 v := by
  cases v <;> simp [newDate, hs.parseDate, hs.dateOfNumber, hs.objToPrim]

theorem calculateAge_congr {h1 h2 : Host} (hs : SameConversions h1 h2)
    (htoday : h1.today = h2.today) (v : JSVal) :
    calculateAge h1 v = calculateAge h2 v := by
  simp only [calculateAge, newDate_congr hs, htoday]

/-! ## The example document at a later date -/

theorem computeTax_750000_senior :
    computeTax (fin 750000) (fin 60) "2024-25" "Old" =
      Except.ok ⟨fin 60000, fin 2400, fin 62400, fin 0⟩ := by
  have hk : taxRules (ruleKey "2024-25" "Old") = some rule_2024_25 := by
    simp [ruleKey, taxRules]
  have hs : selectSlabs rule_2024_25 (fin 60) "Old" = some oldSeniorSlabs := by
    norm_num [selectSlabs, rule_2024_25, JSNum.ge, JSNum.le]
  rw [computeTax_of_select hk hs, finishTax_fin ruleOK_old (by simp [slabLists, rule_2024_25])]
  norm_num [slabTaxQ, oldSeniorSlabs]

theorem parseBody_later :
    parseBody laterHost exampleDoc = Except.ok laterSummary := by
  have hage : calculateAge laterHost (dobOf exampleDoc) = Except.ok (fin 60) := by
    simp [calculateAge, dobOf, exampleDoc, JSVal.get, List.lookup, JSVal.or, JSVal.truthy,
      newDate, laterHost, exampleHost, ageOf, ageFromParts]
  have hnet : JSVal.sub laterHost (incomeDetailsOf exampleDoc).grossTotalIncome
      (deductionsOf exampleDoc).totalDeductions = Except.ok (fin 750000) := by
    simp [incomeDetailsOf, deductionsOf, exampleDoc, JSVal.get, List.lookup, JSVal.or,
      JSVal.truthy, JSNum.truthy, JSVal.sub, toNumber]
    norm_num
  have hay : assessmentYearOf exampleDoc = str "2024-25" := by
    simp [assessmentYearOf, exampleDoc, JSVal.get, List.lookup, JSVal.or, JSVal.truthy]
  have hreg : regimeOf exampleDoc = "Old" := by
    simp [regimeOf, exampleDoc, JSVal.get, List.lookup, JSVal.strictEqStr]
  have htax : callComputeTax laterHost (fin 750000) (fin 60) (str "2024-25") "Old" =
      Except.ok ⟨fin 60000, fin 2400, fin 62400, fin 0⟩ := by
    simp only [callComputeTax, toStringJS, computeTax_750000_senior]
  have hpaid : taxPaidOf laterHost exampleDoc =
      Except.ok ⟨num (fin 50000), num (fin 0), num (fin 5000), num (fin 0), num (fin 55000)⟩ := by
    simp [taxPaidOf, sumField, reduceSum, exampleDoc, JSVal.get, List.lookup, JSVal.or,
      JSVal.truthy, JSNum.truthy, JSVal.add, toPrimitive, addPrim, toNumber]
    norm_num
  have hset : finalSettlementOf laterHost (fin 62400)
      ⟨num (fin 50000), num (fin 0), num (fin 5000), num (fin 0), num (fin 55000)⟩ =
      Except.ok ⟨fin 62400, num (fin 55000), fin 0, fin 7400⟩ := by
    simp [finalSettlementOf, JSVal.sub, toNumber]
    norm_num
  simp only [parseBody, hage, hnet, hay, hreg, htax, hpaid, hset, clientDataOf]
  simp [laterSummary, exampleSummary, incomeDetailsOf, deductionsOf, exampleDoc,
    JSVal.get, List.lookup, JSVal.or, JSVal.truthy, JSNum.truthy, laterHost, exampleHost]

/-- C22 (the claim fails): the example document, normalised on 6 November 2026 and
again on 15 June 2050, gives two summaries that differ in more than the timestamp: the
age is 36 in the first and 60 in the second, so the second is taxed with the senior
slabs, and the total tax liability (65000 against 62400) and the tax payable (10000
against 7400) differ as well. -/
theorem C22_later_run_differs :
    parseITRJson exampleHost exampleDoc = some exampleSummary ∧
    parseITRJson laterHost exampleDoc = some laterSummary ∧
    exampleSummary.age = fin 36 ∧ laterSummary.age = fin 60 ∧
    exampleSummary.taxComputation.totalTaxLiability = fin 65000 ∧
    laterSummary.taxComputation.totalTaxLiability = fin 62400 ∧
    exampleSummary.finalSettlement.taxPayable = fin 10000 ∧
    laterSummary.finalSettlement.taxPayable = fin 7400 ∧
    blankStamp exampleSummary ≠ blankStamp laterSummary := by
  refine ⟨by simp only [parseITRJson, parseBody_exampleDoc],
    by simp only [parseITRJson, parseBody_later], rfl, rfl, rfl, rfl, rfl, rfl, ?_⟩
  intro h
  have h2 : (blankStamp exampleSummary).age = (blankStamp laterSummary).age := by rw [h]
  simp [blankStamp, exampleSummary, laterSummary] at h2

/-! ## The copy of `parseITRJson` in `app.jsx` on two documents -/

theorem appParseBody_empty :
    App.parseBody exampleHost (obj []) = Except.error JSError.typeError := by
  have hage : calculateAge exampleHost (dobOf (obj [])) = Except.ok (fin 30) := by
    simp [calculateAge, dobOf, JSVal.get, List.lookup, JSVal.or, JSVal.truthy]
  have hnet : JSVal.sub exampleHost (incomeDetailsOf (obj [])).grossTotalIncome
      (deductionsOf (obj [])).totalDeductions = Except.ok (fin 0) := by
    simp [incomeDetailsOf, deductionsOf, JSVal.get, List.lookup, JSVal.or, JSVal.truthy,
      JSVal.sub, toNumber]
  have hay : App.assessmentYearOf (obj []) = str "N/A" := by
    simp [App.assessmentYearOf, JSVal.get, List.lookup, JSVal.or, JSVal.truthy]
  have hreg : regimeOf (obj []) = "Old" := by
    simp [regimeOf, JSVal.get, List.lookup, JSVal.strictEqStr]
  have hr : readRule (ruleKey "N/A" "Old") = none := by
    simp [ruleKey, readRule, taxRules, inheritedKeys]
  have htax : App.callComputeTax exampleHost (fin 0) (fin 30) (str "N/A") "Old" =
      Except.error JSError.typeError := by
    simp only [App.callComputeTax, toStringJS, App.computeTax,
      appComputeTaxWith_missing readRule (fin 0) (fin 30) "N/A" "Old" hr]
  simp only [App.parseBody, hage, hnet, hay, hreg, htax]

theorem appParseBody_exampleDoc :
    ∃ s, App.parseBody exampleHost exampleDoc = Except.ok s ∧
      s.filingStatus = str "N/A" ∧ s.taxPaid.totalTaxPaid = num (fin 1) ∧
      s.taxPaid.tdsOthers = num (fin 0) ∧
      s.finalSettlement.taxPayable = fin 64999 := by
  have hage : calculateAge exampleHost (dobOf exampleDoc) = Except.ok (fin 36) := by
    simp [calculateAge, dobOf, exampleDoc, JSVal.get, List.lookup, JSVal.or, JSVal.truthy,
      newDate, exampleHost, ageOf, ageFromParts]
  have hnet : JSVal.sub exampleHost (incomeDetailsOf exampleDoc).grossTotalIncome
      (deductionsOf exampleDoc).totalDeductions = Except.ok (fin 750000) := by
    simp [incomeDetailsOf, deductionsOf, exampleDoc, JSVal.get, List.lookup, JSVal.or,
      JSVal.truthy, JSNum.truthy, JSVal.sub, toNumber]
    norm_num
  have hay : App.assessmentYearOf exampleDoc = str "2024-25" := by
    simp [App.assessmentYearOf, exampleDoc, JSVal.get, List.lookup, JSVal.or, JSVal.truthy]
  have hreg : regimeOf exampleDoc = "Old" := by
    simp [regimeOf, exampleDoc, JSVal.get, List.lookup, JSVal.strictEqStr]
  have htax : App.callComputeTax exampleHost (fin 750000) (fin 36) (str "2024-25") "Old" =
      Except.ok ⟨fin 62500, fin 2500, fin 65000, fin 0⟩ := by
    simp only [App.callComputeTax, toStringJS, appComputeTax_eq, computeTax_750000]
  have hpaid : (App.taxPaidOf exampleDoc).totalTaxPaid = num (fin 1) := by
    simp [App.taxPaidOf, exampleDoc, JSVal.get, List.lookup, JSVal.or, JSVal.truthy,
      JSNum.truthy]
  have hset : finalSettlementOf exampleHost (fin 65000) (App.taxPaidOf exampleDoc) =
      Except.ok ⟨fin 65000, num (fin 1), fin 0, fin 64999⟩ := by
    simp [finalSettlementOf, hpaid, JSVal.sub, toNumber]
    norm_num
  have hbody : App.parseBody exampleHost exampleDoc =
      Except.ok (App.clientDataOf exampleHost exampleDoc (fin 36) (fin 750000)
        ⟨fin 62500, fin 2500, fin 65000, fin 0⟩
        ⟨fin 65000, num (fin 1), fin 0, fin 64999⟩) := by
    simp only [App.parseBody, hage, hnet, hay, hreg, htax, hset]
  refine ⟨_, hbody, ?_⟩
  simp [App.clientDataOf, App.taxPaidOf, exampleDoc, JSVal.get, List.lookup, JSVal.or,
    JSVal.truthy, JSNum.truthy]

/-- C28 (the code departs from the claim): on the empty document `{}` the `parseITR`
of `app.jsx` returns null (its default assessment year "N/A" has no rule) while
`parseITRJson` returns the summary of default values; on the example document both
return a summary, but `parseITR` reports filing status "N/A", total tax paid 1 (the
`TotalTaxPaid` of the document) and tax payable 64999, where `parseITRJson` reports
"Filed", 55000 (the sum of the entries) and 10000. -/
theorem C28_copies_differ :
    App.parseITR exampleHost (obj []) = none ∧
    parseITRJson exampleHost (obj []) = some (defaultSummary exampleHost) ∧
    (∃ s, App.parseITR exampleHost exampleDoc = some s ∧
      s.filingStatus = str "N/A" ∧ s.taxPaid.totalTaxPaid = num (fin 1) ∧
      s.taxPaid.tdsOthers = num (fin 0) ∧
      s.finalSettlement.taxPayable = fin 64999) ∧
    parseITRJson exampleHost exampleDoc = some exampleSummary ∧
    exampleSummary.filingStatus = str "Filed" ∧
    exampleSummary.taxPaid.totalTaxPaid = num (fin 55000) ∧
    exampleSummary.finalSettlement.taxPayable = fin 10000 := by
  refine ⟨by simp only [App.parseITR, appParseBody_empty],
    parseITRJson_of_no_fields exampleHost (obj []) (fun _ => rfl), ?_,
    by simp only [parseITRJson, parseBody_exampleDoc], rfl, rfl, rfl⟩
  obtain ⟨s, hs, h⟩ := appParseBody_exampleDoc
  exact ⟨s, by simp only [App.parseITR, hs], h⟩

/-! ## Values that are converted without a call to the host's object conversion -/

theorem isPrimitive_toNumber (host : Host) {v : JSVal} (h : isPrimitive v) :
    ∃ n, toNumber host v = Except.ok n := by
  cases v <;> first | exact absurd h id | exact ⟨_, rfl⟩

theorem isPrimitive_toStringJS (host : Host) {v : JSVal} (h : isPrimitive v) :
    ∃ s, toStringJS host v = Except.ok s := by
  cases v <;> first | exact absurd h id | exact ⟨_, rfl⟩

theorem isPrimitive_or {a b : JSVal} (ha : isPrimitive a) (hb : isPrimitive b) :
    isPrimitive (a.or b) := by
  unfold JSVal.or
  split
  · exact ha
  · exact hb

theorem isPrimitive_num (n : JSNum) : isPrimitive (num n) := True.intro

theorem isPrimitive_str (s : String) : isPrimitive (str s) := True.intro

theorem addPrim_primitive {host : Host} {pa pb v : JSVal}
    (h : addPrim host pa pb = Except.ok v) : isPrimitive v := by
  unfold addPrim at h
  split at h
  · split at h
    · exact absurd h (by simp)
    · rw [← Except.ok.inj h]; exact True.intro
  · split at h
    · exact absurd h (by simp)
    · rw [← Except.ok.inj h]; exact True.intro
  · split at h
    · exact absurd h (by simp)
    · split at h
      · exact absurd h (by simp)
      · rw [← Except.ok.inj h]; exact True.intro

theorem add_primitive {host : Host} {a b v : JSVal}
    (h : JSVal.add host a b = Except.ok v) : isPrimitive v := by
  unfold JSVal.add at h
  split at h
  · exact absurd h (by simp)
  · split at h
    · exact absurd h (by simp)
    · exact addPrim_primitive h

theorem add_of_primitive (host : Host) {a b : JSVal} (ha : isPrimitive a)
    (hb : isPrimitive b) : ∃ v, JSVal.add host a b = Except.ok v ∧ isPrimitive v := by
  cases a <;> cases b <;>
    first
    | exact absurd ha id
    | exact absurd hb id
    | exact ⟨_, rfl, True.intro⟩

theorem sub_of_primitive (host : Host) {a b : JSVal} (ha : isPrimitive a)
    (hb : isPrimitive b) : ∃ n, JSVal.sub host a b = Except.ok n := by
  obtain ⟨x, hx⟩ := isPrimitive_toNumber host ha
  obtain ⟨y, hy⟩ := isPrimitive_toNumber host hb
  exact ⟨x.sub y, by simp only [JSVal.sub, hx, hy]⟩

theorem calculateAge_of_primitive (host : Host) {v : JSVal} (h : isPrimitive v) :
    ∃ age, calculateAge host v = Except.ok age := by
  unfold calculateAge
  split
  · cases v <;> first | exact absurd h id | exact ⟨_, rfl⟩
  · exact ⟨_, rfl⟩

theorem reduceSum_of_primitive (host : Host) (key : String) :
    ∀ (items : List JSVal) (sum : JSVal), (∀ item ∈ items, isPrimitive (item.get key)) →
      isPrimitive sum → ∃ v, reduceSum host key items sum = Except.ok v ∧ isPrimitive v := by
  intro items
  induction items with
  | nil => intro sum _ hsum; exact ⟨sum, rfl, hsum⟩
  | cons item rest ih =>
    intro sum hitems hsum
    obtain ⟨next, hnext, hprim⟩ := add_of_primitive host hsum
      (isPrimitive_or (hitems item (List.mem_cons_self _ _)) (isPrimitive_num (fin 0)))
    obtain ⟨v, hv, hvp⟩ := ih next (fun i hi => hitems i (List.mem_cons_of_mem _ hi)) hprim
    exact ⟨v, by simp only [reduceSum, hnext, hv], hvp⟩

theorem not_reshaped {v : JSVal} (h : ¬ isReshapedList v) :
    isAbsent v ∨ ∃ items, v = arr items := by
  by_cases habs : isAbsent v
  · exact Or.inl habs
  · right
    by_contra hno
    exact h ⟨habs, fun items hv => hno ⟨items, hv⟩⟩

theorem sumField_of_primitive (host : Host) (key : String) {field : JSVal}
    (hshape : ¬ isReshapedList field)
    (hitems : ∀ items, field = arr items → ∀ item ∈ items, isPrimitive (item.get key)) :
    ∃ v, sumField host field key = Except.ok v ∧ isPrimitive v := by
  rcases not_reshaped hshape with h | ⟨items, h⟩
  · rcases h with h | h <;> subst h <;> exact ⟨_, rfl, True.intro⟩
  · subst h
    obtain ⟨v, hv, hvp⟩ := reduceSum_of_primitive host key items (num (fin 0))
      (hitems items rfl) (isPrimitive_num (fin 0))
    exact ⟨v.or (num (fin 0)), by simp only [sumField, hv],
      isPrimitive_or hvp (isPrimitive_num (fin 0))⟩

theorem taxPaidOf_total_primitive {host : Host} {doc : JSVal} {taxPaid : TaxPaid}
    (h : taxPaidOf host doc = Except.ok taxPaid) : isPrimitive taxPaid.totalTaxPaid := by
  simp only [taxPaidOf] at h
  split at h
  · exact absurd h (by simp)
  split at h
  · exact absurd h (by simp)
  split at h
  · exact absurd h (by simp)
  split at h
  · exact absurd h (by simp)
  split at h
  · exact absurd h (by simp)
  split at h
  · exact absurd h (by simp)
  split at h
  · exact absurd h (by simp)
  rename_i total htotal
  rw [← Except.ok.inj h]
  exact add_primitive htotal

theorem finalSettlementOf_of_primitive (host : Host) (totalTax : JSNum) {taxPaid : TaxPaid}
    (h : isPrimitive taxPaid.totalTaxPaid) :
    ∃ settlement, finalSettlementOf host totalTax taxPaid = Except.ok settlement := by
  obtain ⟨p, hp⟩ := isPrimitive_toNumber host h
  exact ⟨⟨totalTax, taxPaid.totalTaxPaid, JSNum.max (fin 0) (p.sub totalTax),
    JSNum.max (fin 0) (totalTax.sub p)⟩,
    by simp only [finalSettlementOf, JSVal.sub, hp, toNumber_num]⟩

theorem computeTax_of_rule (income age : JSNum) {ay regime : String} {rule : Rule}
    (h : readRule (ruleKey ay regime) = some rule) :
    ∃ result, computeTax income age ay regime = Except.ok result := by
  unfold computeTax computeTaxWith
  simp only [h]
  cases selectSlabs rule age regime <;> exact ⟨_, rfl⟩

/-! ## When `parseITRJson` returns a summary -/

theorem parseITRJson_some_iff (host : Host) (doc : JSVal) :
    (∃ s, parseITRJson host doc = some s) ↔
      ((∃ age, calculateAge host (dobOf doc) = Except.ok age) ∧
       (∃ net, JSVal.sub host (incomeDetailsOf doc).grossTotalIncome
          (deductionsOf doc).totalDeductions = Except.ok net) ∧
       (∃ ay rule, toStringJS host (assessmentYearOf doc) = Except.ok ay ∧
          readRule (ruleKey ay (regimeOf doc)) = some rule) ∧
       (∃ taxPaid, taxPaidOf host doc = Except.ok taxPaid)) := by
  constructor
  · rintro ⟨s, hs⟩
    obtain ⟨age, net, result, taxPaid, settlement, hage, hnet, hres, hpaid, -, -⟩ :=
      parseBody_ok (parseITRJson_eq_some hs)
    obtain ⟨ay, hay, hc⟩ := callComputeTax_ok hres
    refine ⟨⟨age, hage⟩, ⟨net, hnet⟩, ?_, ⟨taxPaid, hpaid⟩⟩
    cases hr : readRule (ruleKey ay (regimeOf doc)) with
    | none =>
      rw [computeTax, computeTaxWith_missing readRule _ _ _ _ hr] at hc
      exact absurd hc (by simp)
    | some rule => exact ⟨ay, rule, hay, hr⟩
  · rintro ⟨⟨age, hage⟩, ⟨net, hnet⟩, ⟨ay, rule, hay, hr⟩, ⟨taxPaid, hpaid⟩⟩
    obtain ⟨result, hres⟩ := computeTax_of_rule net age hr
    obtain ⟨settlement, hset⟩ := finalSettlementOf_of_primitive host result.totalTax
      (taxPaidOf_total_primitive hpaid)
    have hcall : callComputeTax host net age (assessmentYearOf doc) (regimeOf doc) =
        Except.ok result := by
      simp only [callComputeTax, hay, hres]
    exact ⟨clientDataOf host doc age net result taxPaid settlement,
      by simp only [parseITRJson, parseBody, hage, hnet, hcall, hpaid, hset]⟩

theorem calculateAge_ok_iff (host : Host) (v : JSVal) :
    (∃ age, calculateAge host v = Except.ok age) ↔
      (v.truthy = true → ∃ dob, newDate host v = Except.ok dob) := by
  unfold calculateAge
  by_cases ht : v.truthy = true
  · simp only [ht, if_true, true_implies]
    cases newDate host v with
    | error e => simp
    | ok dob => simp
  · simp [ht]

theorem parseITRJson_isSome_congr {h1 h2 : Host} (hs : SameConversions h1 h2)
    (doc : JSVal) : (parseITRJson h1 doc).isSome = (parseITRJson h2 doc).isSome := by
  have key : (∃ s, parseITRJson h1 doc = some s) ↔ (∃ s, parseITRJson h2 doc = some s) := by
    simp only [parseITRJson_some_iff, calculateAge_ok_iff, newDate_congr hs, sub_congr hs,
      toStringJS_congr hs, taxPaidOf_congr hs]
  cases hp1 : parseITRJson h1 doc with
  | none =>
    cases hp2 : parseITRJson h2 doc with
    | none => rfl
    | some s2 =>
      obtain ⟨s1, hs1⟩ := key.mpr ⟨s2, hp2⟩
      rw [hp1] at hs1
      exact absurd hs1 (by simp)
  | some s1 =>
    obtain ⟨s2, hs2⟩ := key.mp ⟨s1, hp1⟩
    rw [hs2]
    rfl

theorem parseITRJson_same_day {h1 h2 : Host} (hs : SameConversions h1 h2)
    (htoday : h1.today = h2.today) (doc : JSVal) :
    (parseITRJson h1 doc).map blankStamp = (parseITRJson h2 doc).map blankStamp := by
  simp only [parseITRJson, parseBody, calculateAge_congr hs htoday, sub_congr hs,
    callComputeTax_congr hs, taxPaidOf_congr hs, finalSettlementOf_congr hs]
  cases calculateAge h2 (dobOf doc) with
  | error e => rfl
  | ok age =>
    dsimp only
    cases JSVal.sub h2 (incomeDetailsOf doc).grossTotalIncome
        (deductionsOf doc).totalDeductions with
    | error e => rfl
    | ok net =>
      dsimp only
      cases callComputeTax h2 net age (assessmentYearOf doc) (regimeOf doc) with
      | error e => rfl
      | ok result =>
        dsimp only
        cases taxPaidOf h2 doc with
        | error e => rfl
        | ok taxPaid =>
          dsimp only
          cases finalSettlementOf h2 result.totalTax taxPaid with
          | error e => rfl
          | ok settlement => rfl

theorem parseITRJson_fields_congr {h1 h2 : Host} (hs : SameConversions h1 h2)
    {doc : JSVal} {s1 s2 : ClientData} (hp1 : parseITRJson h1 doc = some s1)
    (hp2 : parseITRJson h2 doc = some s2) :
    s1.name = s2.name ∧ s1.pan = s2.pan ∧ s1.assessmentYear = s2.assessmentYear ∧
    s1.filingStatus = s2.filingStatus ∧ s1.taxRegime = s2.taxRegime ∧
    s1.incomeDetails = s2.incomeDetails ∧ s1.deductions = s2.deductions ∧
    s1.netTaxableIncome = s2.netTaxableIncome ∧ s1.taxPaid = s2.taxPaid ∧
    s1.finalSettlement.taxPaid = s2.finalSettlement.taxPaid ∧ s1.notes = s2.notes := by
  obtain ⟨age1, net1, r1, tp1, fs1, -, hnet1, -, hpaid1, hset1, hs1⟩ :=
    parseBody_ok (parseITRJson_eq_some hp1)
  obtain ⟨age2, net2, r2, tp2, fs2, -, hnet2, -, hpaid2, hset2, hs2⟩ :=
    parseBody_ok (parseITRJson_eq_some hp2)
  rw [sub_congr hs, hnet2] at hnet1
  rw [taxPaidOf_congr hs, hpaid2] at hpaid1
  have hnet : net2 = net1 := Except.ok.inj hnet1
  have hpaid : tp2 = tp1 := Except.ok.inj hpaid1
  obtain ⟨p1, -, hf1⟩ := finalSettlementOf_ok hset1
  obtain ⟨p2, -, hf2⟩ := finalSettlementOf_ok hset2
  subst hs1 hs2 hnet hpaid hf1 hf2
  exact ⟨rfl, rfl, rfl, rfl, rfl, rfl, rfl, rfl, rfl, rfl, rfl⟩

theorem sameConversions_later : SameConversions exampleHost laterHost :=
  ⟨rfl, rfl, rfl, rfl, rfl⟩

/-- C22 (amended): two runs of `parseITRJson` on the same document, on hosts that
differ at most in their clock, either both return null or both return a summary, and
the two summaries agree on name, PAN, assessment year, filing status, tax regime,
income details, deductions, net taxable income, the tax-paid section (and so the
paid total copied into the final settlement) and notes; when the two runs fall on the
same calendar day the summaries are identical in every field except `uploadedAt`. -/
theorem C22_runs_agree_off_clock (h1 h2 : Host) (doc : JSVal)
    (hs : SameConversions h1 h2) :
    (parseITRJson h1 doc).isSome = (parseITRJson h2 doc).isSome ∧
    (∀ s1 s2, parseITRJson h1 doc = some s1 → parseITRJson h2 doc = some s2 →
      s1.name = s2.name ∧ s1.pan = s2.pan ∧ s1.assessmentYear = s2.assessmentYear ∧
      s1.filingStatus = s2.filingStatus ∧ s1.taxRegime = s2.taxRegime ∧
      s1.incomeDetails = s2.incomeDetails ∧ s1.deductions = s2.deductions ∧
      s1.netTaxableIncome = s2.netTaxableIncome ∧ s1.taxPaid = s2.taxPaid ∧
      s1.finalSettlement.taxPaid = s2.finalSettlement.taxPaid ∧ s1.notes = s2.notes) ∧
    (h1.today = h2.today →
      (parseITRJson h1 doc).map blankStamp = (parseITRJson h2 doc).map blankStamp) :=
  ⟨parseITRJson_isSome_congr hs doc,
    fun _ _ hp1 hp2 => parseITRJson_fields_congr hs hp1 hp2,
    fun htoday => parseITRJson_same_day hs htoday doc⟩

/-- Instance of C22 (amended) at the example document, normalised on 6 November 2026
and on 15 June 2050. -/
theorem C22_runs_agree_off_clock_witness :
    SameConversions exampleHost laterHost ∧
    (parseITRJson exampleHost exampleDoc).isSome =
      (parseITRJson laterHost exampleDoc).isSome ∧
    (∀ s1 s2, parseITRJson exampleHost exampleDoc = some s1 →
      parseITRJson laterHost exampleDoc = some s2 →
      s1.name = s2.name ∧ s1.pan = s2.pan ∧ s1.assessmentYear = s2.assessmentYear ∧
      s1.filingStatus = s2.filingStatus ∧ s1.taxRegime = s2.taxRegime ∧
      s1.incomeDetails = s2.incomeDetails ∧ s1.deductions = s2.deductions ∧
      s1.netTaxableIncome = s2.netTaxableIncome ∧ s1.taxPaid = s2.taxPaid ∧
      s1.finalSettlement.taxPaid = s2.finalSettlement.taxPaid ∧ s1.notes = s2.notes) ∧
    (exampleHost.today = laterHost.today →
      (parseITRJson exampleHost exampleDoc).map blankStamp =
        (parseITRJson laterHost exampleDoc).map blankStamp) :=
  ⟨sameConversions_later,
    C22_runs_agree_off_clock exampleHost laterHost exampleDoc sameConversions_later⟩

/-! ## When `parseITRJson` returns null -/

theorem taxPaidOf_of_primitive (host : Host) {doc : JSVal} (hprim : PrimitiveLeaves doc)
    (h1 : ¬ isReshapedList ((doc.get "TaxPaid").get "TDSonSalaries"))
    (h2 : ¬ isReshapedList ((doc.get "TaxPaid").get "TDSonOthThanSals"))
    (h3 : ¬ isReshapedList ((doc.get "TaxPaid").get "AdvanceTax"))
    (h4 : ¬ isReshapedList ((doc.get "TaxPaid").get "SelfAssessmentTax")) :
    ∃ taxPaid, taxPaidOf host doc = Except.ok taxPaid := by
  obtain ⟨a, ha, hap⟩ := sumField_of_primitive host "TotalTDSSalary" h1 hprim.tdsSalary
  obtain ⟨b, hb, hbp⟩ := sumField_of_primitive host "TotalTDSonOthThanSals" h2 hprim.tdsOthers
  obtain ⟨c, hc, hcp⟩ := sumField_of_primitive host "Amt" h3 hprim.advanceTax
  obtain ⟨d, hd, hdp⟩ := sumField_of_primitive host "Amt" h4 hprim.selfAssessmentTax
  obtain ⟨s1, hs1, hs1p⟩ := add_of_primitive host hap hbp
  obtain ⟨s2, hs2, hs2p⟩ := add_of_primitive host hs1p hcp
  obtain ⟨total, htotal, -⟩ := add_of_primitive host hs2p hdp
  exact ⟨⟨a, b, c, d, total⟩, by simp only [taxPaidOf, ha, hb, hc, hd, hs1, hs2, htotal]⟩

theorem parseITRJson_none_iff (host : Host) (doc : JSVal) (hprim : PrimitiveLeaves doc)
    (ay : String) (hay : toStringJS host (assessmentYearOf doc) = Except.ok ay) :
    parseITRJson host doc = none ↔
      (readRule (ruleKey ay (regimeOf doc)) = none ∨
       isReshapedList ((doc.get "TaxPaid").get "TDSonSalaries") ∨
       isReshapedList ((doc.get "TaxPaid").get "TDSonOthThanSals") ∨
       isReshapedList ((doc.get "TaxPaid").get "AdvanceTax") ∨
       isReshapedList ((doc.get "TaxPaid").get "SelfAssessmentTax")) := by
  constructor
  · intro hnone
    by_contra hno
    simp only [not_or] at hno
    obtain ⟨hr, h1, h2, h3, h4⟩ := hno
    cases hrule : readRule (ruleKey ay (regimeOf doc)) with
    | none => exact hr hrule
    | some rule =>
      obtain ⟨s, hs⟩ := (parseITRJson_some_iff host doc).mpr
        ⟨calculateAge_of_primitive host (isPrimitive_or hprim.dob (isPrimitive_str "")),
          sub_of_primitive host (isPrimitive_or hprim.gross (isPrimitive_num (fin 0)))
            (isPrimitive_or hprim.deductions (isPrimitive_num (fin 0))),
          ⟨ay, rule, hay, hrule⟩, taxPaidOf_of_primitive host hprim h1 h2 h3 h4⟩
      rw [hnone] at hs
      exact absurd hs (by simp)
  · rintro (hr | hshape)
    · cases hp : parseITRJson host doc with
      | none => rfl
      | some s =>
        obtain ⟨-, -, ⟨ay2, rule, hay2, hrule⟩, -⟩ := (parseITRJson_some_iff host doc).mp ⟨s, hp⟩
        rw [hay] at hay2
        rw [← Except.ok.inj hay2, hr] at hrule
        exact absurd hrule (by simp)
    · exact parseITRJson_reshaped host doc hshape

theorem primitiveLeaves_inheritedYearDoc : PrimitiveLeaves inheritedYearDoc := by
  constructor
  · simp [inheritedYearDoc, JSVal.get, List.lookup, isPrimitive]
  · simp [inheritedYearDoc, JSVal.get, List.lookup, isPrimitive]
  · simp [inheritedYearDoc, JSVal.get, List.lookup, isPrimitive]
  · simp [inheritedYearDoc, JSVal.get, List.lookup, isPrimitive]
  · intro items h; simp [inheritedYearDoc, JSVal.get, List.lookup] at h
  · intro items h; simp [inheritedYearDoc, JSVal.get, List.lookup] at h
  · intro items h; simp [inheritedYearDoc, JSVal.get, List.lookup] at h
  · intro items h; simp [inheritedYearDoc, JSVal.get, List.lookup] at h

theorem not_reshaped_of_undefined {v : JSVal} (h : v = undefined) : ¬ isReshapedList v :=
  fun hr => hr.1 (Or.inl h)

theorem parseITRJson_unconvertibleDoc : parseITRJson strictHost unconvertibleDoc = none := by
  cases hp : parseITRJson strictHost unconvertibleDoc with
  | none => rfl
  | some s =>
    obtain ⟨-, ⟨net, hnet⟩, -, -⟩ := (parseITRJson_some_iff strictHost unconvertibleDoc).mp ⟨s, hp⟩
    simp [incomeDetailsOf, deductionsOf, unconvertibleDoc, JSVal.get, List.lookup, JSVal.or,
      JSVal.truthy, JSVal.sub, toNumber, strictHost, objectToPrimitive, Except.map] at hnet

/-- C29 (the claim fails, in both directions): the document whose assessment year is
"toString" has a rule key with no entry in the rule table, yet `parseITRJson` returns
a summary (the key finds the inherited `Object.prototype.toString` and `computeTax`
returns zeros); and the document whose gross total income is the object
`{"toString": 1}` has the rule key "2024-25" and no tax-paid field at all, yet
`parseITRJson` returns null (the subtraction raises a `TypeError`). -/
theorem C29_null_iff_fails :
    (toStringJS exampleHost (assessmentYearOf inheritedYearDoc) = Except.ok "toString" ∧
      taxRules (ruleKey "toString" (regimeOf inheritedYearDoc)) = none ∧
      (parseITRJson exampleHost inheritedYearDoc).isSome = true) ∧
    (toStringJS strictHost (assessmentYearOf unconvertibleDoc) = Except.ok "2024-25" ∧
      taxRules (ruleKey "2024-25" (regimeOf unconvertibleDoc)) = some rule_2024_25 ∧
      (unconvertibleDoc.get "TaxPaid").get "TDSonSalaries" = undefined ∧
      (unconvertibleDoc.get "TaxPaid").get "TDSonOthThanSals" = undefined ∧
      (unconvertibleDoc.get "TaxPaid").get "AdvanceTax" = undefined ∧
      (unconvertibleDoc.get "TaxPaid").get "SelfAssessmentTax" = undefined ∧
      parseITRJson strictHost unconvertibleDoc = none) := by
  have hay : toStringJS exampleHost (assessmentYearOf inheritedYearDoc) =
      Except.ok "toString" := by
    simp [assessmentYearOf, inheritedYearDoc, JSVal.get, List.lookup, JSVal.or, JSVal.truthy,
      toStringJS]
  have hreg : regimeOf inheritedYearDoc = "Old" := by
    simp [regimeOf, inheritedYearDoc, JSVal.get, List.lookup, JSVal.strictEqStr]
  have hreg2 : regimeOf unconvertibleDoc = "Old" := by
    simp [regimeOf, unconvertibleDoc, JSVal.get, List.lookup, JSVal.strictEqStr]
  refine ⟨⟨hay, by simp [hreg, ruleKey, taxRules], ?_⟩, ⟨?_, ?_, ?_, ?_, ?_, ?_,
    parseITRJson_unconvertibleDoc⟩⟩
  · cases hp : parseITRJson exampleHost inheritedYearDoc with
    | some s => rfl
    | none =>
      have h := (parseITRJson_none_iff exampleHost inheritedYearDoc
        primitiveLeaves_inheritedYearDoc "toString" hay).mp hp
      rcases h with h | h | h | h | h
      · simp [hreg, ruleKey, readRule, taxRules, inheritedKeys] at h
      · exact absurd h (not_reshaped_of_undefined
          (by simp [inheritedYearDoc, JSVal.get, List.lookup]))
      · exact absurd h (not_reshaped_of_undefined
          (by simp [inheritedYearDoc, JSVal.get, List.lookup]))
      · exact absurd h (not_reshaped_of_undefined
          (by simp [inheritedYearDoc, JSVal.get, List.lookup]))
      · exact absurd h (not_reshaped_of_undefined
          (by simp [inheritedYearDoc, JSVal.get, List.lookup]))
  · simp [assessmentYearOf, unconvertibleDoc, JSVal.get, List.lookup, JSVal.or, JSVal.truthy,
      toStringJS]
  · simp [hreg2, ruleKey, taxRules]
  · simp [unconvertibleDoc, JSVal.get, List.lookup]
  · simp [unconvertibleDoc, JSVal.get, List.lookup]
  · simp [unconvertibleDoc, JSVal.get, List.lookup]
  · simp [unconvertibleDoc, JSVal.get, List.lookup]

/-- C29 (amended): for every document in which no array or object stands where a value
is converted to a primitive (date of birth, assessment year, gross total income, total
deductions, amounts of the tax-paid entries), `parseITRJson` returns null if and only
if (a) the rule key of the document is neither an entry of the rule table nor the name
of a property inherited from `Object.prototype`, or (b) one of
`TaxPaid.TDSonSalaries`, `TaxPaid.TDSonOthThanSals`, `TaxPaid.AdvanceTax`,
`TaxPaid.SelfAssessmentTax` is present, not null and not a list; in every other case
it returns a summary. -/
theorem C29_null_iff_primitive (host : Host) (doc : JSVal) (hprim : PrimitiveLeaves doc)
    (ay : String) (hay : toStringJS host (assessmentYearOf doc) = Except.ok ay) :
    parseITRJson host doc = none ↔
      (readRule (ruleKey ay (regimeOf doc)) = none ∨
       isReshapedList ((doc.get "TaxPaid").get "TDSonSalaries") ∨
       isReshapedList ((doc.get "TaxPaid").get "TDSonOthThanSals") ∨
       isReshapedList ((doc.get "TaxPaid").get "AdvanceTax") ∨
       isReshapedList ((doc.get "TaxPaid").get "SelfAssessmentTax")) :=
  parseITRJson_none_iff host doc hprim ay hay

theorem primitiveLeaves_reshapedDoc : PrimitiveLeaves reshapedDoc := by
  constructor
  · simp [reshapedDoc, JSVal.get, List.lookup, isPrimitive]
  · simp [reshapedDoc, JSVal.get, List.lookup, isPrimitive]
  · simp [reshapedDoc, JSVal.get, List.lookup, isPrimitive]
  · simp [reshapedDoc, JSVal.get, List.lookup, isPrimitive]
  · intro items h; simp [reshapedDoc, JSVal.get, List.lookup] at h
  · intro items h; simp [reshapedDoc, JSVal.get, List.lookup] at h
  · intro items h; simp [reshapedDoc, JSVal.get, List.lookup] at h
  · intro items h; simp [reshapedDoc, JSVal.get, List.lookup] at h

/-- Instance of C29 (amended) at the document whose `TaxPaid.TDSonSalaries` is the
number 5: its rule key is "2024-25". -/
theorem C29_null_iff_primitive_witness :
    PrimitiveLeaves reshapedDoc ∧
    toStringJS exampleHost (assessmentYearOf reshapedDoc) = Except.ok "2024-25" ∧
    (parseITRJson exampleHost reshapedDoc = none ↔
      (readRule (ruleKey "2024-25" (regimeOf reshapedDoc)) = none ∨
       isReshapedList ((reshapedDoc.get "TaxPaid").get "TDSonSalaries") ∨
       isReshapedList ((reshapedDoc.get "TaxPaid").get "TDSonOthThanSals") ∨
       isReshapedList ((reshapedDoc.get "TaxPaid").get "AdvanceTax") ∨
       isReshapedList ((reshapedDoc.get "TaxPaid").get "SelfAssessmentTax"))) :=
  ⟨primitiveLeaves_reshapedDoc,
    by simp [assessmentYearOf, reshapedDoc, JSVal.get, List.lookup, JSVal.or, JSVal.truthy,
      toStringJS],
    C29_null_iff_primitive exampleHost reshapedDoc primitiveLeaves_reshapedDoc "2024-25"
      (by simp [assessmentYearOf, reshapedDoc, JSVal.get, List.lookup, JSVal.or,
        JSVal.truthy, toStringJS])⟩

/-! ## The exported file -/

set_option maxRecDepth 1000000 in
theorem readRecord_headers : readRecord (csvLine csvHeaders) = some csvHeaders := by
  decide

set_option maxRecDepth 1000000 in
theorem readRecord_exampleCells : readRecord (csvLine exampleCells) = some exampleCells := by
  decide

set_option maxRecDepth 1000000 in
theorem readRecord_quotedCells : readRecord (csvLine quotedCells) = none := by
  decide

theorem rowsOf_exampleSummary :
    rowsOf exportHost exampleLocale [exampleSummary] = Except.ok [exampleCells] := by
  simp [rowsOf, rowCells, collectCells, exampleSummary, toStringJS, localeCell, exportHost,
    exampleLocale, exampleHost, exampleCells]

theorem rowsOf_quotedClient :
    rowsOf exportHost exampleLocale [quotedClient] = Except.ok [quotedCells] := by
  simp [rowsOf, rowCells, collectCells, quotedClient, exampleSummary, toStringJS, localeCell,
    exportHost, exampleLocale, exampleHost, quotedCells]

/-- C25 (the code departs from the claim): for the one client whose name is
`Ravi "RK" Kumar`, `exportAllClientsToCsv` builds the header line followed by one line
whose first cell is the name between two double quotes with its own double quotes left
as they are; read with the double-quote rules, the header line gives the sixteen field
names, but the client line is not a record at all (the quote after `Ravi ` closes the
field and a letter follows), so it does not yield the sixteen values.  The same client
with the name `A. Kumar` gives a line that reads back as its sixteen values, commas of
the amounts included. -/
theorem C25_embedded_quote_breaks_row :
    csvHeaders.length = 16 ∧
    exportAllClientsToCsv exportHost exampleLocale [quotedClient] =
      Except.ok (some (csvLine csvHeaders ++ csvLine quotedCells)) ∧
    quotedClient.name = str ("Ravi " ++ dquote ++ "RK" ++ dquote ++ " Kumar") ∧
    readRecord (csvLine csvHeaders) = some csvHeaders ∧
    readRecord (csvLine quotedCells) = none ∧
    exportAllClientsToCsv exportHost exampleLocale [exampleSummary] =
      Except.ok (some (csvLine csvHeaders ++ csvLine exampleCells)) ∧
    readRecord (csvLine exampleCells) = some exampleCells := by
  refine ⟨rfl, ?_, rfl, readRecord_headers, readRecord_quotedCells, ?_,
    readRecord_exampleCells⟩
  · simp only [exportAllClientsToCsv, rowsOf_quotedClient]
    rfl
  · simp only [exportAllClientsToCsv, rowsOf_exampleSummary]
    rfl

/-! ## Amounts held as strings -/

theorem parseBody_textAmountsDoc :
    parseBody textHost textAmountsDoc =
      Except.ok (clientDataOf textHost textAmountsDoc (fin 30) (fin 0)
        ⟨fin 0, fin 0, fin 0, fin 0⟩
        ⟨str "01005", num (fin 0), num (fin 0), num (fin 0), str "01005000"⟩
        ⟨fin 0, str "01005000", fin 1005000, fin 0⟩) := by
  have hage : calculateAge textHost (dobOf textAmountsDoc) = Except.ok (fin 30) := by
    simp [calculateAge, dobOf, textAmountsDoc, JSVal.get, List.lookup, JSVal.or, JSVal.truthy]
  have hnet : JSVal.sub textHost (incomeDetailsOf textAmountsDoc).grossTotalIncome
      (deductionsOf textAmountsDoc).totalDeductions = Except.ok (fin 0) := by
    simp [incomeDetailsOf, deductionsOf, textAmountsDoc, JSVal.get, List.lookup, JSVal.or,
      JSVal.truthy, JSVal.sub, toNumber]
  have hay : assessmentYearOf textAmountsDoc = str "2024-25" := by
    simp [assessmentYearOf, textAmountsDoc, JSVal.get, List.lookup, JSVal.or, JSVal.truthy]
  have hreg : regimeOf textAmountsDoc = "Old" := by
    simp [regimeOf, textAmountsDoc, JSVal.get, List.lookup, JSVal.strictEqStr]
  have htax : callComputeTax textHost (fin 0) (fin 30) (str "2024-25") "Old" =
      Except.ok ⟨fin 0, fin 0, fin 0, fin 0⟩ := by
    simp only [callComputeTax, toStringJS, computeTax_default]
  have hpaid : taxPaidOf textHost textAmountsDoc =
      Except.ok ⟨str "01005", num (fin 0), num (fin 0), num (fin 0), str "01005000"⟩ := by
    simp [taxPaidOf, sumField, reduceSum, textAmountsDoc, JSVal.get, List.lookup, JSVal.or,
      JSVal.truthy, JSNum.truthy, JSVal.add, toPrimitive, addPrim, toNumber, toStringJS,
      textHost]
  have hset : finalSettlementOf textHost (fin 0)
      ⟨str "01005", num (fin 0), num (fin 0), num (fin 0), str "01005000"⟩ =
      Except.ok ⟨fin 0, str "01005000", fin 1005000, fin 0⟩ := by
    simp [finalSettlementOf, JSVal.sub, toNumber, textHost, JSNum.sub, JSNum.max]
  simp only [parseBody, hage, hnet, hay, hreg, htax, hpaid, hset]

/-- C13 (the claim fails): for the document whose `TaxPaid.TDSonSalaries` is the list
of the two entries `{TotalTDSSalary: "100"}` and `{TotalTDSSalary: 5}`, the `+` of the
reduction concatenates: `tdsSalary` is the string "01005", not the sum 105, and
`totalTaxPaid` is the string "01005000", which the final settlement reads as the
number 1005000. -/
theorem C13_text_amounts_concatenate :
    (textAmountsDoc.get "TaxPaid").get "TDSonSalaries" =
      arr [obj [("TotalTDSSalary", str "100")], obj [("TotalTDSSalary", num (fin 5))]] ∧
    (textAmountsDoc.get "TaxPaid").get "TDSonOthThanSals" = undefined ∧
    (textAmountsDoc.get "TaxPaid").get "AdvanceTax" = undefined ∧
    (textAmountsDoc.get "TaxPaid").get "SelfAssessmentTax" = undefined ∧
    ∃ s, parseITRJson textHost textAmountsDoc = some s ∧
      s.taxPaid.tdsSalary = str "01005" ∧
      s.taxPaid.totalTaxPaid = str "01005000" ∧
      s.finalSettlement.refundDue = fin 1005000 := by
  refine ⟨by simp [textAmountsDoc, JSVal.get, List.lookup],
    by simp [textAmountsDoc, JSVal.get, List.lookup],
    by simp [textAmountsDoc, JSVal.get, List.lookup],
    by simp [textAmountsDoc, JSVal.get, List.lookup],
    clientDataOf textHost textAmountsDoc (fin 30) (fin 0) ⟨fin 0, fin 0, fin 0, fin 0⟩
      ⟨str "01005", num (fin 0), num (fin 0), num (fin 0), str "01005000"⟩
      ⟨fin 0, str "01005000", fin 1005000, fin 0⟩,
    by simp only [parseITRJson, parseBody_textAmountsDoc], rfl, rfl, rfl⟩

end TaxEngine
